import Mathlib

/-!
# Standby transfer-task executor

A shallow embedding of `service/history/transferQueueStandbyTaskExecutor.go`.

The executor talks to collaborators (workflow cache, mutable-state loader,
version verifier, visibility, matching, the two history resenders, metrics and
the logger).  Every such call is recorded as a `Call`; a computation reads the
log of the calls made before it started and returns its result together with
the calls it made itself, in order.  What a collaborator answers may depend on
everything that happened before the call, so collaborators with state are
covered.
-/

namespace History

/-! ## Data model -/

/-- The Go `error` values the executor distinguishes.  `other` stands for any
error produced by a collaborator. -/
inductive Error where
  | ErrTaskRetry
  | ErrTaskDiscarded
  | errUnexpectedQueueTask
  | errUnknownTransferTask
  | Internal (Message : String)
  | other (code : Nat)
  deriving DecidableEq, Repr

/-- The task type of a transfer task.  The nine named constructors are the
cases of the `switch` in `execute`; `unknown` is any other value of the
generated enum. -/
inductive TaskType where
  | TASK_TYPE_TRANSFER_ACTIVITY_TASK
  | TASK_TYPE_TRANSFER_DECISION_TASK
  | TASK_TYPE_TRANSFER_CLOSE_EXECUTION
  | TASK_TYPE_TRANSFER_CANCEL_EXECUTION
  | TASK_TYPE_TRANSFER_SIGNAL_EXECUTION
  | TASK_TYPE_TRANSFER_START_CHILD_EXECUTION
  | TASK_TYPE_TRANSFER_RECORD_WORKFLOW_STARTED
  | TASK_TYPE_TRANSFER_RESET_WORKFLOW
  | TASK_TYPE_TRANSFER_UPSERT_WORKFLOW_SEARCH_ATTRIBUTES
  | unknown (value : Nat)
  deriving DecidableEq, Repr

/-- The fields of `persistenceblobs.TransferTaskInfo` the executor reads.
Times are nanoseconds. -/
structure TransferTaskInfo where
  NamespaceId : String
  WorkflowId : String
  RunId : String
  TaskId : Int
  TaskType : TaskType
  ScheduleId : Int
  Version : Int
  TaskQueue : String
  VisibilityTime : Int
  deriving DecidableEq, Repr

/-- The interface `queueTaskInfo`: a transfer task, or a payload of another
concrete type. -/
inductive queueTaskInfo where
  | transfer (transferTask : TransferTaskInfo)
  | otherPayload (tag : Nat)
  deriving DecidableEq, Repr

structure ActivityInfo where
  Version : Int
  StartedID : Int
  ScheduleToStartTimeout : Int
  deriving DecidableEq, Repr

structure DecisionInfo where
  Version : Int
  StartedID : Int
  deriving DecidableEq, Repr

structure RequestCancelInfo where
  Version : Int
  deriving DecidableEq, Repr

structure SignalInfo where
  Version : Int
  deriving DecidableEq, Repr

structure ChildExecutionInfo where
  Version : Int
  StartedID : Int
  deriving DecidableEq, Repr

structure HistoryEvent where
  Timestamp : Int
  deriving DecidableEq, Repr

structure WorkflowExecutionInfo where
  WorkflowTypeName : String
  WorkflowRunTimeout : Int
  TaskQueue : String
  Memo : List (String × String)
  SearchAttributes : List (String × String)
  Status : Nat
  deriving DecidableEq, Repr

/-- The struct `historyResendInfo`; `nextEventID` is a pointer in the source. -/
structure historyResendInfo where
  lastEventID : Int
  lastEventVersion : Int
  nextEventID : Option Int
  deriving DecidableEq, Repr

/-- What a predicate hands to the post-action through `interface{}`: one of the
three info structs (`nil` is `none` of `Option PostActionInfo`). -/
inductive PostActionInfo where
  | pushActivityToMatchingInfo (activityScheduleToStartTimeout : Int)
  | pushDecisionToMatchingInfo (decisionScheduleToStartTimeout : Int) (taskqueue : String)
  | historyResendInfo (info : historyResendInfo)
  deriving DecidableEq, Repr

/-- The interface `mutableState`, as far as the executor reads it.  While the
workflow context is held the projection does not change, so each accessor is a
value.  `getHistoryResendInfo` and `getWorkflowExecutionTimestamp` are helper
functions of the package applied to the mutable state; their code lies outside
this source file, so their results are taken as given: `getHistoryResendInfo`
yields an error or a resend info. -/
structure mutableState where
  IsWorkflowExecutionRunning : Bool
  GetActivityInfo : Int → Option ActivityInfo
  GetDecisionInfo : Int → Option DecisionInfo
  GetRequestCancelInfo : Int → Option RequestCancelInfo
  GetSignalInfo : Int → Option SignalInfo
  GetChildExecutionInfo : Int → Option ChildExecutionInfo
  GetExecutionInfo : WorkflowExecutionInfo
  GetNextEventID : Int
  GetCompletionEvent : Except Error HistoryEvent
  GetStartEvent : Except Error HistoryEvent
  GetLastWriteVersion : Except Error Int
  GetStartVersion : Except Error Int
  getHistoryResendInfo : Except Error historyResendInfo
  getWorkflowExecutionTimestamp : HistoryEvent → Int

/-- Arguments of `recordWorkflowClosed`. -/
structure RecordWorkflowClosedArgs where
  namespaceID : String
  workflowID : String
  runID : String
  workflowTypeName : String
  startTimeUnixNano : Int
  executionTimeUnixNano : Int
  endTimeUnixNano : Int
  status : Nat
  historyLength : Int
  taskID : Int
  visibilityMemo : List (String × String)
  taskQueue : String
  searchAttributes : List (String × String)
  deriving DecidableEq, Repr

/-- Arguments of `recordWorkflowStarted` and of `upsertWorkflowExecution`. -/
structure RecordWorkflowStartedArgs where
  namespaceID : String
  workflowID : String
  runID : String
  workflowTypeName : String
  startTimeUnixNano : Int
  executionTimeUnixNano : Int
  runTimeout : Int
  taskID : Int
  taskQueue : String
  visibilityMemo : List (String × String)
  searchAttributes : List (String × String)
  deriving DecidableEq, Repr

/-- One call to a collaborator, with its arguments. -/
inductive Call where
  | getOrCreateWorkflowExecutionForBackground (namespaceID workflowID runID : String)
  | release (err : Option Error)
  | loadMutableStateForTransferTask (transferTask : TransferTaskInfo)
  | verifyTaskVersion (namespaceID : String) (version taskVersion : Int)
  | recordWorkflowClosed (args : RecordWorkflowClosedArgs)
  | recordWorkflowStarted (args : RecordWorkflowStartedArgs)
  | upsertWorkflowExecution (args : RecordWorkflowStartedArgs)
  | pushActivity (task : TransferTaskInfo) (timeout : Int)
  | pushDecision (task : TransferTaskInfo) (taskqueue : String) (timeout : Int)
  | SendSingleWorkflowHistory (namespaceID workflowID runID : String)
      (startEventID startEventVersion endEventID endEventVersion : Int)
  | SendMultiWorkflowHistory (namespaceID beginningWorkflowID beginningRunID : String)
      (beginningFirstEventID : Int) (endingRunID : String) (endingNextEventID : Int)
  | GetCurrentTime (clusterName : String)
  | IncCounter
  | StartTimer
  | stopwatchStop
  | loggerError (shardID : Int) (namespaceID workflowID runID sourceCluster : String)
  deriving DecidableEq, Repr

/-- The executor with its collaborators.  A collaborator's answer is a function
of the calls made so far and of the arguments of the call.  The domain
constants of package `common` and the two configured delays are fields too. -/
structure transferQueueStandbyTaskExecutor where
  clusterName : String
  shardID : Int
  EmptyEventID : Int
  EmptyVersion : Int
  EndEventID : Int
  MaxTaskTimeout : Int
  StandbyTaskMissingEventsResendDelay : Int
  StandbyTaskMissingEventsDiscardDelay : Int
  getOrCreateWorkflowExecutionForBackground : List Call → String → String → String → Option Error
  loadMutableStateForTransferTask : List Call → TransferTaskInfo → Option mutableState × Option Error
  verifyTaskVersion : List Call → String → Int → Int → Bool × Option Error
  recordWorkflowClosed : List Call → RecordWorkflowClosedArgs → Option Error
  recordWorkflowStarted : List Call → RecordWorkflowStartedArgs → Option Error
  upsertWorkflowExecution : List Call → RecordWorkflowStartedArgs → Option Error
  basePushActivity : List Call → TransferTaskInfo → Int → Option Error
  basePushDecision : List Call → TransferTaskInfo → String → Int → Option Error
  SendSingleWorkflowHistory : List Call → String → String → String → Int → Int → Int → Int → Option Error
  SendMultiWorkflowHistory : List Call → String → String → String → Int → String → Int → Option Error
  GetCurrentTime : List Call → String → Int
  getWorkflowMemo : List (String × String) → List (String × String)

/-- How a Go function call ends: it returns an `error` (`none` is `nil`), or it
panics on a failed type assertion. -/
inductive Outcome where
  | returned (err : Option Error)
  | panicked
  deriving DecidableEq, Repr

/-! ## Computations that call collaborators -/

/-- A computation: given the calls made before it started, its result and the
calls it made itself. -/
def Exec (α : Type) : Type := List Call → α × List Call

namespace Exec

/-- Return without calling anything. -/
def ret {α : Type} (a : α) : Exec α := fun _ => (a, [])

/-- Run `m`, then `f` on its result; `f` sees the calls of `m` as made. -/
def andThen {α β : Type} (m : Exec α) (f : α → Exec β) : Exec β := fun log =>
  let r := m log
  let s := f r.1 (log ++ r.2)
  (s.1, r.2 ++ s.2)

/-- Make one call `c` whose answer is `answer` applied to the calls so far. -/
def call {α : Type} (c : Call) (answer : List Call → α) : Exec α := fun log =>
  (answer log, [c])

end Exec

instance : Monad Exec where
  pure := Exec.ret
  bind := Exec.andThen

/-- The log a call of `release` or of a collaborator without an answer leaves. -/
def Exec.emit (c : Call) : Exec Unit := Exec.call c (fun _ => ())

/-! ## The executor -/

/-- A predicate: `func(workflowExecutionContext, mutableState) (interface{}, error)`. -/
abbrev standbyActionFn : Type := mutableState → Exec (Option PostActionInfo × Option Error)

/-- A post-action: `func(queueTaskInfo, interface{}, log.Logger) error`. -/
abbrev standbyPostActionFn : Type := queueTaskInfo → Option PostActionInfo → Exec Outcome

/-- Modelled from the spec: `common.MinInt32` is defined outside this source
file; the spec writes it `min`. -/
def MinInt32 (a b : Int) : Int := min a b

/-- The package function `verifyTaskVersion`, a collaborator (spec 4.3): it
answers whether the task is valid for further processing, and an error. -/
def verifyTaskVersion (t : transferQueueStandbyTaskExecutor) (namespaceID : String)
    (version taskVersion : Int) : Exec (Bool × Option Error) :=
  Exec.call (Call.verifyTaskVersion namespaceID version taskVersion)
    (fun log => t.verifyTaskVersion log namespaceID version taskVersion)

/-- The method `getCurrentTime`: `t.shard.GetCurrentTime(t.clusterName)`. -/
def getCurrentTime (t : transferQueueStandbyTaskExecutor) : Exec Int :=
  Exec.call (Call.GetCurrentTime t.clusterName) (fun log => t.GetCurrentTime log t.clusterName)

/-- Modelled from the spec: `standbyTaskPostActionNoOp` is defined outside this
source file; the spec calls it a no-op post-action.  The three handlers that
use it hand it a nil info only. -/
def standbyTaskPostActionNoOp : standbyPostActionFn :=
  fun _ _ => pure (Outcome.returned none)

/-- Modelled from the spec: `standbyTransferTaskPostActionTaskDiscarded` is
defined outside this source file; by 4.5 a post-action succeeds on a nil info,
and the discarded action of a resend kind returns the `TaskDiscarded` terminal
error. -/
def standbyTransferTaskPostActionTaskDiscarded : standbyPostActionFn :=
  fun _ postActionInfo =>
    match postActionInfo with
    | none => pure (Outcome.returned none)
    | some _ => pure (Outcome.returned (some Error.ErrTaskDiscarded))

/-- Modelled from the spec: `getStandbyPostActionFn` is defined outside this
source file; this is the post-action ladder of 4.5.  On a nil info it succeeds.
Otherwise `age = now - task.visibilityTimestamp`; below the resend delay it
returns `TaskRetry`, below the discard delay it runs the now-action, and from
the discard delay on it runs the discarded action. -/
def getStandbyPostActionFn (taskInfo : TransferTaskInfo) (standbyNow : Exec Int)
    (standbyTaskMissingEventsResendDelay standbyTaskMissingEventsDiscardDelay : Int)
    (fetchHistoryStandbyPostActionFn discardTaskStandbyPostActionFn : standbyPostActionFn) :
    standbyPostActionFn :=
  fun task postActionInfo =>
    match postActionInfo with
    | none => pure (Outcome.returned none)
    | some info => do
      let now ← standbyNow
      let age := now - taskInfo.VisibilityTime
      if age < standbyTaskMissingEventsResendDelay then
        pure (Outcome.returned (some Error.ErrTaskRetry))
      else if age < standbyTaskMissingEventsDiscardDelay then
        fetchHistoryStandbyPostActionFn task (some info)
      else
        discardTaskStandbyPostActionFn task (some info)

/-- The method `pushActivity` (lines 515-531). -/
def pushActivity (t : transferQueueStandbyTaskExecutor) : standbyPostActionFn :=
  fun task postActionInfo =>
    match postActionInfo with
    | none => pure (Outcome.returned none)
    | some (PostActionInfo.pushActivityToMatchingInfo activityScheduleToStartTimeout) =>
      let timeout := MinInt32 activityScheduleToStartTimeout t.MaxTaskTimeout
      match task with
      | queueTaskInfo.transfer transferTask => do
        let err ← Exec.call (Call.pushActivity transferTask timeout)
          (fun log => t.basePushActivity log transferTask timeout)
        pure (Outcome.returned err)
      | queueTaskInfo.otherPayload _ => pure Outcome.panicked
    | some _ => pure Outcome.panicked

/-- The method `pushDecision` (lines 533-550). -/
def pushDecision (t : transferQueueStandbyTaskExecutor) : standbyPostActionFn :=
  fun task postActionInfo =>
    match postActionInfo with
    | none => pure (Outcome.returned none)
    | some (PostActionInfo.pushDecisionToMatchingInfo decisionScheduleToStartTimeout taskqueue) =>
      let timeout := MinInt32 decisionScheduleToStartTimeout t.MaxTaskTimeout
      match task with
      | queueTaskInfo.transfer transferTask => do
        let err ← Exec.call (Call.pushDecision transferTask taskqueue timeout)
          (fun log => t.basePushDecision log transferTask taskqueue timeout)
        pure (Outcome.returned err)
      | queueTaskInfo.otherPayload _ => pure Outcome.panicked
    | some _ => pure Outcome.panicked

/-- The message of the `serviceerror.Internal` built on line 590. -/
def emptyHistoryResendInfoMessage : String :=
  "transferQueueStandbyProcessor encounter empty historyResendInfo"

/-- Lines 569-593 of `fetchHistoryFromRemote`: the choice of the cursor, and the
value left in the local variable `err`. -/
def resendHistory (t : transferQueueStandbyTaskExecutor) (transferTask : TransferTaskInfo)
    (resendInfo : historyResendInfo) : Exec (Option Error) :=
  if resendInfo.lastEventID ≠ t.EmptyEventID ∧ resendInfo.lastEventVersion ≠ t.EmptyVersion then
    Exec.call
      (Call.SendSingleWorkflowHistory transferTask.NamespaceId transferTask.WorkflowId
        transferTask.RunId resendInfo.lastEventID resendInfo.lastEventVersion 0 0)
      (fun log => t.SendSingleWorkflowHistory log transferTask.NamespaceId
        transferTask.WorkflowId transferTask.RunId resendInfo.lastEventID
        resendInfo.lastEventVersion 0 0)
  else
    match resendInfo.nextEventID with
    | some nextEventID =>
      Exec.call
        (Call.SendMultiWorkflowHistory transferTask.NamespaceId transferTask.WorkflowId
          transferTask.RunId nextEventID transferTask.RunId t.EndEventID)
        (fun log => t.SendMultiWorkflowHistory log transferTask.NamespaceId
          transferTask.WorkflowId transferTask.RunId nextEventID transferTask.RunId
          t.EndEventID)
    | none => pure (some (Error.Internal emptyHistoryResendInfoMessage))

/-- Lines 595-602 of `fetchHistoryFromRemote`: the error is logged, with the
shard, the workflow and the source cluster as tags. -/
def logResendError (t : transferQueueStandbyTaskExecutor) (transferTask : TransferTaskInfo)
    (err : Option Error) : Exec Unit :=
  match err with
  | some _ =>
    Exec.emit (Call.loggerError t.shardID transferTask.NamespaceId transferTask.WorkflowId
      transferTask.RunId t.clusterName)
  | none => pure ()

/-- The method `fetchHistoryFromRemote` (lines 552-606).  The deferred
`stopwatch.Stop()` runs last; the value returned is `ErrTaskRetry` whatever
`err` holds. -/
def fetchHistoryFromRemote (t : transferQueueStandbyTaskExecutor) : standbyPostActionFn :=
  fun taskInfo postActionInfo =>
    match postActionInfo with
    | none => pure (Outcome.returned none)
    | some info =>
      match taskInfo with
      | queueTaskInfo.otherPayload _ => pure Outcome.panicked
      | queueTaskInfo.transfer transferTask =>
        match info with
        | PostActionInfo.historyResendInfo resendInfo => do
          Exec.emit Call.IncCounter
          Exec.emit Call.StartTimer
          let err ← resendHistory t transferTask resendInfo
          logResendError t transferTask err
          Exec.emit Call.stopwatchStop
          pure (Outcome.returned (some Error.ErrTaskRetry))
        | _ => pure Outcome.panicked

/-- Lines 496-512 of `processTransfer`: what runs between the registration of
the deferred release and the return. -/
def processTransferBody (t : transferQueueStandbyTaskExecutor) (processTaskIfClosed : Bool)
    (taskInfo : queueTaskInfo) (transferTask : TransferTaskInfo)
    (actionFn : standbyActionFn) (postActionFn : standbyPostActionFn) : Exec Outcome := do
  let loaded ← Exec.call (Call.loadMutableStateForTransferTask transferTask)
    (fun log => t.loadMutableStateForTransferTask log transferTask)
  match loaded with
  | (_, some err) => pure (Outcome.returned (some err))
  | (none, none) => pure (Outcome.returned none)
  | (some mutableState, none) =>
    if mutableState.IsWorkflowExecutionRunning = false ∧ processTaskIfClosed = false then
      pure (Outcome.returned none)
    else do
      let acted ← actionFn mutableState
      match acted with
      | (_, some err) => pure (Outcome.returned (some err))
      | (historyResendInfo, none) => do
        Exec.emit (Call.release none)
        postActionFn taskInfo historyResendInfo

/-- The deferred function of `processTransfer` (lines 488-494).  When the body
panicked the named result `retError` still holds `nil`. -/
def processTransferDeferred (out : Outcome) : Exec Outcome :=
  match out with
  | Outcome.returned retError => do
    if retError = some Error.ErrTaskRetry then
      Exec.emit (Call.release none)
    else
      Exec.emit (Call.release retError)
    pure (Outcome.returned retError)
  | Outcome.panicked => do
    Exec.emit (Call.release none)
    pure Outcome.panicked

/-- The method `processTransfer` (lines 474-513). -/
def processTransfer (t : transferQueueStandbyTaskExecutor) (processTaskIfClosed : Bool)
    (taskInfo : queueTaskInfo) (actionFn : standbyActionFn)
    (postActionFn : standbyPostActionFn) : Exec Outcome :=
  match taskInfo with
  | queueTaskInfo.otherPayload _ => pure Outcome.panicked
  | queueTaskInfo.transfer transferTask => do
    let err ← Exec.call
      (Call.getOrCreateWorkflowExecutionForBackground transferTask.NamespaceId
        transferTask.WorkflowId transferTask.RunId)
      (fun log => t.getOrCreateWorkflowExecutionForBackground log transferTask.NamespaceId
        transferTask.WorkflowId transferTask.RunId)
    match err with
    | some e => pure (Outcome.returned (some e))
    | none => do
      let out ← processTransferBody t processTaskIfClosed taskInfo transferTask actionFn
        postActionFn
      processTransferDeferred out

/-- The predicate of `processActivityTask` (lines 123-142). -/
def processActivityTaskActionFn (t : transferQueueStandbyTaskExecutor)
    (transferTask : TransferTaskInfo) : standbyActionFn :=
  fun mutableState =>
    match mutableState.GetActivityInfo transferTask.ScheduleId with
    | none => pure (none, none)
    | some activityInfo => do
      let verified ← verifyTaskVersion t transferTask.NamespaceId activityInfo.Version
        transferTask.Version
      match verified with
      | (_, some err) => pure (none, some err)
      | (false, none) => pure (none, none)
      | (true, none) =>
        if activityInfo.StartedID = t.EmptyEventID then
          pure (some (PostActionInfo.pushActivityToMatchingInfo
            activityInfo.ScheduleToStartTimeout), none)
        else
          pure (none, none)

/-- The method `processActivityTask` (lines 118-157). -/
def processActivityTask (t : transferQueueStandbyTaskExecutor)
    (transferTask : TransferTaskInfo) : Exec Outcome :=
  processTransfer t false (queueTaskInfo.transfer transferTask)
    (processActivityTaskActionFn t transferTask)
    (getStandbyPostActionFn transferTask (getCurrentTime t)
      t.StandbyTaskMissingEventsResendDelay t.StandbyTaskMissingEventsDiscardDelay
      (pushActivity t) (pushActivity t))

/-- The predicate of `processDecisionTask` (lines 164-188). -/
def processDecisionTaskActionFn (t : transferQueueStandbyTaskExecutor)
    (transferTask : TransferTaskInfo) : standbyActionFn :=
  fun mutableState =>
    match mutableState.GetDecisionInfo transferTask.ScheduleId with
    | none => pure (none, none)
    | some decisionInfo =>
      let executionInfo := mutableState.GetExecutionInfo
      let workflowTimeout := executionInfo.WorkflowRunTimeout
      let decisionTimeout := MinInt32 workflowTimeout t.MaxTaskTimeout
      do
      let verified ← verifyTaskVersion t transferTask.NamespaceId decisionInfo.Version
        transferTask.Version
      match verified with
      | (_, some err) => pure (none, some err)
      | (false, none) => pure (none, none)
      | (true, none) =>
        if decisionInfo.StartedID = t.EmptyEventID then
          pure (some (PostActionInfo.pushDecisionToMatchingInfo decisionTimeout
            transferTask.TaskQueue), none)
        else
          pure (none, none)

/-- The method `processDecisionTask` (lines 159-203). -/
def processDecisionTask (t : transferQueueStandbyTaskExecutor)
    (transferTask : TransferTaskInfo) : Exec Outcome :=
  processTransfer t false (queueTaskInfo.transfer transferTask)
    (processDecisionTaskActionFn t transferTask)
    (getStandbyPostActionFn transferTask (getCurrentTime t)
      t.StandbyTaskMissingEventsResendDelay t.StandbyTaskMissingEventsDiscardDelay
      (pushDecision t) (pushDecision t))

/-- The predicate of `processCloseExecution` (lines 210-263). -/
def processCloseExecutionActionFn (t : transferQueueStandbyTaskExecutor)
    (transferTask : TransferTaskInfo) : standbyActionFn :=
  fun mutableState =>
    if mutableState.IsWorkflowExecutionRunning = true then
      pure (none, none)
    else
      match mutableState.GetCompletionEvent with
      | Except.error err => pure (none, some err)
      | Except.ok completionEvent =>
        let wfCloseTime := completionEvent.Timestamp
        let executionInfo := mutableState.GetExecutionInfo
        let workflowTypeName := executionInfo.WorkflowTypeName
        let workflowCloseTimestamp := wfCloseTime
        let workflowStatus := executionInfo.Status
        let workflowHistoryLength := mutableState.GetNextEventID - 1
        match mutableState.GetStartEvent with
        | Except.error err => pure (none, some err)
        | Except.ok startEvent =>
          let workflowStartTimestamp := startEvent.Timestamp
          let workflowExecutionTimestamp :=
            mutableState.getWorkflowExecutionTimestamp startEvent
          let visibilityMemo := t.getWorkflowMemo executionInfo.Memo
          let searchAttr := executionInfo.SearchAttributes
          match mutableState.GetLastWriteVersion with
          | Except.error err => pure (none, some err)
          | Except.ok lastWriteVersion => do
            let verified ← verifyTaskVersion t transferTask.NamespaceId lastWriteVersion
              transferTask.Version
            match verified with
            | (_, some err) => pure (none, some err)
            | (false, none) => pure (none, none)
            | (true, none) => do
              let args : RecordWorkflowClosedArgs :=
                { namespaceID := transferTask.NamespaceId
                  workflowID := transferTask.WorkflowId
                  runID := transferTask.RunId
                  workflowTypeName := workflowTypeName
                  startTimeUnixNano := workflowStartTimestamp
                  executionTimeUnixNano := workflowExecutionTimestamp
                  endTimeUnixNano := workflowCloseTimestamp
                  status := workflowStatus
                  historyLength := workflowHistoryLength
                  taskID := transferTask.TaskId
                  visibilityMemo := visibilityMemo
                  taskQueue := executionInfo.TaskQueue
                  searchAttributes := searchAttr }
              let err ← Exec.call (Call.recordWorkflowClosed args)
                (fun log => t.recordWorkflowClosed log args)
              pure (none, err)

/-- The method `processCloseExecution` (lines 205-271). -/
def processCloseExecution (t : transferQueueStandbyTaskExecutor)
    (transferTask : TransferTaskInfo) : Exec Outcome :=
  processTransfer t true (queueTaskInfo.transfer transferTask)
    (processCloseExecutionActionFn t transferTask)
    standbyTaskPostActionNoOp

/-- The last statement of the three resend predicates:
`return getHistoryResendInfo(mutableState)`. -/
def returnHistoryResendInfo (mutableState : mutableState) :
    Option PostActionInfo × Option Error :=
  match mutableState.getHistoryResendInfo with
  | Except.error err => (none, some err)
  | Except.ok info => (some (PostActionInfo.historyResendInfo info), none)

/-- The predicate of `processCancelExecution` (lines 278-291). -/
def processCancelExecutionActionFn (t : transferQueueStandbyTaskExecutor)
    (transferTask : TransferTaskInfo) : standbyActionFn :=
  fun mutableState =>
    match mutableState.GetRequestCancelInfo transferTask.ScheduleId with
    | none => pure (none, none)
    | some requestCancelInfo => do
      let verified ← verifyTaskVersion t transferTask.NamespaceId requestCancelInfo.Version
        transferTask.Version
      match verified with
      | (_, some err) => pure (none, some err)
      | (false, none) => pure (none, none)
      | (true, none) => pure (returnHistoryResendInfo mutableState)

/-- The method `processCancelExecution` (lines 273-306). -/
def processCancelExecution (t : transferQueueStandbyTaskExecutor)
    (transferTask : TransferTaskInfo) : Exec Outcome :=
  processTransfer t false (queueTaskInfo.transfer transferTask)
    (processCancelExecutionActionFn t transferTask)
    (getStandbyPostActionFn transferTask (getCurrentTime t)
      t.StandbyTaskMissingEventsResendDelay t.StandbyTaskMissingEventsDiscardDelay
      (fetchHistoryFromRemote t) standbyTransferTaskPostActionTaskDiscarded)

/-- The predicate of `processSignalExecution` (lines 313-326). -/
def processSignalExecutionActionFn (t : transferQueueStandbyTaskExecutor)
    (transferTask : TransferTaskInfo) : standbyActionFn :=
  fun mutableState =>
    match mutableState.GetSignalInfo transferTask.ScheduleId with
    | none => pure (none, none)
    | some signalInfo => do
      let verified ← verifyTaskVersion t transferTask.NamespaceId signalInfo.Version
        transferTask.Version
      match verified with
      | (_, some err) => pure (none, some err)
      | (false, none) => pure (none, none)
      | (true, none) => pure (returnHistoryResendInfo mutableState)

/-- The method `processSignalExecution` (lines 308-341). -/
def processSignalExecution (t : transferQueueStandbyTaskExecutor)
    (transferTask : TransferTaskInfo) : Exec Outcome :=
  processTransfer t false (queueTaskInfo.transfer transferTask)
    (processSignalExecutionActionFn t transferTask)
    (getStandbyPostActionFn transferTask (getCurrentTime t)
      t.StandbyTaskMissingEventsResendDelay t.StandbyTaskMissingEventsDiscardDelay
      (fetchHistoryFromRemote t) standbyTransferTaskPostActionTaskDiscarded)

/-- The predicate of `processStartChildExecution` (lines 348-365). -/
def processStartChildExecutionActionFn (t : transferQueueStandbyTaskExecutor)
    (transferTask : TransferTaskInfo) : standbyActionFn :=
  fun mutableState =>
    match mutableState.GetChildExecutionInfo transferTask.ScheduleId with
    | none => pure (none, none)
    | some childWorkflowInfo => do
      let verified ← verifyTaskVersion t transferTask.NamespaceId childWorkflowInfo.Version
        transferTask.Version
      match verified with
      | (_, some err) => pure (none, some err)
      | (false, none) => pure (none, none)
      | (true, none) =>
        if childWorkflowInfo.StartedID ≠ t.EmptyEventID then
          pure (none, none)
        else
          pure (returnHistoryResendInfo mutableState)

/-- The method `processStartChildExecution` (lines 343-380). -/
def processStartChildExecution (t : transferQueueStandbyTaskExecutor)
    (transferTask : TransferTaskInfo) : Exec Outcome :=
  processTransfer t false (queueTaskInfo.transfer transferTask)
    (processStartChildExecutionActionFn t transferTask)
    (getStandbyPostActionFn transferTask (getCurrentTime t)
      t.StandbyTaskMissingEventsResendDelay t.StandbyTaskMissingEventsDiscardDelay
      (fetchHistoryFromRemote t) standbyTransferTaskPostActionTaskDiscarded)

/-- Modelled from the spec: `copySearchAttributes` is defined outside this
source file; the spec says the search attributes are copied defensively, so the
copy has the value of the original. -/
def copySearchAttributes (input : List (String × String)) : List (String × String) := input

/-- Lines 431-470 of `processRecordWorkflowStartedOrUpsertHelper`: what follows
the verification of the start version. -/
def recordWorkflowStartedOrUpsert (t : transferQueueStandbyTaskExecutor)
    (transferTask : TransferTaskInfo) (mutableState : mutableState)
    (isRecordStart : Bool) : Exec (Option Error) :=
  let executionInfo := mutableState.GetExecutionInfo
  let workflowTimeout := executionInfo.WorkflowRunTimeout
  let wfTypeName := executionInfo.WorkflowTypeName
  match mutableState.GetStartEvent with
  | Except.error err => pure (some err)
  | Except.ok startEvent =>
    let startTimestamp := startEvent.Timestamp
    let executionTimestamp := mutableState.getWorkflowExecutionTimestamp startEvent
    let visibilityMemo := t.getWorkflowMemo executionInfo.Memo
    let searchAttr := copySearchAttributes executionInfo.SearchAttributes
    let args : RecordWorkflowStartedArgs :=
      { namespaceID := transferTask.NamespaceId
        workflowID := transferTask.WorkflowId
        runID := transferTask.RunId
        workflowTypeName := wfTypeName
        startTimeUnixNano := startTimestamp
        executionTimeUnixNano := executionTimestamp
        runTimeout := workflowTimeout
        taskID := transferTask.TaskId
        taskQueue := executionInfo.TaskQueue
        visibilityMemo := visibilityMemo
        searchAttributes := searchAttr }
    if isRecordStart = true then
      Exec.call (Call.recordWorkflowStarted args) (fun log => t.recordWorkflowStarted log args)
    else
      Exec.call (Call.upsertWorkflowExecution args)
        (fun log => t.upsertWorkflowExecution log args)

/-- The method `processRecordWorkflowStartedOrUpsertHelper` (lines 412-472). -/
def processRecordWorkflowStartedOrUpsertHelper (t : transferQueueStandbyTaskExecutor)
    (transferTask : TransferTaskInfo) (mutableState : mutableState)
    (isRecordStart : Bool) : Exec (Option Error) :=
  if isRecordStart = true then
    match mutableState.GetStartVersion with
    | Except.error err => pure (some err)
    | Except.ok startVersion => do
      let verified ← verifyTaskVersion t transferTask.NamespaceId startVersion
        transferTask.Version
      match verified with
      | (_, some err) => pure (some err)
      | (false, none) => pure none
      | (true, none) => recordWorkflowStartedOrUpsert t transferTask mutableState isRecordStart
  else
    recordWorkflowStartedOrUpsert t transferTask mutableState isRecordStart

/-- The predicate of `processRecordWorkflowStarted` and of
`processUpsertWorkflowSearchAttributes` (lines 390-392 and 405-407). -/
def processRecordWorkflowStartedOrUpsertActionFn (t : transferQueueStandbyTaskExecutor)
    (transferTask : TransferTaskInfo) (isRecordStart : Bool) : standbyActionFn :=
  fun mutableState => do
    let err ← processRecordWorkflowStartedOrUpsertHelper t transferTask mutableState
      isRecordStart
    pure (none, err)

/-- The method `processRecordWorkflowStarted` (lines 382-395). -/
def processRecordWorkflowStarted (t : transferQueueStandbyTaskExecutor)
    (transferTask : TransferTaskInfo) : Exec Outcome :=
  processTransfer t false (queueTaskInfo.transfer transferTask)
    (processRecordWorkflowStartedOrUpsertActionFn t transferTask true)
    standbyTaskPostActionNoOp

/-- The method `processUpsertWorkflowSearchAttributes` (lines 397-410). -/
def processUpsertWorkflowSearchAttributes (t : transferQueueStandbyTaskExecutor)
    (transferTask : TransferTaskInfo) : Exec Outcome :=
  processTransfer t false (queueTaskInfo.transfer transferTask)
    (processRecordWorkflowStartedOrUpsertActionFn t transferTask false)
    standbyTaskPostActionNoOp

/-- The method `execute` (lines 76-116). -/
def execute (t : transferQueueStandbyTaskExecutor) (taskInfo : queueTaskInfo)
    (shouldProcessTask : Bool) : Exec Outcome :=
  match taskInfo with
  | queueTaskInfo.otherPayload _ => pure (Outcome.returned (some Error.errUnexpectedQueueTask))
  | queueTaskInfo.transfer transferTask =>
    if shouldProcessTask = false ∧
        transferTask.TaskType ≠ TaskType.TASK_TYPE_TRANSFER_CLOSE_EXECUTION then
      pure (Outcome.returned none)
    else
      match transferTask.TaskType with
      | TaskType.TASK_TYPE_TRANSFER_ACTIVITY_TASK => processActivityTask t transferTask
      | TaskType.TASK_TYPE_TRANSFER_DECISION_TASK => processDecisionTask t transferTask
      | TaskType.TASK_TYPE_TRANSFER_CLOSE_EXECUTION => processCloseExecution t transferTask
      | TaskType.TASK_TYPE_TRANSFER_CANCEL_EXECUTION => processCancelExecution t transferTask
      | TaskType.TASK_TYPE_TRANSFER_SIGNAL_EXECUTION => processSignalExecution t transferTask
      | TaskType.TASK_TYPE_TRANSFER_START_CHILD_EXECUTION =>
        processStartChildExecution t transferTask
      | TaskType.TASK_TYPE_TRANSFER_RECORD_WORKFLOW_STARTED =>
        processRecordWorkflowStarted t transferTask
      | TaskType.TASK_TYPE_TRANSFER_RESET_WORKFLOW => pure (Outcome.returned none)
      | TaskType.TASK_TYPE_TRANSFER_UPSERT_WORKFLOW_SEARCH_ATTRIBUTES =>
        processUpsertWorkflowSearchAttributes t transferTask
      | TaskType.unknown _ => pure (Outcome.returned (some Error.errUnknownTransferTask))

/-! ## Observing a log -/

/-- The arguments of the invocations of `release` in a log, in order. -/
def releases (calls : List Call) : List (Option Error) :=
  calls.filterMap (fun c =>
    match c with
    | Call.release err => some err
    | _ => none)

/-- A call to one of the two history resenders. -/
def Call.isResend : Call → Bool
  | Call.SendSingleWorkflowHistory _ _ _ _ _ _ _ => true
  | Call.SendMultiWorkflowHistory _ _ _ _ _ _ => true
  | _ => false

/-- A write to visibility. -/
def Call.isVisibilityWrite : Call → Bool
  | Call.recordWorkflowClosed _ => true
  | Call.recordWorkflowStarted _ => true
  | Call.upsertWorkflowExecution _ => true
  | _ => false

/-- A push to matching. -/
def Call.isMatchingPush : Call → Bool
  | Call.pushActivity _ _ => true
  | Call.pushDecision _ _ _ => true
  | _ => false

/-- A consultation of the version verifier. -/
def Call.isVerify : Call → Bool
  | Call.verifyTaskVersion _ _ _ => true
  | _ => false

/-- The calls to the history resenders in a log, in order. -/
def resendCalls (calls : List Call) : List Call := calls.filter Call.isResend

/-- The visibility writes in a log, in order. -/
def visibilityWrites (calls : List Call) : List Call := calls.filter Call.isVisibilityWrite

/-- The visibility writes, matching pushes and remote resends in a log. -/
def sideEffects (calls : List Call) : List Call :=
  calls.filter (fun c => c.isVisibilityWrite || c.isMatchingPush || c.isResend)

/-- The consultations of the version verifier in a log. -/
def verifyCalls (calls : List Call) : List Call := calls.filter Call.isVerify

/-- The argument the deferred function of `processTransfer` passes to
`release` when the call ends with `out`. -/
def deferredReleaseArg (out : Outcome) : Option Error :=
  match out with
  | Outcome.returned retError => if retError = some Error.ErrTaskRetry then none else retError
  | Outcome.panicked => none

/-- The call to the workflow cache that `processTransfer` makes for a task. -/
def acquireCall (transferTask : TransferTaskInfo) : Call :=
  Call.getOrCreateWorkflowExecutionForBackground transferTask.NamespaceId
    transferTask.WorkflowId transferTask.RunId

/-- The cache hands out the workflow context to a call of `processTransfer`
started after `log`. -/
def acquiresContext (t : transferQueueStandbyTaskExecutor) (transferTask : TransferTaskInfo)
    (log : List Call) : Prop :=
  t.getOrCreateWorkflowExecutionForBackground log transferTask.NamespaceId
    transferTask.WorkflowId transferTask.RunId = none

/-- A call of `processTransfer` started after `log` gets as far as the
post-action: the loader returns a mutable state and no error, the workflow is
running or the task is processed when closed, and the predicate returns no
error. -/
def reachesPostAction (t : transferQueueStandbyTaskExecutor) (processTaskIfClosed : Bool)
    (transferTask : TransferTaskInfo) (actionFn : standbyActionFn) (log : List Call) : Prop :=
  ∃ mutableState : mutableState,
    t.loadMutableStateForTransferTask (log ++ [acquireCall transferTask]) transferTask
        = (some mutableState, none) ∧
      (mutableState.IsWorkflowExecutionRunning = true ∨ processTaskIfClosed = true) ∧
      (actionFn mutableState
        (log ++ [acquireCall transferTask,
          Call.loadMutableStateForTransferTask transferTask])).1.2 = none

/-- The handler that `execute` runs for a transfer task, as the flag
`processTaskIfClosed` and the predicate it passes to `processTransfer`; `none`
when `execute` returns at the dispatcher (the task is skipped at the guard, is
a ResetWorkflow task or has an unknown kind). -/
def handlerOf (t : transferQueueStandbyTaskExecutor) (transferTask : TransferTaskInfo)
    (shouldProcessTask : Bool) : Option (Bool × standbyActionFn) :=
  if shouldProcessTask = false ∧
      transferTask.TaskType ≠ TaskType.TASK_TYPE_TRANSFER_CLOSE_EXECUTION then
    none
  else
    match transferTask.TaskType with
    | TaskType.TASK_TYPE_TRANSFER_ACTIVITY_TASK =>
      some (false, processActivityTaskActionFn t transferTask)
    | TaskType.TASK_TYPE_TRANSFER_DECISION_TASK =>
      some (false, processDecisionTaskActionFn t transferTask)
    | TaskType.TASK_TYPE_TRANSFER_CLOSE_EXECUTION =>
      some (true, processCloseExecutionActionFn t transferTask)
    | TaskType.TASK_TYPE_TRANSFER_CANCEL_EXECUTION =>
      some (false, processCancelExecutionActionFn t transferTask)
    | TaskType.TASK_TYPE_TRANSFER_SIGNAL_EXECUTION =>
      some (false, processSignalExecutionActionFn t transferTask)
    | TaskType.TASK_TYPE_TRANSFER_START_CHILD_EXECUTION =>
      some (false, processStartChildExecutionActionFn t transferTask)
    | TaskType.TASK_TYPE_TRANSFER_RECORD_WORKFLOW_STARTED =>
      some (false, processRecordWorkflowStartedOrUpsertActionFn t transferTask true)
    | TaskType.TASK_TYPE_TRANSFER_RESET_WORKFLOW => none
    | TaskType.TASK_TYPE_TRANSFER_UPSERT_WORKFLOW_SEARCH_ATTRIBUTES =>
      some (false, processRecordWorkflowStartedOrUpsertActionFn t transferTask false)
    | TaskType.unknown _ => none

/-! ## Sample inputs -/

/-- A closed workflow with eight events whose version history ends at event 7,
version 3. -/
def sampleMutableState : mutableState :=
  { IsWorkflowExecutionRunning := false
    GetActivityInfo := fun _ => none
    GetDecisionInfo := fun _ => none
    GetRequestCancelInfo := fun _ => none
    GetSignalInfo := fun _ => none
    GetChildExecutionInfo := fun _ => none
    GetExecutionInfo :=
      { WorkflowTypeName := "wf-type"
        WorkflowRunTimeout := 60
        TaskQueue := "tq"
        Memo := []
        SearchAttributes := []
        Status := 1 }
    GetNextEventID := 9
    GetCompletionEvent := Except.ok { Timestamp := 2000 }
    GetStartEvent := Except.ok { Timestamp := 1000 }
    GetLastWriteVersion := Except.ok 3
    GetStartVersion := Except.ok 3
    getHistoryResendInfo :=
      Except.ok { lastEventID := 7, lastEventVersion := 3, nextEventID := none }
    getWorkflowExecutionTimestamp := fun startEvent => startEvent.Timestamp }

/-- An executor whose collaborators all succeed: the cache hands out the
context, the loader returns `sampleMutableState`, the verifier accepts equal
versions, and the clock of the cluster reads 100000. -/
def sampleExecutor : transferQueueStandbyTaskExecutor :=
  { clusterName := "standby"
    shardID := 1
    EmptyEventID := 0
    EmptyVersion := 0
    EndEventID := 9223372036854775807
    MaxTaskTimeout := 31622400
    StandbyTaskMissingEventsResendDelay := 10
    StandbyTaskMissingEventsDiscardDelay := 300
    getOrCreateWorkflowExecutionForBackground := fun _ _ _ _ => none
    loadMutableStateForTransferTask := fun _ _ => (some sampleMutableState, none)
    verifyTaskVersion := fun _ _ version taskVersion => (decide (version = taskVersion), none)
    recordWorkflowClosed := fun _ _ => none
    recordWorkflowStarted := fun _ _ => none
    upsertWorkflowExecution := fun _ _ => none
    basePushActivity := fun _ _ _ => none
    basePushDecision := fun _ _ _ _ => none
    SendSingleWorkflowHistory := fun _ _ _ _ _ _ _ _ => none
    SendMultiWorkflowHistory := fun _ _ _ _ _ _ _ => none
    GetCurrentTime := fun _ _ => 100000
    getWorkflowMemo := fun memo => memo }

/-- A transfer task of the given kind for schedule id 5 and version 3, made
visible at time 99970. -/
def sampleTask (kind : TaskType) : TransferTaskInfo :=
  { NamespaceId := "ns"
    WorkflowId := "wf"
    RunId := "run"
    TaskId := 42
    TaskType := kind
    ScheduleId := 5
    Version := 3
    TaskQueue := "tq"
    VisibilityTime := 99970 }

/-- A running workflow in which activity 5, signal 5, request-cancel 5 and
child 5 are recorded at version 3, none of them started. -/
def runningMutableState : mutableState :=
  { sampleMutableState with
    IsWorkflowExecutionRunning := true
    GetActivityInfo := fun scheduleID =>
      if scheduleID = 5 then
        some { Version := 3, StartedID := 0, ScheduleToStartTimeout := 30 }
      else none
    GetRequestCancelInfo := fun scheduleID =>
      if scheduleID = 5 then some { Version := 3 } else none
    GetSignalInfo := fun scheduleID =>
      if scheduleID = 5 then some { Version := 3 } else none
    GetChildExecutionInfo := fun scheduleID =>
      if scheduleID = 5 then some { Version := 3, StartedID := 0 } else none }

/-- The sample executor on the running workflow, with a matching service that
refuses every activity task with error 7. -/
def failingMatchingExecutor : transferQueueStandbyTaskExecutor :=
  { sampleExecutor with
    loadMutableStateForTransferTask := fun _ _ => (some runningMutableState, none)
    basePushActivity := fun _ _ _ => some (Error.other 7) }

/-- The sample executor on the running workflow. -/
def runningExecutor : transferQueueStandbyTaskExecutor :=
  { sampleExecutor with
    loadMutableStateForTransferTask := fun _ _ => (some runningMutableState, none) }

/-- A resend info in which no cursor is set, for the sample executor, whose
`EmptyEventID` and `EmptyVersion` are 0. -/
def emptyResendInfo : historyResendInfo :=
  { lastEventID := 0, lastEventVersion := 0, nextEventID := none }

/-- A resend info with the cursor of the legacy rereplicator only. -/
def legacyResendInfo : historyResendInfo :=
  { lastEventID := 0, lastEventVersion := 0, nextEventID := some 8 }

/-- A resend info with the NDC cursor. -/
def ndcResendInfo : historyResendInfo :=
  { lastEventID := 7, lastEventVersion := 3, nextEventID := none }

/-- The sample executor on the running workflow, when the helper
`getHistoryResendInfo` yields the empty resend info. -/
def emptyResendExecutor : transferQueueStandbyTaskExecutor :=
  { sampleExecutor with
    loadMutableStateForTransferTask := fun _ _ =>
      (some { runningMutableState with getHistoryResendInfo := Except.ok emptyResendInfo },
        none) }

/-- A running workflow in which nothing is recorded for any schedule id. -/
def bareRunningMutableState : mutableState :=
  { sampleMutableState with IsWorkflowExecutionRunning := true }

/-- The sample executor on the running workflow without infos. -/
def bareRunningExecutor : transferQueueStandbyTaskExecutor :=
  { sampleExecutor with
    loadMutableStateForTransferTask := fun _ _ => (some bareRunningMutableState, none) }

/-- The sample executor when the loader does not know the workflow. -/
def unknownWorkflowExecutor : transferQueueStandbyTaskExecutor :=
  { sampleExecutor with loadMutableStateForTransferTask := fun _ _ => (none, none) }

/-- The sample executor when the loader fails with error 9. -/
def failingLoadExecutor : transferQueueStandbyTaskExecutor :=
  { sampleExecutor with
    loadMutableStateForTransferTask := fun _ _ => (none, some (Error.other 9)) }

/-- The sample executor when the loader fails with the retry sentinel. -/
def retryLoadExecutor : transferQueueStandbyTaskExecutor :=
  { sampleExecutor with
    loadMutableStateForTransferTask := fun _ _ => (none, some Error.ErrTaskRetry) }

/-- The running sample executor with a verifier that fails with error 5. -/
def failingVerifierExecutor : transferQueueStandbyTaskExecutor :=
  { runningExecutor with verifyTaskVersion := fun _ _ _ _ => (false, some (Error.other 5)) }

/-- A running workflow in which decision 5 is recorded at version 3, not
started, with a run timeout of 60. -/
def decisionMutableState : mutableState :=
  { runningMutableState with
    GetDecisionInfo := fun scheduleID =>
      if scheduleID = 5 then some { Version := 3, StartedID := 0 } else none }

/-- A running workflow in which activity 5 is recorded at version 3 and was
started by event 6. -/
def startedActivityMutableState : mutableState :=
  { runningMutableState with
    GetActivityInfo := fun scheduleID =>
      if scheduleID = 5 then
        some { Version := 3, StartedID := 6, ScheduleToStartTimeout := 30 }
      else none }

/-- A running workflow in which child 5 is recorded at version 3 and was started
by event 6. -/
def startedChildMutableState : mutableState :=
  { runningMutableState with
    GetChildExecutionInfo := fun scheduleID =>
      if scheduleID = 5 then some { Version := 3, StartedID := 6 } else none }

/-- The sample task of the given kind at version 4, a version the sample
workflows, recorded at version 3, do not hold. -/
def staleTask (kind : TaskType) : TransferTaskInfo :=
  { sampleTask kind with Version := 4 }

/-- The sample executor on the running workflow in which decision 5 is
recorded. -/
def decisionExecutor : transferQueueStandbyTaskExecutor :=
  { sampleExecutor with
    loadMutableStateForTransferTask := fun _ _ => (some decisionMutableState, none) }

/-- The running sample executor with a clock that advances by one with every
call made: it reads 99976 before the first call. -/
def tickingExecutor : transferQueueStandbyTaskExecutor :=
  { runningExecutor with GetCurrentTime := fun log _ => 99976 + log.length }

/-- The calls of a log made before its first visibility write. -/
def beforeVisibilityWrite (calls : List Call) : List Call :=
  calls.takeWhile (fun c => !c.isVisibilityWrite)

end History

/-! ## The tasks table of the MySQL plugin

A shallow embedding of `DeleteFromTasks` in
`common/persistence/sql/sqlplugin/mysql/task.go`. -/

namespace mysql

/-- A bind argument of a statement. -/
inductive Arg where
  | text (value : String)
  | int (value : Int)
  deriving DecidableEq, Repr

/-- The fields of `sqlplugin.TasksFilter` that `DeleteFromTasks` reads.  The
struct is declared outside this source file; a field that the code
dereferences or compares with nil is a pointer, here an option. -/
structure TasksFilter where
  NamespaceID : String
  TaskQueueName : String
  TaskType : Int
  TaskID : Option Int
  TaskIDLessThanEquals : Option Int
  Limit : Option Int
  deriving DecidableEq, Repr

/-- The constant `deleteTaskQry`. -/
def deleteTaskQry : String :=
  "DELETE FROM tasks " ++
    "WHERE namespace_id = ? AND task_queue_name = ? AND task_type = ? AND task_id = ?"

/-- The constant `rangeDeleteTaskQry`. -/
def rangeDeleteTaskQry : String :=
  "DELETE FROM tasks " ++
    "WHERE namespace_id = ? AND task_queue_name = ? AND task_type = ? AND task_id <= ? " ++
    "ORDER BY namespace_id,task_queue_name,task_type,task_id LIMIT ?"

/-- One statement handed to `conn.Exec`: the query and its bind arguments. -/
structure Statement where
  query : String
  args : List Arg
  deriving DecidableEq, Repr

/-- What `conn.Exec` and `DeleteFromTasks` return, `(sql.Result, error)`: the
number of rows affected, or the message of the error. -/
inductive ExecResult where
  | ok (rowsAffected : Int)
  | error (message : String)
  deriving DecidableEq, Repr

/-- The handle `db`: what `conn.Exec` answers to a statement, given the
statements executed before. -/
structure db where
  Exec : List Statement → Statement → ExecResult

/-- How a call of `DeleteFromTasks` ends: it returns, or it panics on the
dereference of a nil pointer. -/
inductive Outcome where
  | returned (result : ExecResult)
  | panicked
  deriving DecidableEq, Repr

/-- The method `DeleteFromTasks` (lines 111-121): its outcome and the statements
it executed, given the statements executed before. -/
def DeleteFromTasks (mdb : db) (filter : TasksFilter) (executed : List Statement) :
    Outcome × List Statement :=
  match filter.TaskIDLessThanEquals with
  | some taskIDLessThanEquals =>
    match filter.Limit with
    | none => (Outcome.returned (ExecResult.error "missing limit parameter"), [])
    | some limit =>
      if limit = 0 then
        (Outcome.returned (ExecResult.error "missing limit parameter"), [])
      else
        let statement : Statement :=
          { query := rangeDeleteTaskQry
            args := [Arg.text filter.NamespaceID, Arg.text filter.TaskQueueName,
              Arg.int filter.TaskType, Arg.int taskIDLessThanEquals, Arg.int limit] }
        (Outcome.returned (mdb.Exec executed statement), [statement])
  | none =>
    match filter.TaskID with
    | none => (Outcome.panicked, [])
    | some taskID =>
      let statement : Statement :=
        { query := deleteTaskQry
          args := [Arg.text filter.NamespaceID, Arg.text filter.TaskQueueName,
            Arg.int filter.TaskType, Arg.int taskID] }
      (Outcome.returned (mdb.Exec executed statement), [statement])

/-- A database on which every statement succeeds and affects one row. -/
def sampleDb : db :=
  { Exec := fun _ _ => ExecResult.ok 1 }

/-- A filter of the tasks of one task queue in which no task id is set. -/
def sampleFilter : TasksFilter :=
  { NamespaceID := "ns"
    TaskQueueName := "tq"
    TaskType := 0
    TaskID := none
    TaskIDLessThanEquals := none
    Limit := none }

end mysql

namespace History

/-! ## Running a computation -/

/-- Returning a value makes no call. -/
@[simp] theorem Exec.pure_apply {α : Type} (a : α) (log : List Call) :
    (pure a : Exec α) log = (a, []) := rfl

/-- Sequencing: the second computation sees the calls of the first as made. -/
@[simp] theorem Exec.bind_apply {α β : Type} (m : Exec α) (f : α → Exec β) (log : List Call) :
    (m >>= f) log =
      ((f (m log).1 (log ++ (m log).2)).1, (m log).2 ++ (f (m log).1 (log ++ (m log).2)).2) :=
  rfl

/-- One call: the answer is read off the calls made so far. -/
@[simp] theorem Exec.call_apply {α : Type} (c : Call) (answer : List Call → α)
    (log : List Call) : Exec.call c answer log = (answer log, [c]) := rfl

/-- A call without an answer. -/
@[simp] theorem Exec.emit_apply (c : Call) (log : List Call) :
    Exec.emit c log = ((), [c]) := rfl

/-- The verifier is consulted once, with the versions given. -/
@[simp] theorem verifyTaskVersion_apply (t : transferQueueStandbyTaskExecutor)
    (namespaceID : String) (version taskVersion : Int) (log : List Call) :
    verifyTaskVersion t namespaceID version taskVersion log =
      (t.verifyTaskVersion log namespaceID version taskVersion,
        [Call.verifyTaskVersion namespaceID version taskVersion]) := rfl

/-- The no-op post-action returns success and calls nothing. -/
theorem standbyTaskPostActionNoOp_apply (task : queueTaskInfo) (info : Option PostActionInfo)
    (log : List Call) :
    standbyTaskPostActionNoOp task info log = (Outcome.returned none, []) := rfl

/-- The ladder succeeds on a nil info without reading the clock. -/
theorem getStandbyPostActionFn_nil (transferTask : TransferTaskInfo) (standbyNow : Exec Int)
    (resendDelay discardDelay : Int) (nowFn discardFn : standbyPostActionFn)
    (task : queueTaskInfo) (log : List Call) :
    getStandbyPostActionFn transferTask standbyNow resendDelay discardDelay nowFn discardFn
      task none log = (Outcome.returned none, []) := by
  simp [getStandbyPostActionFn]

/-- The ladder between the two delays runs the now-action after reading the
clock. -/
theorem getStandbyPostActionFn_apply_window (t : transferQueueStandbyTaskExecutor)
    (transferTask : TransferTaskInfo) (nowFn discardFn : standbyPostActionFn)
    (task : queueTaskInfo) (info : PostActionInfo) (log : List Call)
    (hage : t.StandbyTaskMissingEventsResendDelay ≤
        t.GetCurrentTime log t.clusterName - transferTask.VisibilityTime ∧
      t.GetCurrentTime log t.clusterName - transferTask.VisibilityTime <
        t.StandbyTaskMissingEventsDiscardDelay) :
    getStandbyPostActionFn transferTask (getCurrentTime t)
        t.StandbyTaskMissingEventsResendDelay t.StandbyTaskMissingEventsDiscardDelay
        nowFn discardFn task (some info) log =
      ((nowFn task (some info) (log ++ [Call.GetCurrentTime t.clusterName])).1,
        Call.GetCurrentTime t.clusterName ::
          (nowFn task (some info) (log ++ [Call.GetCurrentTime t.clusterName])).2) := by
  simp only [getStandbyPostActionFn, getCurrentTime, Exec.bind_apply, Exec.call_apply,
    if_neg (not_lt.mpr hage.1), if_pos hage.2]
  simp

/-! ## Observations of a log -/

/-- An empty log holds no release. -/
@[simp] theorem releases_nil : releases [] = [] := rfl

/-- The releases of two logs in a row. -/
@[simp] theorem releases_append (xs ys : List Call) :
    releases (xs ++ ys) = releases xs ++ releases ys := by
  simp [releases]

/-- A release at the head of a log. -/
@[simp] theorem releases_cons_release (err : Option Error) (xs : List Call) :
    releases (Call.release err :: xs) = err :: releases xs := by
  simp [releases]

/-- The releases of a log, call by call. -/
theorem releases_cons (c : Call) (xs : List Call) :
    releases (c :: xs) = releases [c] ++ releases xs :=
  releases_append [c] xs

/-- The call to the cache is no release. -/
theorem releases_acquireCall_cons (transferTask : TransferTaskInfo) (xs : List Call) :
    releases (acquireCall transferTask :: xs) = releases xs := by
  simp [releases, acquireCall]

/-- The resender calls of two logs in a row. -/
@[simp] theorem resendCalls_append (xs ys : List Call) :
    resendCalls (xs ++ ys) = resendCalls xs ++ resendCalls ys := by
  simp [resendCalls]

/-- The verifier calls of two logs in a row. -/
@[simp] theorem verifyCalls_append (xs ys : List Call) :
    verifyCalls (xs ++ ys) = verifyCalls xs ++ verifyCalls ys := by
  simp [verifyCalls]

/-- The side effects of two logs in a row. -/
@[simp] theorem sideEffects_append (xs ys : List Call) :
    sideEffects (xs ++ ys) = sideEffects xs ++ sideEffects ys := by
  simp [sideEffects]

/-- The verifier calls of a log, call by call. -/
theorem verifyCalls_cons (c : Call) (xs : List Call) :
    verifyCalls (c :: xs) = verifyCalls [c] ++ verifyCalls xs :=
  verifyCalls_append [c] xs

/-- The side effects of a log, call by call. -/
theorem sideEffects_cons (c : Call) (xs : List Call) :
    sideEffects (c :: xs) = sideEffects [c] ++ sideEffects xs :=
  sideEffects_append [c] xs

/-! ## The dispatcher -/

/-- C1: for every transfer task whose kind is not CloseExecution,
`execute(task, false)` returns success and makes no collaborator call at all,
whatever was called before and whatever the collaborators would answer. -/
theorem execute_skips_when_not_asked (t : transferQueueStandbyTaskExecutor)
    (transferTask : TransferTaskInfo) (log : List Call)
    (hkind : transferTask.TaskType ≠ TaskType.TASK_TYPE_TRANSFER_CLOSE_EXECUTION) :
    execute t (queueTaskInfo.transfer transferTask) false log = (Outcome.returned none, []) := by
  simp [execute, hkind]

/-- Witness of C1: an activity task that nobody asked to process. -/
theorem execute_skips_when_not_asked_witness :
    (sampleTask TaskType.TASK_TYPE_TRANSFER_ACTIVITY_TASK).TaskType
        ≠ TaskType.TASK_TYPE_TRANSFER_CLOSE_EXECUTION ∧
      execute sampleExecutor
          (queueTaskInfo.transfer (sampleTask TaskType.TASK_TYPE_TRANSFER_ACTIVITY_TASK))
          false [] = (Outcome.returned none, []) :=
  ⟨by decide, execute_skips_when_not_asked sampleExecutor _ [] (by decide)⟩

/-- C2: for every CloseExecution task, every executor and every log of earlier
calls, `execute(task, false)` and `execute(task, true)` return the same result
and make the same calls in the same order. -/
theorem execute_close_ignores_shouldProcess (t : transferQueueStandbyTaskExecutor)
    (transferTask : TransferTaskInfo) (log : List Call)
    (hkind : transferTask.TaskType = TaskType.TASK_TYPE_TRANSFER_CLOSE_EXECUTION) :
    execute t (queueTaskInfo.transfer transferTask) false log =
      execute t (queueTaskInfo.transfer transferTask) true log := by
  simp [execute, hkind]

/-- Witness of C2: the sample close task. -/
theorem execute_close_ignores_shouldProcess_witness :
    (sampleTask TaskType.TASK_TYPE_TRANSFER_CLOSE_EXECUTION).TaskType
        = TaskType.TASK_TYPE_TRANSFER_CLOSE_EXECUTION ∧
      execute sampleExecutor
          (queueTaskInfo.transfer (sampleTask TaskType.TASK_TYPE_TRANSFER_CLOSE_EXECUTION))
          false [] =
        execute sampleExecutor
          (queueTaskInfo.transfer (sampleTask TaskType.TASK_TYPE_TRANSFER_CLOSE_EXECUTION))
          true [] :=
  ⟨rfl, execute_close_ignores_shouldProcess sampleExecutor _ [] rfl⟩

/-- C3 as stated fails: a task of kind 9999 that nobody asked to process is
skipped with success; `execute` returns no `errUnknownTransferTask`. -/
theorem execute_unknown_kind_not_asked :
    (sampleTask (TaskType.unknown 9999)).TaskType = TaskType.unknown 9999 ∧
      execute sampleExecutor (queueTaskInfo.transfer (sampleTask (TaskType.unknown 9999)))
          false [] = (Outcome.returned none, []) ∧
      (execute sampleExecutor (queueTaskInfo.transfer (sampleTask (TaskType.unknown 9999)))
          false []).1 ≠ Outcome.returned (some Error.errUnknownTransferTask) := by
  decide

/-- C3, amended: for every transfer task whose kind is none of the nine known
kinds, `execute(task, true)` returns `errUnknownTransferTask` and makes no
collaborator call; `execute(task, false)` returns success, also without a
call. -/
theorem execute_unknown_kind (t : transferQueueStandbyTaskExecutor)
    (transferTask : TransferTaskInfo) (value : Nat) (log : List Call)
    (hkind : transferTask.TaskType = TaskType.unknown value) :
    execute t (queueTaskInfo.transfer transferTask) true log
        = (Outcome.returned (some Error.errUnknownTransferTask), []) ∧
      execute t (queueTaskInfo.transfer transferTask) false log
        = (Outcome.returned none, []) := by
  simp [execute, hkind]

/-- Witness of the amended C3: kind 9999. -/
theorem execute_unknown_kind_witness :
    (sampleTask (TaskType.unknown 9999)).TaskType = TaskType.unknown 9999 ∧
      execute sampleExecutor (queueTaskInfo.transfer (sampleTask (TaskType.unknown 9999)))
          true [] = (Outcome.returned (some Error.errUnknownTransferTask), []) ∧
      execute sampleExecutor (queueTaskInfo.transfer (sampleTask (TaskType.unknown 9999)))
          false [] = (Outcome.returned none, []) :=
  ⟨rfl, execute_unknown_kind sampleExecutor _ 9999 [] rfl⟩

/-- What `execute` dispatches to when it is asked to process the task. -/
theorem execute_dispatch (t : transferQueueStandbyTaskExecutor) (transferTask : TransferTaskInfo) :
    execute t (queueTaskInfo.transfer transferTask) true =
      match transferTask.TaskType with
      | TaskType.TASK_TYPE_TRANSFER_ACTIVITY_TASK => processActivityTask t transferTask
      | TaskType.TASK_TYPE_TRANSFER_DECISION_TASK => processDecisionTask t transferTask
      | TaskType.TASK_TYPE_TRANSFER_CLOSE_EXECUTION => processCloseExecution t transferTask
      | TaskType.TASK_TYPE_TRANSFER_CANCEL_EXECUTION => processCancelExecution t transferTask
      | TaskType.TASK_TYPE_TRANSFER_SIGNAL_EXECUTION => processSignalExecution t transferTask
      | TaskType.TASK_TYPE_TRANSFER_START_CHILD_EXECUTION =>
        processStartChildExecution t transferTask
      | TaskType.TASK_TYPE_TRANSFER_RECORD_WORKFLOW_STARTED =>
        processRecordWorkflowStarted t transferTask
      | TaskType.TASK_TYPE_TRANSFER_RESET_WORKFLOW => pure (Outcome.returned none)
      | TaskType.TASK_TYPE_TRANSFER_UPSERT_WORKFLOW_SEARCH_ATTRIBUTES =>
        processUpsertWorkflowSearchAttributes t transferTask
      | TaskType.unknown _ => pure (Outcome.returned (some Error.errUnknownTransferTask)) := by
  simp [execute]

/-! ## The remote-history fetcher -/

/-- What `fetchHistoryFromRemote` does on a resend info, in terms of the
cursor choice `resendHistory`: two metrics calls, the resend, the error log
when `err` is set, the deferred stop of the timer, and `ErrTaskRetry`. -/
theorem fetchHistoryFromRemote_apply (t : transferQueueStandbyTaskExecutor)
    (transferTask : TransferTaskInfo) (resendInfo : historyResendInfo) (log : List Call) :
    fetchHistoryFromRemote t (queueTaskInfo.transfer transferTask)
        (some (PostActionInfo.historyResendInfo resendInfo)) log =
      (Outcome.returned (some Error.ErrTaskRetry),
        Call.IncCounter :: Call.StartTimer ::
          ((resendHistory t transferTask resendInfo
              (log ++ [Call.IncCounter, Call.StartTimer])).2 ++
            ((logResendError t transferTask
              (resendHistory t transferTask resendInfo
                (log ++ [Call.IncCounter, Call.StartTimer])).1
              (log ++ Call.IncCounter :: Call.StartTimer ::
                (resendHistory t transferTask resendInfo
                  (log ++ [Call.IncCounter, Call.StartTimer])).2)).2 ++
            [Call.stopwatchStop]))) := by
  simp [fetchHistoryFromRemote]

/-- The calls of the cursor choice do not depend on what was called before. -/
theorem resendHistory_calls (t : transferQueueStandbyTaskExecutor)
    (transferTask : TransferTaskInfo) (resendInfo : historyResendInfo) (log : List Call) :
    (resendHistory t transferTask resendInfo log).2 =
      if resendInfo.lastEventID ≠ t.EmptyEventID ∧
          resendInfo.lastEventVersion ≠ t.EmptyVersion then
        [Call.SendSingleWorkflowHistory transferTask.NamespaceId transferTask.WorkflowId
          transferTask.RunId resendInfo.lastEventID resendInfo.lastEventVersion 0 0]
      else
        match resendInfo.nextEventID with
        | some nextEventID =>
          [Call.SendMultiWorkflowHistory transferTask.NamespaceId transferTask.WorkflowId
            transferTask.RunId nextEventID transferTask.RunId t.EndEventID]
        | none => [] := by
  unfold resendHistory
  by_cases hndc : resendInfo.lastEventID ≠ t.EmptyEventID ∧
      resendInfo.lastEventVersion ≠ t.EmptyVersion
  · simp only [if_pos hndc, Exec.call_apply]
  · simp only [if_neg hndc]
    cases resendInfo.nextEventID <;> simp

/-- Logging the error calls no resender. -/
theorem logResendError_no_resend (t : transferQueueStandbyTaskExecutor)
    (transferTask : TransferTaskInfo) (err : Option Error) (log : List Call) :
    resendCalls (logResendError t transferTask err log).2 = [] := by
  cases err <;> simp [logResendError, resendCalls, Call.isResend]

/-- The resender calls of `fetchHistoryFromRemote` are those of its cursor choice. -/
theorem fetchHistoryFromRemote_resendCalls (t : transferQueueStandbyTaskExecutor)
    (transferTask : TransferTaskInfo) (resendInfo : historyResendInfo) (log : List Call) :
    resendCalls (fetchHistoryFromRemote t (queueTaskInfo.transfer transferTask)
        (some (PostActionInfo.historyResendInfo resendInfo)) log).2 =
      (resendHistory t transferTask resendInfo (log ++ [Call.IncCounter, Call.StartTimer])).2 := by
  rw [fetchHistoryFromRemote_apply]
  have h1 : ∀ xs, resendCalls (Call.IncCounter :: Call.StartTimer :: xs) = resendCalls xs := by
    intro xs; simp [resendCalls, Call.isResend]
  rw [h1, resendCalls_append, resendCalls_append, logResendError_no_resend]
  rw [resendHistory_calls]
  by_cases hndc : resendInfo.lastEventID ≠ t.EmptyEventID ∧
      resendInfo.lastEventVersion ≠ t.EmptyVersion
  · simp [if_pos hndc, resendCalls, Call.isResend]
  · simp only [if_neg hndc]
    cases resendInfo.nextEventID <;> simp [resendCalls, Call.isResend]

/-- C6 as stated fails: on the empty resend info `fetchHistoryFromRemote`
returns `ErrTaskRetry`, not the Internal error, after logging one error. -/
theorem fetchHistoryFromRemote_empty_info_retries :
    fetchHistoryFromRemote sampleExecutor
        (queueTaskInfo.transfer (sampleTask TaskType.TASK_TYPE_TRANSFER_SIGNAL_EXECUTION))
        (some (PostActionInfo.historyResendInfo emptyResendInfo)) [] =
      (Outcome.returned (some Error.ErrTaskRetry),
        [Call.IncCounter, Call.StartTimer, Call.loggerError 1 "ns" "wf" "run" "standby",
          Call.stopwatchStop]) ∧
      (fetchHistoryFromRemote sampleExecutor
        (queueTaskInfo.transfer (sampleTask TaskType.TASK_TYPE_TRANSFER_SIGNAL_EXECUTION))
        (some (PostActionInfo.historyResendInfo emptyResendInfo)) []).1 ≠
        Outcome.returned (some (Error.Internal emptyHistoryResendInfoMessage)) := by
  decide

/-- C6, amended: for every resend info in which neither the NDC cursor nor
`nextEventID` is set, the cursor choice calls no resender and leaves the
Internal error in `err`; `fetchHistoryFromRemote` logs one error line and
returns `ErrTaskRetry` to its caller, not the Internal error. -/
theorem fetchHistoryFromRemote_empty_info (t : transferQueueStandbyTaskExecutor)
    (transferTask : TransferTaskInfo) (resendInfo : historyResendInfo) (log : List Call)
    (hndc : ¬ (resendInfo.lastEventID ≠ t.EmptyEventID ∧
      resendInfo.lastEventVersion ≠ t.EmptyVersion))
    (hnext : resendInfo.nextEventID = none) :
    resendHistory t transferTask resendInfo (log ++ [Call.IncCounter, Call.StartTimer]) =
        (some (Error.Internal emptyHistoryResendInfoMessage), []) ∧
      fetchHistoryFromRemote t (queueTaskInfo.transfer transferTask)
        (some (PostActionInfo.historyResendInfo resendInfo)) log =
        (Outcome.returned (some Error.ErrTaskRetry),
          [Call.IncCounter, Call.StartTimer,
            Call.loggerError t.shardID transferTask.NamespaceId transferTask.WorkflowId
              transferTask.RunId t.clusterName,
            Call.stopwatchStop]) := by
  have hres : ∀ l, resendHistory t transferTask resendInfo l =
      (some (Error.Internal emptyHistoryResendInfoMessage), []) := by
    intro l
    simp only [resendHistory, if_neg hndc, hnext, Exec.pure_apply]
  refine ⟨hres _, ?_⟩
  rw [fetchHistoryFromRemote_apply]
  simp [hres, logResendError]

/-- Witness of the amended C6: the empty resend info on the sample executor. -/
theorem fetchHistoryFromRemote_empty_info_witness :
    ¬ (emptyResendInfo.lastEventID ≠ sampleExecutor.EmptyEventID ∧
        emptyResendInfo.lastEventVersion ≠ sampleExecutor.EmptyVersion) ∧
      emptyResendInfo.nextEventID = none ∧
      fetchHistoryFromRemote sampleExecutor
        (queueTaskInfo.transfer (sampleTask TaskType.TASK_TYPE_TRANSFER_SIGNAL_EXECUTION))
        (some (PostActionInfo.historyResendInfo emptyResendInfo)) [] =
        (Outcome.returned (some Error.ErrTaskRetry),
          [Call.IncCounter, Call.StartTimer, Call.loggerError 1 "ns" "wf" "run" "standby",
            Call.stopwatchStop]) :=
  ⟨by decide, rfl,
    (fetchHistoryFromRemote_empty_info sampleExecutor
      (sampleTask TaskType.TASK_TYPE_TRANSFER_SIGNAL_EXECUTION) emptyResendInfo []
      (by decide) rfl).2⟩

/-- C7: for every transfer task, every resend info, every executor (so whatever
the resenders answer) and every log of earlier calls, `fetchHistoryFromRemote`
returns exactly `ErrTaskRetry`. -/
theorem fetchHistoryFromRemote_always_retries (t : transferQueueStandbyTaskExecutor)
    (transferTask : TransferTaskInfo) (resendInfo : historyResendInfo) (log : List Call) :
    (fetchHistoryFromRemote t (queueTaskInfo.transfer transferTask)
      (some (PostActionInfo.historyResendInfo resendInfo)) log).1 =
      Outcome.returned (some Error.ErrTaskRetry) := by
  rw [fetchHistoryFromRemote_apply]

/-- C8: for every resend info, when `lastEventID` is not `EmptyEventID` and
`lastEventVersion` is not `EmptyVersion` the only resender call of
`fetchHistoryFromRemote` is one `SendSingleWorkflowHistory` with
`(namespaceId, workflowId, runId, lastEventID, lastEventVersion, 0, 0)`;
otherwise, when `nextEventID` is set, it is one `SendMultiWorkflowHistory` with
`(namespaceId, workflowId, runId, nextEventID, runId, EndEventID)`; and in no case
are there two resender calls. -/
theorem fetchHistoryFromRemote_cursor (t : transferQueueStandbyTaskExecutor)
    (transferTask : TransferTaskInfo) (resendInfo : historyResendInfo) (log : List Call) :
    ((resendInfo.lastEventID ≠ t.EmptyEventID ∧
        resendInfo.lastEventVersion ≠ t.EmptyVersion) →
      resendCalls (fetchHistoryFromRemote t (queueTaskInfo.transfer transferTask)
        (some (PostActionInfo.historyResendInfo resendInfo)) log).2 =
        [Call.SendSingleWorkflowHistory transferTask.NamespaceId transferTask.WorkflowId
          transferTask.RunId resendInfo.lastEventID resendInfo.lastEventVersion 0 0]) ∧
    (¬ (resendInfo.lastEventID ≠ t.EmptyEventID ∧
        resendInfo.lastEventVersion ≠ t.EmptyVersion) →
      ∀ nextEventID, resendInfo.nextEventID = some nextEventID →
      resendCalls (fetchHistoryFromRemote t (queueTaskInfo.transfer transferTask)
        (some (PostActionInfo.historyResendInfo resendInfo)) log).2 =
        [Call.SendMultiWorkflowHistory transferTask.NamespaceId transferTask.WorkflowId
          transferTask.RunId nextEventID transferTask.RunId t.EndEventID]) ∧
    (resendCalls (fetchHistoryFromRemote t (queueTaskInfo.transfer transferTask)
        (some (PostActionInfo.historyResendInfo resendInfo)) log).2).length ≤ 1 := by
  rw [fetchHistoryFromRemote_resendCalls, resendHistory_calls]
  refine ⟨?_, ?_, ?_⟩
  · intro hndc
    rw [if_pos hndc]
  · intro hndc nextEventID hnext
    rw [if_neg hndc, hnext]
  · by_cases hndc : resendInfo.lastEventID ≠ t.EmptyEventID ∧
        resendInfo.lastEventVersion ≠ t.EmptyVersion
    · simp [if_pos hndc]
    · rw [if_neg hndc]
      cases resendInfo.nextEventID <;> simp

/-! ## The skeleton `processTransfer` -/

/-- The deferred function makes one call of `release`, with the argument
`deferredReleaseArg`, and hands the outcome on. -/
theorem processTransferDeferred_apply (out : Outcome) (log : List Call) :
    processTransferDeferred out log = (out, [Call.release (deferredReleaseArg out)]) := by
  cases out with
  | returned retError =>
    by_cases h : retError = some Error.ErrTaskRetry <;>
      simp [processTransferDeferred, deferredReleaseArg, h]
  | panicked => simp [processTransferDeferred, deferredReleaseArg]

/-- A call of `processTransfer` that gets the context: the call to the cache, the
body, and the deferred release of the outcome of the body. -/
theorem processTransfer_apply_acquired (t : transferQueueStandbyTaskExecutor)
    (processTaskIfClosed : Bool) (transferTask : TransferTaskInfo)
    (actionFn : standbyActionFn) (postActionFn : standbyPostActionFn) (log : List Call)
    (hacq : acquiresContext t transferTask log) :
    processTransfer t processTaskIfClosed (queueTaskInfo.transfer transferTask) actionFn
        postActionFn log =
      ((processTransferBody t processTaskIfClosed (queueTaskInfo.transfer transferTask)
          transferTask actionFn postActionFn (log ++ [acquireCall transferTask])).1,
        acquireCall transferTask ::
          ((processTransferBody t processTaskIfClosed (queueTaskInfo.transfer transferTask)
            transferTask actionFn postActionFn (log ++ [acquireCall transferTask])).2 ++
          [Call.release (deferredReleaseArg
            (processTransferBody t processTaskIfClosed (queueTaskInfo.transfer transferTask)
              transferTask actionFn postActionFn (log ++ [acquireCall transferTask])).1)])) := by
  unfold acquiresContext at hacq
  simp [processTransfer, hacq, processTransferDeferred_apply, acquireCall]

/-- A call of `processTransfer` that gets an error from the cache returns it after
that one call. -/
theorem processTransfer_apply_not_acquired (t : transferQueueStandbyTaskExecutor)
    (processTaskIfClosed : Bool) (transferTask : TransferTaskInfo)
    (actionFn : standbyActionFn) (postActionFn : standbyPostActionFn) (log : List Call)
    (err : Error)
    (hacq : t.getOrCreateWorkflowExecutionForBackground log transferTask.NamespaceId
      transferTask.WorkflowId transferTask.RunId = some err) :
    processTransfer t processTaskIfClosed (queueTaskInfo.transfer transferTask) actionFn
        postActionFn log = (Outcome.returned (some err), [acquireCall transferTask]) := by
  simp [processTransfer, hacq, acquireCall]

/-- The body of `processTransfer` when the post-action is reached. -/
theorem processTransferBody_apply_reaches (t : transferQueueStandbyTaskExecutor)
    (processTaskIfClosed : Bool) (transferTask : TransferTaskInfo)
    (actionFn : standbyActionFn) (postActionFn : standbyPostActionFn) (log : List Call)
    (mutableState : mutableState) (info : Option PostActionInfo) (calls : List Call)
    (hload : t.loadMutableStateForTransferTask (log ++ [acquireCall transferTask]) transferTask
      = (some mutableState, none))
    (hrun : mutableState.IsWorkflowExecutionRunning = true ∨ processTaskIfClosed = true)
    (hact : actionFn mutableState
        (log ++ [acquireCall transferTask, Call.loadMutableStateForTransferTask transferTask])
      = ((info, none), calls)) :
    processTransferBody t processTaskIfClosed (queueTaskInfo.transfer transferTask)
        transferTask actionFn postActionFn (log ++ [acquireCall transferTask]) =
      ((postActionFn (queueTaskInfo.transfer transferTask) info
          (log ++ acquireCall transferTask ::
            Call.loadMutableStateForTransferTask transferTask ::
              (calls ++ [Call.release none]))).1,
        Call.loadMutableStateForTransferTask transferTask ::
          (calls ++ Call.release none ::
            (postActionFn (queueTaskInfo.transfer transferTask) info
              (log ++ acquireCall transferTask ::
                Call.loadMutableStateForTransferTask transferTask ::
                  (calls ++ [Call.release none]))).2)) := by
  have hcond : ¬ (mutableState.IsWorkflowExecutionRunning = false ∧
      processTaskIfClosed = false) := by
    rcases hrun with h | h <;> simp [h]
  simp only [processTransferBody, Exec.bind_apply, Exec.call_apply, hload, if_neg hcond]
  simp only [List.append_assoc, List.singleton_append, hact, Exec.emit_apply]
  simp

/-- The body of `processTransfer` releases once, with nil, when the post-action is
reached. -/
theorem processTransferBody_reaches (t : transferQueueStandbyTaskExecutor)
    (processTaskIfClosed : Bool) (transferTask : TransferTaskInfo)
    (actionFn : standbyActionFn) (postActionFn : standbyPostActionFn) (log : List Call)
    (hact : ∀ mutableState l, releases (actionFn mutableState l).2 = [])
    (hpost : ∀ info l,
      releases (postActionFn (queueTaskInfo.transfer transferTask) info l).2 = [])
    (hreach : reachesPostAction t processTaskIfClosed transferTask actionFn log) :
    releases (processTransferBody t processTaskIfClosed (queueTaskInfo.transfer transferTask)
      transferTask actionFn postActionFn (log ++ [acquireCall transferTask])).2 = [none] := by
  obtain ⟨ms, hload, hrun, hok⟩ := hreach
  simp only [processTransferBody, Exec.bind_apply, Exec.call_apply, hload]
  have hcond : ¬ (ms.IsWorkflowExecutionRunning = false ∧ processTaskIfClosed = false) := by
    rcases hrun with h | h <;> simp [h]
  simp only [hcond, if_false, Exec.bind_apply]
  simp only [List.append_assoc, List.singleton_append] at hok ⊢
  generalize hacted : actionFn ms _ = acted at hok ⊢
  obtain ⟨⟨info, err⟩, calls⟩ := acted
  simp at hok
  subst hok
  have hcalls := hact ms
    (log ++ [acquireCall transferTask, Call.loadMutableStateForTransferTask transferTask])
  rw [hacted] at hcalls
  simp only [releases] at hcalls hpost ⊢
  simp [hcalls, hpost]

/-- The body of `processTransfer` does not release when it returns before the
post-action. -/
theorem processTransferBody_not_reaches (t : transferQueueStandbyTaskExecutor)
    (processTaskIfClosed : Bool) (transferTask : TransferTaskInfo)
    (actionFn : standbyActionFn) (postActionFn : standbyPostActionFn) (log : List Call)
    (hact : ∀ mutableState l, releases (actionFn mutableState l).2 = [])
    (hreach : ¬ reachesPostAction t processTaskIfClosed transferTask actionFn log) :
    releases (processTransferBody t processTaskIfClosed (queueTaskInfo.transfer transferTask)
      transferTask actionFn postActionFn (log ++ [acquireCall transferTask])).2 = [] := by
  simp only [processTransferBody, Exec.bind_apply, Exec.call_apply]
  generalize hload :
    t.loadMutableStateForTransferTask (log ++ [acquireCall transferTask]) transferTask = loaded
  obtain ⟨ms, err⟩ := loaded
  cases err with
  | some e => simp [releases]
  | none =>
    cases ms with
    | none => simp [releases]
    | some ms =>
      by_cases hcond : ms.IsWorkflowExecutionRunning = false ∧ processTaskIfClosed = false
      · simp [hcond, releases]
      · simp only [hcond, if_false, Exec.bind_apply]
        simp only [List.append_assoc, List.singleton_append]
        generalize hacted : actionFn ms _ = acted
        obtain ⟨⟨info, err⟩, calls⟩ := acted
        have hcalls := hact ms
          (log ++ [acquireCall transferTask, Call.loadMutableStateForTransferTask transferTask])
        rw [hacted] at hcalls
        cases err with
        | some e =>
          simp only [releases] at hcalls ⊢
          simp [hcalls]
        | none =>
          exfalso
          apply hreach
          refine ⟨ms, hload, ?_, ?_⟩
          · cases hr : ms.IsWorkflowExecutionRunning <;> cases hp : processTaskIfClosed <;>
              simp_all
          · rw [hacted]

/-! ## The release discipline -/

/-- The post-action `pushActivity` does not release. -/
theorem pushActivity_no_release (t : transferQueueStandbyTaskExecutor) (task : queueTaskInfo)
    (info : Option PostActionInfo) (log : List Call) :
    releases (pushActivity t task info log).2 = [] := by
  rcases info with _ | info
  · simp [pushActivity]
  · cases info <;> cases task <;> simp [pushActivity, releases]

/-- The post-action `pushDecision` does not release. -/
theorem pushDecision_no_release (t : transferQueueStandbyTaskExecutor) (task : queueTaskInfo)
    (info : Option PostActionInfo) (log : List Call) :
    releases (pushDecision t task info log).2 = [] := by
  rcases info with _ | info
  · simp [pushDecision]
  · cases info <;> cases task <;> simp [pushDecision, releases]

/-- The post-action `fetchHistoryFromRemote` does not release. -/
theorem fetchHistoryFromRemote_no_release (t : transferQueueStandbyTaskExecutor)
    (task : queueTaskInfo) (info : Option PostActionInfo) (log : List Call) :
    releases (fetchHistoryFromRemote t task info log).2 = [] := by
  rcases info with _ | info
  · simp [fetchHistoryFromRemote]
  · cases task with
    | otherPayload tag => simp [fetchHistoryFromRemote]
    | transfer transferTask =>
      cases info with
      | historyResendInfo resendInfo =>
        rw [fetchHistoryFromRemote_apply, resendHistory_calls]
        have hlog : ∀ err l, releases (logResendError t transferTask err l).2 = [] := by
          intro err l
          cases err <;> simp [logResendError, releases]
        rw [releases_cons, releases_cons Call.StartTimer, releases_append, releases_append,
          hlog]
        by_cases hndc : resendInfo.lastEventID ≠ t.EmptyEventID ∧
            resendInfo.lastEventVersion ≠ t.EmptyVersion
        · simp [if_pos hndc, releases]
        · rw [if_neg hndc]
          cases resendInfo.nextEventID <;> simp [releases]
      | pushActivityToMatchingInfo _ => simp [fetchHistoryFromRemote]
      | pushDecisionToMatchingInfo _ _ => simp [fetchHistoryFromRemote]

/-- The discarded action does not release. -/
theorem standbyTransferTaskPostActionTaskDiscarded_no_release (task : queueTaskInfo)
    (info : Option PostActionInfo) (log : List Call) :
    releases (standbyTransferTaskPostActionTaskDiscarded task info log).2 = [] := by
  cases info <;> simp [standbyTransferTaskPostActionTaskDiscarded]

/-- The ladder does not release when its two actions do not. -/
theorem getStandbyPostActionFn_no_release (t : transferQueueStandbyTaskExecutor)
    (transferTask : TransferTaskInfo) (resendDelay discardDelay : Int)
    (nowFn discardFn : standbyPostActionFn)
    (hnow : ∀ task info l, releases (nowFn task info l).2 = [])
    (hdiscard : ∀ task info l, releases (discardFn task info l).2 = [])
    (task : queueTaskInfo) (info : Option PostActionInfo) (log : List Call) :
    releases (getStandbyPostActionFn transferTask (getCurrentTime t) resendDelay
      discardDelay nowFn discardFn task info log).2 = [] := by
  cases info with
  | none => simp [getStandbyPostActionFn]
  | some info =>
    simp only [getStandbyPostActionFn, getCurrentTime, Exec.bind_apply, Exec.call_apply]
    have hclock : releases [Call.GetCurrentTime t.clusterName] = [] := rfl
    split
    · simp [releases]
    · split
      · show releases ([Call.GetCurrentTime t.clusterName] ++ (nowFn _ _ _).2) = []
        rw [releases_append, hclock, hnow]
        rfl
      · show releases ([Call.GetCurrentTime t.clusterName] ++ (discardFn _ _ _).2) = []
        rw [releases_append, hclock, hdiscard]
        rfl

/-- The activity predicate does not release. -/
theorem processActivityTaskActionFn_no_release (t : transferQueueStandbyTaskExecutor)
    (transferTask : TransferTaskInfo) (mutableState : mutableState) (log : List Call) :
    releases (processActivityTaskActionFn t transferTask mutableState log).2 = [] := by
  unfold processActivityTaskActionFn
  cases hinfo : mutableState.GetActivityInfo transferTask.ScheduleId with
  | none => simp
  | some activityInfo =>
    rcases hver : t.verifyTaskVersion log transferTask.NamespaceId activityInfo.Version
      transferTask.Version with ⟨ok, err⟩
    cases err <;> cases ok <;> simp [hver, releases]
    split <;> simp

/-- The decision predicate does not release. -/
theorem processDecisionTaskActionFn_no_release (t : transferQueueStandbyTaskExecutor)
    (transferTask : TransferTaskInfo) (mutableState : mutableState) (log : List Call) :
    releases (processDecisionTaskActionFn t transferTask mutableState log).2 = [] := by
  unfold processDecisionTaskActionFn
  cases hinfo : mutableState.GetDecisionInfo transferTask.ScheduleId with
  | none => simp
  | some decisionInfo =>
    rcases hver : t.verifyTaskVersion log transferTask.NamespaceId decisionInfo.Version
      transferTask.Version with ⟨ok, err⟩
    cases err <;> cases ok <;> simp [hver, releases]
    split <;> simp

/-- The cancel predicate does not release. -/
theorem processCancelExecutionActionFn_no_release (t : transferQueueStandbyTaskExecutor)
    (transferTask : TransferTaskInfo) (mutableState : mutableState) (log : List Call) :
    releases (processCancelExecutionActionFn t transferTask mutableState log).2 = [] := by
  unfold processCancelExecutionActionFn
  cases hinfo : mutableState.GetRequestCancelInfo transferTask.ScheduleId with
  | none => simp
  | some info =>
    rcases hver : t.verifyTaskVersion log transferTask.NamespaceId info.Version
      transferTask.Version with ⟨ok, err⟩
    cases err <;> cases ok <;> simp [hver, releases]

/-- The signal predicate does not release. -/
theorem processSignalExecutionActionFn_no_release (t : transferQueueStandbyTaskExecutor)
    (transferTask : TransferTaskInfo) (mutableState : mutableState) (log : List Call) :
    releases (processSignalExecutionActionFn t transferTask mutableState log).2 = [] := by
  unfold processSignalExecutionActionFn
  cases hinfo : mutableState.GetSignalInfo transferTask.ScheduleId with
  | none => simp
  | some info =>
    rcases hver : t.verifyTaskVersion log transferTask.NamespaceId info.Version
      transferTask.Version with ⟨ok, err⟩
    cases err <;> cases ok <;> simp [hver, releases]

/-- The start-child predicate does not release. -/
theorem processStartChildExecutionActionFn_no_release (t : transferQueueStandbyTaskExecutor)
    (transferTask : TransferTaskInfo) (mutableState : mutableState) (log : List Call) :
    releases (processStartChildExecutionActionFn t transferTask mutableState log).2 = [] := by
  unfold processStartChildExecutionActionFn
  cases hinfo : mutableState.GetChildExecutionInfo transferTask.ScheduleId with
  | none => simp
  | some info =>
    rcases hver : t.verifyTaskVersion log transferTask.NamespaceId info.Version
      transferTask.Version with ⟨ok, err⟩
    cases err <;> cases ok <;> simp [hver, releases]
    split <;> simp

/-- The close predicate does not release. -/
theorem processCloseExecutionActionFn_no_release (t : transferQueueStandbyTaskExecutor)
    (transferTask : TransferTaskInfo) (mutableState : mutableState) (log : List Call) :
    releases (processCloseExecutionActionFn t transferTask mutableState log).2 = [] := by
  unfold processCloseExecutionActionFn
  cases mutableState.IsWorkflowExecutionRunning with
  | true => simp
  | false =>
    cases mutableState.GetCompletionEvent with
    | error err => simp
    | ok completionEvent =>
      cases mutableState.GetStartEvent with
      | error err => simp
      | ok startEvent =>
        cases hlast : mutableState.GetLastWriteVersion with
        | error err => simp
        | ok lastWriteVersion =>
          rcases hver : t.verifyTaskVersion log transferTask.NamespaceId lastWriteVersion
            transferTask.Version with ⟨ok, err⟩
          cases err <;> cases ok <;> simp [hver, releases]

/-- The record-started and upsert predicates do not release. -/
theorem processRecordWorkflowStartedOrUpsertActionFn_no_release
    (t : transferQueueStandbyTaskExecutor) (transferTask : TransferTaskInfo)
    (isRecordStart : Bool) (mutableState : mutableState) (log : List Call) :
    releases (processRecordWorkflowStartedOrUpsertActionFn t transferTask isRecordStart
      mutableState log).2 = [] := by
  have hrec : ∀ l', releases
      (recordWorkflowStartedOrUpsert t transferTask mutableState isRecordStart l').2 = [] := by
    intro l'
    unfold recordWorkflowStartedOrUpsert
    cases mutableState.GetStartEvent with
    | error err => simp
    | ok startEvent => cases isRecordStart <;> simp [releases]
  unfold processRecordWorkflowStartedOrUpsertActionFn processRecordWorkflowStartedOrUpsertHelper
  cases isRecordStart with
  | false => simpa using hrec log
  | true =>
    cases mutableState.GetStartVersion with
    | error err => simp
    | ok startVersion =>
      rcases hver : t.verifyTaskVersion log transferTask.NamespaceId startVersion
        transferTask.Version with ⟨ok, err⟩
      cases err with
      | some e => simp [hver, releases]
      | none =>
        cases ok with
        | false => simp [hver, releases]
        | true =>
          simp only [if_true, verifyTaskVersion_apply, Exec.bind_apply, hver, Exec.pure_apply,
            List.append_nil]
          rw [releases_append, hrec]
          rfl

/-- Every invocation of `release` in a call of `processTransfer`, for a
predicate and a post-action that do not release themselves: none when the
cache fails, the deferred one when the call returns before the post-action,
and before it an explicit `release(nil)` when the post-action is reached. -/
theorem processTransfer_releases (t : transferQueueStandbyTaskExecutor)
    (processTaskIfClosed : Bool) (transferTask : TransferTaskInfo)
    (actionFn : standbyActionFn) (postActionFn : standbyPostActionFn) (log : List Call)
    (hact : ∀ mutableState l, releases (actionFn mutableState l).2 = [])
    (hpost : ∀ info l,
      releases (postActionFn (queueTaskInfo.transfer transferTask) info l).2 = []) :
    (¬ acquiresContext t transferTask log →
      releases (processTransfer t processTaskIfClosed (queueTaskInfo.transfer transferTask)
        actionFn postActionFn log).2 = []) ∧
    (acquiresContext t transferTask log →
      reachesPostAction t processTaskIfClosed transferTask actionFn log →
      releases (processTransfer t processTaskIfClosed (queueTaskInfo.transfer transferTask)
        actionFn postActionFn log).2 =
        [none, deferredReleaseArg (processTransfer t processTaskIfClosed
          (queueTaskInfo.transfer transferTask) actionFn postActionFn log).1]) ∧
    (acquiresContext t transferTask log →
      ¬ reachesPostAction t processTaskIfClosed transferTask actionFn log →
      releases (processTransfer t processTaskIfClosed (queueTaskInfo.transfer transferTask)
        actionFn postActionFn log).2 =
        [deferredReleaseArg (processTransfer t processTaskIfClosed
          (queueTaskInfo.transfer transferTask) actionFn postActionFn log).1]) := by
  refine ⟨?_, ?_, ?_⟩
  · intro hacq
    unfold acquiresContext at hacq
    obtain ⟨err, herr⟩ := Option.ne_none_iff_exists'.mp hacq
    rw [processTransfer_apply_not_acquired _ _ _ _ _ _ err herr]
    exact releases_acquireCall_cons transferTask []
  · intro hacq hreach
    rw [processTransfer_apply_acquired _ _ _ _ _ _ hacq]
    simp [releases_acquireCall_cons, processTransferBody_reaches t processTaskIfClosed
      transferTask actionFn postActionFn log hact hpost hreach]
  · intro hacq hreach
    rw [processTransfer_apply_acquired _ _ _ _ _ _ hacq]
    simp [releases_acquireCall_cons, processTransferBody_not_reaches t processTaskIfClosed
      transferTask actionFn postActionFn log hact hreach]

/-- A call of `execute` that runs no handler calls nothing. -/
theorem execute_of_no_handler (t : transferQueueStandbyTaskExecutor)
    (transferTask : TransferTaskInfo) (shouldProcessTask : Bool) (log : List Call)
    (hnone : handlerOf t transferTask shouldProcessTask = none) :
    (execute t (queueTaskInfo.transfer transferTask) shouldProcessTask log).2 = [] := by
  unfold handlerOf at hnone
  unfold execute
  by_cases hguard : shouldProcessTask = false ∧
      transferTask.TaskType ≠ TaskType.TASK_TYPE_TRANSFER_CLOSE_EXECUTION
  · simp [hguard]
  · simp only [if_neg hguard] at hnone ⊢
    cases hk : transferTask.TaskType <;> simp [hk] at hnone ⊢

/-- A call of `execute` that runs a handler is one call of `processTransfer` with
the predicate of the handler and a post-action; neither of the two releases. -/
theorem execute_of_handler (t : transferQueueStandbyTaskExecutor)
    (transferTask : TransferTaskInfo) (shouldProcessTask : Bool)
    (processTaskIfClosed : Bool) (actionFn : standbyActionFn)
    (hsome : handlerOf t transferTask shouldProcessTask = some (processTaskIfClosed, actionFn)) :
    ∃ postActionFn : standbyPostActionFn,
      (∀ mutableState l, releases (actionFn mutableState l).2 = []) ∧
      (∀ info l,
        releases (postActionFn (queueTaskInfo.transfer transferTask) info l).2 = []) ∧
      execute t (queueTaskInfo.transfer transferTask) shouldProcessTask =
        processTransfer t processTaskIfClosed (queueTaskInfo.transfer transferTask) actionFn
          postActionFn := by
  unfold handlerOf at hsome
  unfold execute
  have hnoop : ∀ info l, releases
      (standbyTaskPostActionNoOp (queueTaskInfo.transfer transferTask) info l).2 = [] :=
    fun _ _ => rfl
  by_cases hguard : shouldProcessTask = false ∧
      transferTask.TaskType ≠ TaskType.TASK_TYPE_TRANSFER_CLOSE_EXECUTION
  · simp [hguard] at hsome
  · simp only [if_neg hguard] at hsome ⊢
    cases hk : transferTask.TaskType with
    | TASK_TYPE_TRANSFER_ACTIVITY_TASK =>
      simp only [hk, Option.some.injEq, Prod.mk.injEq] at hsome ⊢
      obtain ⟨h1, h2⟩ := hsome
      subst h1 h2
      exact ⟨_, processActivityTaskActionFn_no_release t transferTask,
        fun info l => getStandbyPostActionFn_no_release t transferTask _ _ _ _
          (pushActivity_no_release t) (pushActivity_no_release t) _ info l, rfl⟩
    | TASK_TYPE_TRANSFER_DECISION_TASK =>
      simp only [hk, Option.some.injEq, Prod.mk.injEq] at hsome ⊢
      obtain ⟨h1, h2⟩ := hsome
      subst h1 h2
      exact ⟨_, processDecisionTaskActionFn_no_release t transferTask,
        fun info l => getStandbyPostActionFn_no_release t transferTask _ _ _ _
          (pushDecision_no_release t) (pushDecision_no_release t) _ info l, rfl⟩
    | TASK_TYPE_TRANSFER_CLOSE_EXECUTION =>
      simp only [hk, Option.some.injEq, Prod.mk.injEq] at hsome ⊢
      obtain ⟨h1, h2⟩ := hsome
      subst h1 h2
      exact ⟨_, processCloseExecutionActionFn_no_release t transferTask, hnoop, rfl⟩
    | TASK_TYPE_TRANSFER_CANCEL_EXECUTION =>
      simp only [hk, Option.some.injEq, Prod.mk.injEq] at hsome ⊢
      obtain ⟨h1, h2⟩ := hsome
      subst h1 h2
      exact ⟨_, processCancelExecutionActionFn_no_release t transferTask,
        fun info l => getStandbyPostActionFn_no_release t transferTask _ _ _ _
          (fetchHistoryFromRemote_no_release t)
          standbyTransferTaskPostActionTaskDiscarded_no_release _ info l, rfl⟩
    | TASK_TYPE_TRANSFER_SIGNAL_EXECUTION =>
      simp only [hk, Option.some.injEq, Prod.mk.injEq] at hsome ⊢
      obtain ⟨h1, h2⟩ := hsome
      subst h1 h2
      exact ⟨_, processSignalExecutionActionFn_no_release t transferTask,
        fun info l => getStandbyPostActionFn_no_release t transferTask _ _ _ _
          (fetchHistoryFromRemote_no_release t)
          standbyTransferTaskPostActionTaskDiscarded_no_release _ info l, rfl⟩
    | TASK_TYPE_TRANSFER_START_CHILD_EXECUTION =>
      simp only [hk, Option.some.injEq, Prod.mk.injEq] at hsome ⊢
      obtain ⟨h1, h2⟩ := hsome
      subst h1 h2
      exact ⟨_, processStartChildExecutionActionFn_no_release t transferTask,
        fun info l => getStandbyPostActionFn_no_release t transferTask _ _ _ _
          (fetchHistoryFromRemote_no_release t)
          standbyTransferTaskPostActionTaskDiscarded_no_release _ info l, rfl⟩
    | TASK_TYPE_TRANSFER_RECORD_WORKFLOW_STARTED =>
      simp only [hk, Option.some.injEq, Prod.mk.injEq] at hsome ⊢
      obtain ⟨h1, h2⟩ := hsome
      subst h1 h2
      exact ⟨_, processRecordWorkflowStartedOrUpsertActionFn_no_release t transferTask true,
        hnoop, rfl⟩
    | TASK_TYPE_TRANSFER_RESET_WORKFLOW => simp [hk] at hsome
    | TASK_TYPE_TRANSFER_UPSERT_WORKFLOW_SEARCH_ATTRIBUTES =>
      simp only [hk, Option.some.injEq, Prod.mk.injEq] at hsome ⊢
      obtain ⟨h1, h2⟩ := hsome
      subst h1 h2
      exact ⟨_, processRecordWorkflowStartedOrUpsertActionFn_no_release t transferTask false,
        hnoop, rfl⟩
    | unknown value => simp [hk] at hsome

/-- C4 as stated fails: one call of `execute` on the sample close task invokes
`release` twice, and a call that skips the task does not invoke it. -/
theorem execute_release_not_once :
    releases (execute sampleExecutor
        (queueTaskInfo.transfer (sampleTask TaskType.TASK_TYPE_TRANSFER_CLOSE_EXECUTION))
        true []).2 = [none, none] ∧
      releases (execute sampleExecutor
        (queueTaskInfo.transfer (sampleTask TaskType.TASK_TYPE_TRANSFER_ACTIVITY_TASK))
        false []).2 = [] := by
  decide

/-- C4, amended: a call of `execute` that returns at the dispatcher (the task is
skipped at the guard, is a ResetWorkflow task or has an unknown kind) does not
invoke `release`.  A call that runs a handler does not invoke it when the cache
returns an error, invokes it once when the context is acquired and
`processTransfer` returns before the post-action, and invokes it twice when the
post-action is reached. -/
theorem execute_release_count (t : transferQueueStandbyTaskExecutor)
    (transferTask : TransferTaskInfo) (shouldProcessTask : Bool) (log : List Call) :
    (handlerOf t transferTask shouldProcessTask = none →
      (releases (execute t (queueTaskInfo.transfer transferTask) shouldProcessTask
        log).2).length = 0) ∧
    (∀ processTaskIfClosed actionFn,
      handlerOf t transferTask shouldProcessTask = some (processTaskIfClosed, actionFn) →
      (¬ acquiresContext t transferTask log →
        (releases (execute t (queueTaskInfo.transfer transferTask) shouldProcessTask
          log).2).length = 0) ∧
      (acquiresContext t transferTask log →
        ¬ reachesPostAction t processTaskIfClosed transferTask actionFn log →
        (releases (execute t (queueTaskInfo.transfer transferTask) shouldProcessTask
          log).2).length = 1) ∧
      (acquiresContext t transferTask log →
        reachesPostAction t processTaskIfClosed transferTask actionFn log →
        (releases (execute t (queueTaskInfo.transfer transferTask) shouldProcessTask
          log).2).length = 2)) := by
  constructor
  · intro hnone
    rw [execute_of_no_handler t transferTask shouldProcessTask log hnone]
    rfl
  · intro processTaskIfClosed actionFn hsome
    obtain ⟨postActionFn, hact, hpost, hexec⟩ :=
      execute_of_handler t transferTask shouldProcessTask processTaskIfClosed actionFn hsome
    have h := processTransfer_releases t processTaskIfClosed transferTask actionFn
      postActionFn log hact hpost
    rw [hexec]
    refine ⟨?_, ?_, ?_⟩
    · intro hacq
      rw [h.1 hacq]
      rfl
    · intro hacq hreach
      rw [h.2.2 hacq hreach]
      rfl
    · intro hacq hreach
      rw [h.2.1 hacq hreach]
      rfl

/-- Witness of the amended C4: the close task on the closed sample workflow
runs the close handler, gets the context and reaches the post-action, so
`release` is invoked twice. -/
theorem execute_release_count_witness :
    handlerOf sampleExecutor (sampleTask TaskType.TASK_TYPE_TRANSFER_CLOSE_EXECUTION) false
        = some (true, processCloseExecutionActionFn sampleExecutor
          (sampleTask TaskType.TASK_TYPE_TRANSFER_CLOSE_EXECUTION)) ∧
      acquiresContext sampleExecutor
        (sampleTask TaskType.TASK_TYPE_TRANSFER_CLOSE_EXECUTION) [] ∧
      reachesPostAction sampleExecutor true
        (sampleTask TaskType.TASK_TYPE_TRANSFER_CLOSE_EXECUTION)
        (processCloseExecutionActionFn sampleExecutor
          (sampleTask TaskType.TASK_TYPE_TRANSFER_CLOSE_EXECUTION)) [] ∧
      (releases (execute sampleExecutor
        (queueTaskInfo.transfer (sampleTask TaskType.TASK_TYPE_TRANSFER_CLOSE_EXECUTION))
        false []).2).length = 2 :=
  ⟨rfl, rfl, ⟨sampleMutableState, rfl, Or.inr rfl, rfl⟩,
    ((execute_release_count sampleExecutor
      (sampleTask TaskType.TASK_TYPE_TRANSFER_CLOSE_EXECUTION) false []).2 true
      (processCloseExecutionActionFn sampleExecutor
        (sampleTask TaskType.TASK_TYPE_TRANSFER_CLOSE_EXECUTION)) rfl).2.2 rfl
      ⟨sampleMutableState, rfl, Or.inr rfl, rfl⟩⟩

/-- C5 as stated fails: `processTransfer` with the activity predicate and
`pushActivity` as post-action returns the error 7 of matching, and its first
invocation of `release` received nil, not that error. -/
theorem processTransfer_release_nil_before_error :
    (processTransfer failingMatchingExecutor false
        (queueTaskInfo.transfer (sampleTask TaskType.TASK_TYPE_TRANSFER_ACTIVITY_TASK))
        (processActivityTaskActionFn failingMatchingExecutor
          (sampleTask TaskType.TASK_TYPE_TRANSFER_ACTIVITY_TASK))
        (pushActivity failingMatchingExecutor) []).1
        = Outcome.returned (some (Error.other 7)) ∧
      releases (processTransfer failingMatchingExecutor false
        (queueTaskInfo.transfer (sampleTask TaskType.TASK_TYPE_TRANSFER_ACTIVITY_TASK))
        (processActivityTaskActionFn failingMatchingExecutor
          (sampleTask TaskType.TASK_TYPE_TRANSFER_ACTIVITY_TASK))
        (pushActivity failingMatchingExecutor) []).2
        = [none, some (Error.other 7)] := by
  decide

/-- C5, amended: in a call of `processTransfer` that acquires the context and
returns `r` (predicate and post-action not releasing themselves), the deferred
invocation of `release`, which is the last one, receives nil when `r` is
`ErrTaskRetry` or success and `r` otherwise; when the post-action is reached
there is one invocation before it, and that one receives nil whatever `r`
is. -/
theorem processTransfer_release_arguments (t : transferQueueStandbyTaskExecutor)
    (processTaskIfClosed : Bool) (transferTask : TransferTaskInfo)
    (actionFn : standbyActionFn) (postActionFn : standbyPostActionFn) (log : List Call)
    (r : Option Error)
    (hact : ∀ mutableState l, releases (actionFn mutableState l).2 = [])
    (hpost : ∀ info l,
      releases (postActionFn (queueTaskInfo.transfer transferTask) info l).2 = [])
    (hacq : acquiresContext t transferTask log)
    (hret : (processTransfer t processTaskIfClosed (queueTaskInfo.transfer transferTask)
      actionFn postActionFn log).1 = Outcome.returned r) :
    (¬ reachesPostAction t processTaskIfClosed transferTask actionFn log →
      releases (processTransfer t processTaskIfClosed (queueTaskInfo.transfer transferTask)
        actionFn postActionFn log).2 =
        [if r = some Error.ErrTaskRetry then none else r]) ∧
    (reachesPostAction t processTaskIfClosed transferTask actionFn log →
      releases (processTransfer t processTaskIfClosed (queueTaskInfo.transfer transferTask)
        actionFn postActionFn log).2 =
        [none, if r = some Error.ErrTaskRetry then none else r]) := by
  have h := processTransfer_releases t processTaskIfClosed transferTask actionFn postActionFn
    log hact hpost
  constructor
  · intro hreach
    rw [h.2.2 hacq hreach, hret]
    rfl
  · intro hreach
    rw [h.2.1 hacq hreach, hret]
    rfl

/-- Witness of the amended C5: the call of the counterexample; the explicit
release received nil and the deferred one the error 7 of matching. -/
theorem processTransfer_release_arguments_witness :
    (∀ mutableState l,
        releases (processActivityTaskActionFn failingMatchingExecutor
          (sampleTask TaskType.TASK_TYPE_TRANSFER_ACTIVITY_TASK) mutableState l).2 = []) ∧
      (∀ info l,
        releases (pushActivity failingMatchingExecutor
          (queueTaskInfo.transfer (sampleTask TaskType.TASK_TYPE_TRANSFER_ACTIVITY_TASK))
          info l).2 = []) ∧
      acquiresContext failingMatchingExecutor
        (sampleTask TaskType.TASK_TYPE_TRANSFER_ACTIVITY_TASK) [] ∧
      (processTransfer failingMatchingExecutor false
        (queueTaskInfo.transfer (sampleTask TaskType.TASK_TYPE_TRANSFER_ACTIVITY_TASK))
        (processActivityTaskActionFn failingMatchingExecutor
          (sampleTask TaskType.TASK_TYPE_TRANSFER_ACTIVITY_TASK))
        (pushActivity failingMatchingExecutor) []).1
          = Outcome.returned (some (Error.other 7)) ∧
      reachesPostAction failingMatchingExecutor false
        (sampleTask TaskType.TASK_TYPE_TRANSFER_ACTIVITY_TASK)
        (processActivityTaskActionFn failingMatchingExecutor
          (sampleTask TaskType.TASK_TYPE_TRANSFER_ACTIVITY_TASK)) [] ∧
      releases (processTransfer failingMatchingExecutor false
        (queueTaskInfo.transfer (sampleTask TaskType.TASK_TYPE_TRANSFER_ACTIVITY_TASK))
        (processActivityTaskActionFn failingMatchingExecutor
          (sampleTask TaskType.TASK_TYPE_TRANSFER_ACTIVITY_TASK))
        (pushActivity failingMatchingExecutor) []).2 =
        [none, if some (Error.other 7) = some Error.ErrTaskRetry then none
          else some (Error.other 7)] :=
  ⟨processActivityTaskActionFn_no_release _ _,
    fun info l => pushActivity_no_release _ _ info l,
    rfl,
    rfl,
    ⟨runningMutableState, rfl, Or.inl rfl, rfl⟩,
    (processTransfer_release_arguments failingMatchingExecutor false
      (sampleTask TaskType.TASK_TYPE_TRANSFER_ACTIVITY_TASK)
      (processActivityTaskActionFn failingMatchingExecutor
        (sampleTask TaskType.TASK_TYPE_TRANSFER_ACTIVITY_TASK))
      (pushActivity failingMatchingExecutor) [] (some (Error.other 7))
      (processActivityTaskActionFn_no_release _ _)
      (fun info l => pushActivity_no_release _ _ info l) rfl rfl).2
      ⟨runningMutableState, rfl, Or.inl rfl, rfl⟩⟩

/-! ## The paths of `processTransfer` -/

/-- A call of `processTransfer` whose load of the mutable state fails returns the
error of the loader after the deferred release. -/
theorem processTransfer_apply_load_error (t : transferQueueStandbyTaskExecutor)
    (processTaskIfClosed : Bool) (transferTask : TransferTaskInfo)
    (actionFn : standbyActionFn) (postActionFn : standbyPostActionFn) (log : List Call)
    (loaded : Option mutableState) (err : Error)
    (hacq : acquiresContext t transferTask log)
    (hload : t.loadMutableStateForTransferTask (log ++ [acquireCall transferTask]) transferTask
      = (loaded, some err)) :
    processTransfer t processTaskIfClosed (queueTaskInfo.transfer transferTask) actionFn
        postActionFn log =
      (Outcome.returned (some err),
        [acquireCall transferTask, Call.loadMutableStateForTransferTask transferTask,
          Call.release (if err = Error.ErrTaskRetry then none else some err)]) := by
  have hbody : processTransferBody t processTaskIfClosed (queueTaskInfo.transfer transferTask)
      transferTask actionFn postActionFn (log ++ [acquireCall transferTask]) =
      (Outcome.returned (some err), [Call.loadMutableStateForTransferTask transferTask]) := by
    simp [processTransferBody, hload]
  rw [processTransfer_apply_acquired _ _ _ _ _ _ hacq, hbody]
  simp [deferredReleaseArg]

/-- A call of `processTransfer` for a workflow the loader does not know returns
success after the deferred release. -/
theorem processTransfer_apply_unknown_workflow (t : transferQueueStandbyTaskExecutor)
    (processTaskIfClosed : Bool) (transferTask : TransferTaskInfo)
    (actionFn : standbyActionFn) (postActionFn : standbyPostActionFn) (log : List Call)
    (hacq : acquiresContext t transferTask log)
    (hload : t.loadMutableStateForTransferTask (log ++ [acquireCall transferTask]) transferTask
      = (none, none)) :
    processTransfer t processTaskIfClosed (queueTaskInfo.transfer transferTask) actionFn
        postActionFn log =
      (Outcome.returned none,
        [acquireCall transferTask, Call.loadMutableStateForTransferTask transferTask,
          Call.release none]) := by
  have hbody : processTransferBody t processTaskIfClosed (queueTaskInfo.transfer transferTask)
      transferTask actionFn postActionFn (log ++ [acquireCall transferTask]) =
      (Outcome.returned none, [Call.loadMutableStateForTransferTask transferTask]) := by
    simp [processTransferBody, hload]
  rw [processTransfer_apply_acquired _ _ _ _ _ _ hacq, hbody]
  simp [deferredReleaseArg]

/-- A call of `processTransfer` for a closed workflow, by a handler that does
not process closed workflows, returns success after the deferred release. -/
theorem processTransfer_apply_closed (t : transferQueueStandbyTaskExecutor)
    (transferTask : TransferTaskInfo)
    (actionFn : standbyActionFn) (postActionFn : standbyPostActionFn) (log : List Call)
    (mutableState : mutableState)
    (hacq : acquiresContext t transferTask log)
    (hload : t.loadMutableStateForTransferTask (log ++ [acquireCall transferTask]) transferTask
      = (some mutableState, none))
    (hclosed : mutableState.IsWorkflowExecutionRunning = false) :
    processTransfer t false (queueTaskInfo.transfer transferTask) actionFn
        postActionFn log =
      (Outcome.returned none,
        [acquireCall transferTask, Call.loadMutableStateForTransferTask transferTask,
          Call.release none]) := by
  have hbody : processTransferBody t false (queueTaskInfo.transfer transferTask)
      transferTask actionFn postActionFn (log ++ [acquireCall transferTask]) =
      (Outcome.returned none, [Call.loadMutableStateForTransferTask transferTask]) := by
    simp [processTransferBody, hload, hclosed]
  rw [processTransfer_apply_acquired _ _ _ _ _ _ hacq, hbody]
  simp [deferredReleaseArg]

/-- A call of `processTransfer` whose predicate fails returns the error of the
predicate after the deferred release; the post-action plays no part. -/
theorem processTransfer_apply_action_error (t : transferQueueStandbyTaskExecutor)
    (processTaskIfClosed : Bool) (transferTask : TransferTaskInfo)
    (actionFn : standbyActionFn) (postActionFn : standbyPostActionFn) (log : List Call)
    (mutableState : mutableState) (info : Option PostActionInfo) (err : Error)
    (calls : List Call)
    (hacq : acquiresContext t transferTask log)
    (hload : t.loadMutableStateForTransferTask (log ++ [acquireCall transferTask]) transferTask
      = (some mutableState, none))
    (hrun : mutableState.IsWorkflowExecutionRunning = true ∨ processTaskIfClosed = true)
    (hact : actionFn mutableState
        (log ++ [acquireCall transferTask, Call.loadMutableStateForTransferTask transferTask])
      = ((info, some err), calls)) :
    processTransfer t processTaskIfClosed (queueTaskInfo.transfer transferTask) actionFn
        postActionFn log =
      (Outcome.returned (some err),
        acquireCall transferTask :: Call.loadMutableStateForTransferTask transferTask ::
          (calls ++ [Call.release (if err = Error.ErrTaskRetry then none else some err)])) := by
  have hcond : ¬ (mutableState.IsWorkflowExecutionRunning = false ∧
      processTaskIfClosed = false) := by
    rcases hrun with h | h <;> simp [h]
  have hbody : processTransferBody t processTaskIfClosed (queueTaskInfo.transfer transferTask)
      transferTask actionFn postActionFn (log ++ [acquireCall transferTask]) =
      (Outcome.returned (some err),
        Call.loadMutableStateForTransferTask transferTask :: calls) := by
    simp only [processTransferBody, Exec.bind_apply, Exec.call_apply, hload, if_neg hcond]
    simp only [List.append_assoc, List.singleton_append, hact]
    simp
  rw [processTransfer_apply_acquired _ _ _ _ _ _ hacq, hbody]
  simp [deferredReleaseArg]

/-- A call of `processTransfer` whose predicate succeeds: the explicit release,
the post-action on the info of the predicate, and the deferred release. -/
theorem processTransfer_apply_reaches (t : transferQueueStandbyTaskExecutor)
    (processTaskIfClosed : Bool) (transferTask : TransferTaskInfo)
    (actionFn : standbyActionFn) (postActionFn : standbyPostActionFn) (log : List Call)
    (mutableState : mutableState) (info : Option PostActionInfo) (calls : List Call)
    (hacq : acquiresContext t transferTask log)
    (hload : t.loadMutableStateForTransferTask (log ++ [acquireCall transferTask]) transferTask
      = (some mutableState, none))
    (hrun : mutableState.IsWorkflowExecutionRunning = true ∨ processTaskIfClosed = true)
    (hact : actionFn mutableState
        (log ++ [acquireCall transferTask, Call.loadMutableStateForTransferTask transferTask])
      = ((info, none), calls)) :
    processTransfer t processTaskIfClosed (queueTaskInfo.transfer transferTask) actionFn
        postActionFn log =
      ((postActionFn (queueTaskInfo.transfer transferTask) info
          (log ++ acquireCall transferTask ::
            Call.loadMutableStateForTransferTask transferTask ::
              (calls ++ [Call.release none]))).1,
        acquireCall transferTask :: Call.loadMutableStateForTransferTask transferTask ::
          (calls ++ Call.release none ::
            ((postActionFn (queueTaskInfo.transfer transferTask) info
              (log ++ acquireCall transferTask ::
                Call.loadMutableStateForTransferTask transferTask ::
                  (calls ++ [Call.release none]))).2 ++
            [Call.release (deferredReleaseArg
              (postActionFn (queueTaskInfo.transfer transferTask) info
                (log ++ acquireCall transferTask ::
                  Call.loadMutableStateForTransferTask transferTask ::
                    (calls ++ [Call.release none]))).1)]))) := by
  rw [processTransfer_apply_acquired _ _ _ _ _ _ hacq,
    processTransferBody_apply_reaches t processTaskIfClosed transferTask actionFn postActionFn
      log mutableState info calls hload hrun hact]
  simp

/-! ## The post-action ladder on the resend kinds -/

/-- A call of `processTransfer` with the resend ladder whose predicate yields a
resend info, when the clock read by the ladder lies between the two delays: the
result is `ErrTaskRetry`, and the resender calls are those of the predicate and
of the cursor choice. -/
theorem processTransfer_resend_window (t : transferQueueStandbyTaskExecutor)
    (transferTask : TransferTaskInfo) (actionFn : standbyActionFn) (log : List Call)
    (mutableState : mutableState) (resendInfo : historyResendInfo) (calls : List Call)
    (hacq : acquiresContext t transferTask log)
    (hload : t.loadMutableStateForTransferTask (log ++ [acquireCall transferTask]) transferTask
      = (some mutableState, none))
    (hrun : mutableState.IsWorkflowExecutionRunning = true)
    (hact : actionFn mutableState
        (log ++ [acquireCall transferTask, Call.loadMutableStateForTransferTask transferTask])
      = ((some (PostActionInfo.historyResendInfo resendInfo), none), calls))
    (hage : t.StandbyTaskMissingEventsResendDelay ≤
        t.GetCurrentTime
          (log ++ acquireCall transferTask ::
            Call.loadMutableStateForTransferTask transferTask ::
              (calls ++ [Call.release none]))
          t.clusterName - transferTask.VisibilityTime ∧
      t.GetCurrentTime
          (log ++ acquireCall transferTask ::
            Call.loadMutableStateForTransferTask transferTask ::
              (calls ++ [Call.release none]))
          t.clusterName - transferTask.VisibilityTime <
        t.StandbyTaskMissingEventsDiscardDelay) :
    (processTransfer t false (queueTaskInfo.transfer transferTask) actionFn
      (getStandbyPostActionFn transferTask (getCurrentTime t)
        t.StandbyTaskMissingEventsResendDelay t.StandbyTaskMissingEventsDiscardDelay
        (fetchHistoryFromRemote t) standbyTransferTaskPostActionTaskDiscarded) log).1
      = Outcome.returned (some Error.ErrTaskRetry) ∧
    resendCalls (processTransfer t false (queueTaskInfo.transfer transferTask) actionFn
      (getStandbyPostActionFn transferTask (getCurrentTime t)
        t.StandbyTaskMissingEventsResendDelay t.StandbyTaskMissingEventsDiscardDelay
        (fetchHistoryFromRemote t) standbyTransferTaskPostActionTaskDiscarded) log).2
      = resendCalls calls ++ (resendHistory t transferTask resendInfo []).2 := by
  rw [processTransfer_apply_acquired _ _ _ _ _ _ hacq,
    processTransferBody_apply_reaches t false transferTask actionFn _ log mutableState _ calls
      hload (Or.inl hrun) hact,
    getStandbyPostActionFn_apply_window t transferTask _ _ _ _ _ hage]
  dsimp only
  refine ⟨by rw [fetchHistoryFromRemote_apply], ?_⟩
  have hcons : ∀ (c : Call) (xs : List Call), resendCalls (c :: xs) =
      resendCalls [c] ++ resendCalls xs := by
    intro c xs
    exact resendCalls_append [c] xs
  rw [hcons (acquireCall transferTask), resendCalls_append,
    hcons (Call.loadMutableStateForTransferTask transferTask), resendCalls_append,
    hcons (Call.release none), hcons (Call.GetCurrentTime t.clusterName),
    fetchHistoryFromRemote_resendCalls, resendHistory_calls, resendHistory_calls]
  simp [resendCalls, Call.isResend, acquireCall]

/-- C9 as stated fails: on a signal task aged between the two delays whose
predicate yields the empty resend info, `execute` returns `ErrTaskRetry` but
calls neither resender. -/
theorem execute_empty_resend_info_no_resend :
    (execute emptyResendExecutor
        (queueTaskInfo.transfer (sampleTask TaskType.TASK_TYPE_TRANSFER_SIGNAL_EXECUTION))
        true []).1 = Outcome.returned (some Error.ErrTaskRetry) ∧
      (processSignalExecutionActionFn emptyResendExecutor
        (sampleTask TaskType.TASK_TYPE_TRANSFER_SIGNAL_EXECUTION)
        { runningMutableState with getHistoryResendInfo := Except.ok emptyResendInfo }
        []).1 = (some (PostActionInfo.historyResendInfo emptyResendInfo), none) ∧
      resendCalls (execute emptyResendExecutor
        (queueTaskInfo.transfer (sampleTask TaskType.TASK_TYPE_TRANSFER_SIGNAL_EXECUTION))
        true []).2 = [] := by
  decide

/-- C9, amended: for every CancelExecution, SignalExecution or
StartChildExecution task that `execute` is asked to process and whose
predicate yields a resend info (the cache hands out the context, the loader
returns a running workflow, the info of the schedule id is present, for a child
not started, the verifier accepts its version `version` when the predicate
asks, and `getHistoryResendInfo` yields `resendInfo`), when the age at the one
reading of the clock made in the call lies between the resend delay and the
discard delay, `execute` returns `ErrTaskRetry`; it makes exactly one call to a
resender when `resendInfo` carries a cursor (the NDC pair or `nextEventID`),
and none when it carries no cursor. -/
theorem execute_resend_window (t : transferQueueStandbyTaskExecutor)
    (transferTask : TransferTaskInfo) (mutableState : mutableState) (version : Int)
    (resendInfo : historyResendInfo) (log : List Call)
    (hacq : acquiresContext t transferTask log)
    (hload : t.loadMutableStateForTransferTask (log ++ [acquireCall transferTask]) transferTask
      = (some mutableState, none))
    (hrun : mutableState.IsWorkflowExecutionRunning = true)
    (hpoint :
      (transferTask.TaskType = TaskType.TASK_TYPE_TRANSFER_CANCEL_EXECUTION ∧
        ∃ requestCancelInfo, mutableState.GetRequestCancelInfo transferTask.ScheduleId
          = some requestCancelInfo ∧ requestCancelInfo.Version = version) ∨
      (transferTask.TaskType = TaskType.TASK_TYPE_TRANSFER_SIGNAL_EXECUTION ∧
        ∃ signalInfo, mutableState.GetSignalInfo transferTask.ScheduleId
          = some signalInfo ∧ signalInfo.Version = version) ∨
      (transferTask.TaskType = TaskType.TASK_TYPE_TRANSFER_START_CHILD_EXECUTION ∧
        ∃ childWorkflowInfo, mutableState.GetChildExecutionInfo transferTask.ScheduleId
          = some childWorkflowInfo ∧ childWorkflowInfo.Version = version ∧
          childWorkflowInfo.StartedID = t.EmptyEventID))
    (hver : t.verifyTaskVersion
        (log ++ [acquireCall transferTask, Call.loadMutableStateForTransferTask transferTask])
        transferTask.NamespaceId version transferTask.Version = (true, none))
    (hresend : mutableState.getHistoryResendInfo = Except.ok resendInfo)
    (hage : t.StandbyTaskMissingEventsResendDelay ≤
        t.GetCurrentTime
          (log ++ [acquireCall transferTask, Call.loadMutableStateForTransferTask transferTask,
            Call.verifyTaskVersion transferTask.NamespaceId version transferTask.Version,
            Call.release none])
          t.clusterName - transferTask.VisibilityTime ∧
      t.GetCurrentTime
          (log ++ [acquireCall transferTask, Call.loadMutableStateForTransferTask transferTask,
            Call.verifyTaskVersion transferTask.NamespaceId version transferTask.Version,
            Call.release none])
          t.clusterName - transferTask.VisibilityTime <
        t.StandbyTaskMissingEventsDiscardDelay) :
    (execute t (queueTaskInfo.transfer transferTask) true log).1
        = Outcome.returned (some Error.ErrTaskRetry) ∧
      (((resendInfo.lastEventID ≠ t.EmptyEventID ∧
          resendInfo.lastEventVersion ≠ t.EmptyVersion) ∨ resendInfo.nextEventID ≠ none) →
        (resendCalls (execute t (queueTaskInfo.transfer transferTask) true log).2).length
          = 1) ∧
      (¬ (resendInfo.lastEventID ≠ t.EmptyEventID ∧
          resendInfo.lastEventVersion ≠ t.EmptyVersion) → resendInfo.nextEventID = none →
        resendCalls (execute t (queueTaskInfo.transfer transferTask) true log).2 = []) := by
  have hmain : (execute t (queueTaskInfo.transfer transferTask) true log).1
        = Outcome.returned (some Error.ErrTaskRetry) ∧
      resendCalls (execute t (queueTaskInfo.transfer transferTask) true log).2 =
        resendCalls
            [Call.verifyTaskVersion transferTask.NamespaceId version transferTask.Version] ++
          (resendHistory t transferTask resendInfo []).2 := by
    rw [execute_dispatch]
    rcases hpoint with ⟨hk, info, hinfo, hv⟩ | ⟨hk, info, hinfo, hv⟩ |
      ⟨hk, info, hinfo, hv, hstarted⟩
    · subst hv
      have hact : processCancelExecutionActionFn t transferTask mutableState
          (log ++ [acquireCall transferTask,
            Call.loadMutableStateForTransferTask transferTask])
          = ((some (PostActionInfo.historyResendInfo resendInfo), none),
            [Call.verifyTaskVersion transferTask.NamespaceId info.Version
              transferTask.Version]) := by
        simp [processCancelExecutionActionFn, hinfo, hver, returnHistoryResendInfo, hresend]
      simp only [hk, processCancelExecution]
      exact processTransfer_resend_window t transferTask _ log mutableState resendInfo _
        hacq hload hrun hact hage
    · subst hv
      have hact : processSignalExecutionActionFn t transferTask mutableState
          (log ++ [acquireCall transferTask,
            Call.loadMutableStateForTransferTask transferTask])
          = ((some (PostActionInfo.historyResendInfo resendInfo), none),
            [Call.verifyTaskVersion transferTask.NamespaceId info.Version
              transferTask.Version]) := by
        simp [processSignalExecutionActionFn, hinfo, hver, returnHistoryResendInfo, hresend]
      simp only [hk, processSignalExecution]
      exact processTransfer_resend_window t transferTask _ log mutableState resendInfo _
        hacq hload hrun hact hage
    · subst hv
      have hact : processStartChildExecutionActionFn t transferTask mutableState
          (log ++ [acquireCall transferTask,
            Call.loadMutableStateForTransferTask transferTask])
          = ((some (PostActionInfo.historyResendInfo resendInfo), none),
            [Call.verifyTaskVersion transferTask.NamespaceId info.Version
              transferTask.Version]) := by
        simp [processStartChildExecutionActionFn, hinfo, hver, returnHistoryResendInfo,
          hresend, hstarted]
      simp only [hk, processStartChildExecution]
      exact processTransfer_resend_window t transferTask _ log mutableState resendInfo _
        hacq hload hrun hact hage
  obtain ⟨hresult, hcalls⟩ := hmain
  refine ⟨hresult, ?_, ?_⟩
  · intro hcursor
    rw [hcalls, resendHistory_calls]
    rcases hcursor with hndc | hnext
    · simp [if_pos hndc, resendCalls, Call.isResend]
    · by_cases hndc : resendInfo.lastEventID ≠ t.EmptyEventID ∧
          resendInfo.lastEventVersion ≠ t.EmptyVersion
      · simp [if_pos hndc, resendCalls, Call.isResend]
      · obtain ⟨n, hn⟩ := Option.ne_none_iff_exists'.mp hnext
        simp [if_neg hndc, hn, resendCalls, Call.isResend]
  · intro hndc hnext
    rw [hcalls, resendHistory_calls]
    simp [if_neg hndc, hnext, resendCalls, Call.isResend]

/-- Witness of the amended C9: the cancel and the start-child task of age 30 on
the running sample workflow, with delays 10 and 300 and the NDC cursor; the
signal task under the clock that advances with every call, which reads age 10
at its one reading, after four calls, and less before; and the signal task on
the workflow whose resend info carries no cursor. -/
theorem execute_resend_window_witness :
    ((execute runningExecutor
        (queueTaskInfo.transfer (sampleTask TaskType.TASK_TYPE_TRANSFER_CANCEL_EXECUTION))
        true []).1 = Outcome.returned (some Error.ErrTaskRetry) ∧
      (resendCalls (execute runningExecutor
        (queueTaskInfo.transfer (sampleTask TaskType.TASK_TYPE_TRANSFER_CANCEL_EXECUTION))
        true []).2).length = 1) ∧
    ((execute runningExecutor
        (queueTaskInfo.transfer (sampleTask TaskType.TASK_TYPE_TRANSFER_START_CHILD_EXECUTION))
        true []).1 = Outcome.returned (some Error.ErrTaskRetry) ∧
      (resendCalls (execute runningExecutor
        (queueTaskInfo.transfer (sampleTask TaskType.TASK_TYPE_TRANSFER_START_CHILD_EXECUTION))
        true []).2).length = 1) ∧
    ((execute tickingExecutor
        (queueTaskInfo.transfer (sampleTask TaskType.TASK_TYPE_TRANSFER_SIGNAL_EXECUTION))
        true []).1 = Outcome.returned (some Error.ErrTaskRetry) ∧
      (resendCalls (execute tickingExecutor
        (queueTaskInfo.transfer (sampleTask TaskType.TASK_TYPE_TRANSFER_SIGNAL_EXECUTION))
        true []).2).length = 1) ∧
    ((execute emptyResendExecutor
        (queueTaskInfo.transfer (sampleTask TaskType.TASK_TYPE_TRANSFER_SIGNAL_EXECUTION))
        true []).1 = Outcome.returned (some Error.ErrTaskRetry) ∧
      resendCalls (execute emptyResendExecutor
        (queueTaskInfo.transfer (sampleTask TaskType.TASK_TYPE_TRANSFER_SIGNAL_EXECUTION))
        true []).2 = []) :=
  ⟨⟨(execute_resend_window runningExecutor
        (sampleTask TaskType.TASK_TYPE_TRANSFER_CANCEL_EXECUTION) runningMutableState 3
        ndcResendInfo [] rfl rfl rfl (Or.inl ⟨rfl, { Version := 3 }, rfl, rfl⟩) rfl rfl
        (by decide)).1,
      (execute_resend_window runningExecutor
        (sampleTask TaskType.TASK_TYPE_TRANSFER_CANCEL_EXECUTION) runningMutableState 3
        ndcResendInfo [] rfl rfl rfl (Or.inl ⟨rfl, { Version := 3 }, rfl, rfl⟩) rfl rfl
        (by decide)).2.1 (Or.inl (by decide))⟩,
    ⟨(execute_resend_window runningExecutor
        (sampleTask TaskType.TASK_TYPE_TRANSFER_START_CHILD_EXECUTION) runningMutableState 3
        ndcResendInfo [] rfl rfl rfl
        (Or.inr (Or.inr ⟨rfl, { Version := 3, StartedID := 0 }, rfl, rfl, rfl⟩)) rfl rfl
        (by decide)).1,
      (execute_resend_window runningExecutor
        (sampleTask TaskType.TASK_TYPE_TRANSFER_START_CHILD_EXECUTION) runningMutableState 3
        ndcResendInfo [] rfl rfl rfl
        (Or.inr (Or.inr ⟨rfl, { Version := 3, StartedID := 0 }, rfl, rfl, rfl⟩)) rfl rfl
        (by decide)).2.1 (Or.inl (by decide))⟩,
    ⟨(execute_resend_window tickingExecutor
        (sampleTask TaskType.TASK_TYPE_TRANSFER_SIGNAL_EXECUTION) runningMutableState 3
        ndcResendInfo [] rfl rfl rfl (Or.inr (Or.inl ⟨rfl, { Version := 3 }, rfl, rfl⟩))
        rfl rfl (by decide)).1,
      (execute_resend_window tickingExecutor
        (sampleTask TaskType.TASK_TYPE_TRANSFER_SIGNAL_EXECUTION) runningMutableState 3
        ndcResendInfo [] rfl rfl rfl (Or.inr (Or.inl ⟨rfl, { Version := 3 }, rfl, rfl⟩))
        rfl rfl (by decide)).2.1 (Or.inl (by decide))⟩,
    ⟨(execute_resend_window emptyResendExecutor
        (sampleTask TaskType.TASK_TYPE_TRANSFER_SIGNAL_EXECUTION)
        { runningMutableState with getHistoryResendInfo := Except.ok emptyResendInfo } 3
        emptyResendInfo [] rfl rfl rfl (Or.inr (Or.inl ⟨rfl, { Version := 3 }, rfl, rfl⟩))
        rfl rfl (by decide)).1,
      (execute_resend_window emptyResendExecutor
        (sampleTask TaskType.TASK_TYPE_TRANSFER_SIGNAL_EXECUTION)
        { runningMutableState with getHistoryResendInfo := Except.ok emptyResendInfo } 3
        emptyResendInfo [] rfl rfl rfl (Or.inr (Or.inl ⟨rfl, { Version := 3 }, rfl, rfl⟩))
        rfl rfl (by decide)).2.2 (by decide) rfl⟩⟩

/-! ## Version mismatch -/

/-- The post-action `pushActivity` does not consult the verifier. -/
theorem pushActivity_no_verify (t : transferQueueStandbyTaskExecutor) (task : queueTaskInfo)
    (info : Option PostActionInfo) (log : List Call) :
    verifyCalls (pushActivity t task info log).2 = [] := by
  rcases info with _ | info
  · simp [pushActivity, verifyCalls]
  · cases info <;> cases task <;> simp [pushActivity, verifyCalls, Call.isVerify]

/-- The post-action `pushDecision` does not consult the verifier. -/
theorem pushDecision_no_verify (t : transferQueueStandbyTaskExecutor) (task : queueTaskInfo)
    (info : Option PostActionInfo) (log : List Call) :
    verifyCalls (pushDecision t task info log).2 = [] := by
  rcases info with _ | info
  · simp [pushDecision, verifyCalls]
  · cases info <;> cases task <;> simp [pushDecision, verifyCalls, Call.isVerify]

/-- The post-action `fetchHistoryFromRemote` does not consult the verifier. -/
theorem fetchHistoryFromRemote_no_verify (t : transferQueueStandbyTaskExecutor)
    (task : queueTaskInfo) (info : Option PostActionInfo) (log : List Call) :
    verifyCalls (fetchHistoryFromRemote t task info log).2 = [] := by
  rcases info with _ | info
  · simp [fetchHistoryFromRemote, verifyCalls]
  · cases task with
    | otherPayload tag => simp [fetchHistoryFromRemote, verifyCalls]
    | transfer transferTask =>
      cases info with
      | historyResendInfo resendInfo =>
        rw [fetchHistoryFromRemote_apply, resendHistory_calls]
        have hlog : ∀ err l, verifyCalls (logResendError t transferTask err l).2 = [] := by
          intro err l
          cases err <;> simp [logResendError, verifyCalls, Call.isVerify]
        have hcons : ∀ (c : Call) (xs : List Call), verifyCalls (c :: xs) =
            verifyCalls [c] ++ verifyCalls xs := fun c xs => verifyCalls_append [c] xs
        rw [hcons, hcons Call.StartTimer, verifyCalls_append, verifyCalls_append, hlog]
        by_cases hndc : resendInfo.lastEventID ≠ t.EmptyEventID ∧
            resendInfo.lastEventVersion ≠ t.EmptyVersion
        · simp [if_pos hndc, verifyCalls, Call.isVerify]
        · rw [if_neg hndc]
          cases resendInfo.nextEventID <;> simp [verifyCalls, Call.isVerify]
      | pushActivityToMatchingInfo _ => simp [fetchHistoryFromRemote, verifyCalls]
      | pushDecisionToMatchingInfo _ _ => simp [fetchHistoryFromRemote, verifyCalls]

/-- The discarded action does not consult the verifier. -/
theorem standbyTransferTaskPostActionTaskDiscarded_no_verify (task : queueTaskInfo)
    (info : Option PostActionInfo) (log : List Call) :
    verifyCalls (standbyTransferTaskPostActionTaskDiscarded task info log).2 = [] := by
  cases info <;> simp [standbyTransferTaskPostActionTaskDiscarded, verifyCalls]

/-- The ladder does not consult the verifier when its two actions do not. -/
theorem getStandbyPostActionFn_no_verify (t : transferQueueStandbyTaskExecutor)
    (transferTask : TransferTaskInfo) (resendDelay discardDelay : Int)
    (nowFn discardFn : standbyPostActionFn)
    (hnow : ∀ task info l, verifyCalls (nowFn task info l).2 = [])
    (hdiscard : ∀ task info l, verifyCalls (discardFn task info l).2 = [])
    (task : queueTaskInfo) (info : Option PostActionInfo) (log : List Call) :
    verifyCalls (getStandbyPostActionFn transferTask (getCurrentTime t) resendDelay
      discardDelay nowFn discardFn task info log).2 = [] := by
  cases info with
  | none => simp [getStandbyPostActionFn, verifyCalls]
  | some info =>
    simp only [getStandbyPostActionFn, getCurrentTime, Exec.bind_apply, Exec.call_apply]
    have hclock : verifyCalls [Call.GetCurrentTime t.clusterName] = [] := rfl
    split
    · simp [verifyCalls, Call.isVerify]
    · split
      · show verifyCalls ([Call.GetCurrentTime t.clusterName] ++ (nowFn _ _ _).2) = []
        rw [verifyCalls_append, hclock, hnow]
        rfl
      · show verifyCalls ([Call.GetCurrentTime t.clusterName] ++ (discardFn _ _ _).2) = []
        rw [verifyCalls_append, hclock, hdiscard]
        rfl

/-- A call of `processTransfer` whose log holds a verifier call, with a
post-action that does not consult the verifier: the cache handed out the
context, the loader returned a mutable state, the body got as far as the
predicate, and it is the predicate that consulted the verifier. -/
theorem processTransfer_verifier_consulted (t : transferQueueStandbyTaskExecutor)
    (processTaskIfClosed : Bool) (transferTask : TransferTaskInfo)
    (actionFn : standbyActionFn) (postActionFn : standbyPostActionFn) (log : List Call)
    (hpostv : ∀ info l,
      verifyCalls (postActionFn (queueTaskInfo.transfer transferTask) info l).2 = [])
    (hcons : verifyCalls (processTransfer t processTaskIfClosed
      (queueTaskInfo.transfer transferTask) actionFn postActionFn log).2 ≠ []) :
    acquiresContext t transferTask log ∧
      ∃ mutableState,
        t.loadMutableStateForTransferTask (log ++ [acquireCall transferTask]) transferTask
          = (some mutableState, none) ∧
        (mutableState.IsWorkflowExecutionRunning = true ∨ processTaskIfClosed = true) ∧
        verifyCalls (actionFn mutableState
          (log ++ [acquireCall transferTask,
            Call.loadMutableStateForTransferTask transferTask])).2 ≠ [] := by
  have hacqv : verifyCalls [acquireCall transferTask] = [] := rfl
  have hloadv : verifyCalls [Call.loadMutableStateForTransferTask transferTask] = [] := rfl
  have hrelv : ∀ e, verifyCalls [Call.release e] = [] := fun _ => rfl
  by_cases hacq : acquiresContext t transferTask log
  · refine ⟨hacq, ?_⟩
    rw [processTransfer_apply_acquired _ _ _ _ _ _ hacq] at hcons
    rcases hload :
      t.loadMutableStateForTransferTask (log ++ [acquireCall transferTask]) transferTask
      with ⟨ms, err⟩
    have hbody_simple : ∀ out, processTransferBody t processTaskIfClosed
        (queueTaskInfo.transfer transferTask) transferTask actionFn postActionFn
        (log ++ [acquireCall transferTask]) =
          (out, [Call.loadMutableStateForTransferTask transferTask]) → False := by
      intro out hb
      rw [hb] at hcons
      apply hcons
      show verifyCalls ([acquireCall transferTask] ++
        ([Call.loadMutableStateForTransferTask transferTask] ++ [Call.release _])) = []
      rw [verifyCalls_append, verifyCalls_append, hacqv, hloadv, hrelv]
      rfl
    cases err with
    | some e =>
      exact (hbody_simple (Outcome.returned (some e))
        (by simp [processTransferBody, hload])).elim
    | none =>
      cases ms with
      | none =>
        exact (hbody_simple (Outcome.returned none)
          (by simp [processTransferBody, hload])).elim
      | some ms =>
        by_cases hcond : ms.IsWorkflowExecutionRunning = false ∧ processTaskIfClosed = false
        · exact (hbody_simple (Outcome.returned none)
            (by simp [processTransferBody, hload, hcond])).elim
        · have hrun : ms.IsWorkflowExecutionRunning = true ∨ processTaskIfClosed = true := by
            cases hr : ms.IsWorkflowExecutionRunning <;> cases hp : processTaskIfClosed <;>
              simp_all
          refine ⟨ms, rfl, hrun, ?_⟩
          intro hv
          rcases hacted : actionFn ms
            (log ++ [acquireCall transferTask,
              Call.loadMutableStateForTransferTask transferTask]) with ⟨⟨info, err⟩, calls⟩
          rw [hacted] at hv
          cases err with
          | some e =>
            have hb : processTransferBody t processTaskIfClosed
                (queueTaskInfo.transfer transferTask) transferTask actionFn postActionFn
                (log ++ [acquireCall transferTask]) =
                (Outcome.returned (some e),
                  Call.loadMutableStateForTransferTask transferTask :: calls) := by
              simp only [processTransferBody, Exec.bind_apply, Exec.call_apply, hload,
                if_neg hcond]
              simp only [List.append_assoc, List.singleton_append, hacted]
              simp
            rw [hb] at hcons
            apply hcons
            show verifyCalls ([acquireCall transferTask] ++
              ([Call.loadMutableStateForTransferTask transferTask] ++ calls ++
                [Call.release _])) = []
            rw [verifyCalls_append, verifyCalls_append, verifyCalls_append, hacqv, hloadv,
              hrelv, hv]
            rfl
          | none =>
            rw [processTransferBody_apply_reaches t processTaskIfClosed transferTask actionFn
              postActionFn log ms info calls hload hrun hacted] at hcons
            apply hcons
            show verifyCalls ([acquireCall transferTask] ++
              ([Call.loadMutableStateForTransferTask transferTask] ++
                (calls ++ ([Call.release none] ++ (postActionFn _ _ _).2)) ++
                [Call.release _])) = []
            rw [verifyCalls_append, verifyCalls_append, verifyCalls_append,
              verifyCalls_append, verifyCalls_append, hacqv, hloadv, hrelv, hrelv, hv,
              hpostv]
            rfl
  · exfalso
    unfold acquiresContext at hacq
    obtain ⟨err, herr⟩ := Option.ne_none_iff_exists'.mp hacq
    rw [processTransfer_apply_not_acquired _ _ _ _ _ _ err herr] at hcons
    exact hcons hacqv

/-- The close predicate consults the verifier only on a closed workflow whose
completion event, start event and last write version load. -/
theorem processCloseExecutionActionFn_verifier_consulted
    (t : transferQueueStandbyTaskExecutor) (transferTask : TransferTaskInfo)
    (mutableState : mutableState) (log : List Call)
    (hcons : verifyCalls (processCloseExecutionActionFn t transferTask mutableState log).2
      ≠ []) :
    mutableState.IsWorkflowExecutionRunning = false ∧
      (∃ completionEvent, mutableState.GetCompletionEvent = Except.ok completionEvent) ∧
      (∃ startEvent, mutableState.GetStartEvent = Except.ok startEvent) ∧
      ∃ version, mutableState.GetLastWriteVersion = Except.ok version := by
  unfold processCloseExecutionActionFn at hcons
  cases hrun : mutableState.IsWorkflowExecutionRunning with
  | true => simp [hrun, verifyCalls] at hcons
  | false =>
    cases hce : mutableState.GetCompletionEvent with
    | error err => simp [hrun, hce, verifyCalls] at hcons
    | ok completionEvent =>
      cases hse : mutableState.GetStartEvent with
      | error err => simp [hrun, hce, hse, verifyCalls] at hcons
      | ok startEvent =>
        cases hlw : mutableState.GetLastWriteVersion with
        | error err => simp [hrun, hce, hse, hlw, verifyCalls] at hcons
        | ok version => exact ⟨rfl, ⟨_, rfl⟩, ⟨_, rfl⟩, _, rfl⟩

/-- The record-started predicate consults the verifier only when the start
version loads; the upsert predicate never consults it. -/
theorem processRecordWorkflowStartedOrUpsertActionFn_verifier_consulted
    (t : transferQueueStandbyTaskExecutor) (transferTask : TransferTaskInfo)
    (isRecordStart : Bool) (mutableState : mutableState) (log : List Call)
    (hcons : verifyCalls (processRecordWorkflowStartedOrUpsertActionFn t transferTask
      isRecordStart mutableState log).2 ≠ []) :
    isRecordStart = true ∧ ∃ version, mutableState.GetStartVersion = Except.ok version := by
  have hrec : ∀ l, verifyCalls
      (recordWorkflowStartedOrUpsert t transferTask mutableState isRecordStart l).2 = [] := by
    intro l
    unfold recordWorkflowStartedOrUpsert
    cases mutableState.GetStartEvent with
    | error err => simp [verifyCalls]
    | ok startEvent => cases isRecordStart <;> simp [verifyCalls, Call.isVerify]
  unfold processRecordWorkflowStartedOrUpsertActionFn
    processRecordWorkflowStartedOrUpsertHelper at hcons
  cases isRecordStart with
  | false =>
    exfalso
    apply hcons
    simpa using hrec log
  | true =>
    cases hsv : mutableState.GetStartVersion with
    | error err => simp [hsv, verifyCalls] at hcons
    | ok version => exact ⟨rfl, _, rfl⟩

/-- The verifier is consulted in a call of `execute` only when the task is
processed, the cache hands out the context, the loader returns a mutable state,
and the predicate of one of the seven verifying kinds reaches its
verification. -/
theorem execute_verifier_consulted (t : transferQueueStandbyTaskExecutor)
    (transferTask : TransferTaskInfo) (shouldProcessTask : Bool) (log : List Call)
    (hcons : verifyCalls
      (execute t (queueTaskInfo.transfer transferTask) shouldProcessTask log).2 ≠ []) :
    (shouldProcessTask = true ∨
        transferTask.TaskType = TaskType.TASK_TYPE_TRANSFER_CLOSE_EXECUTION) ∧
      acquiresContext t transferTask log ∧
      ∃ mutableState version,
        t.loadMutableStateForTransferTask (log ++ [acquireCall transferTask]) transferTask
          = (some mutableState, none) ∧
        ((transferTask.TaskType = TaskType.TASK_TYPE_TRANSFER_ACTIVITY_TASK ∧
          mutableState.IsWorkflowExecutionRunning = true ∧
          ∃ activityInfo, mutableState.GetActivityInfo transferTask.ScheduleId
            = some activityInfo ∧ activityInfo.Version = version) ∨
        (transferTask.TaskType = TaskType.TASK_TYPE_TRANSFER_DECISION_TASK ∧
          mutableState.IsWorkflowExecutionRunning = true ∧
          ∃ decisionInfo, mutableState.GetDecisionInfo transferTask.ScheduleId
            = some decisionInfo ∧ decisionInfo.Version = version) ∨
        (transferTask.TaskType = TaskType.TASK_TYPE_TRANSFER_CLOSE_EXECUTION ∧
          mutableState.IsWorkflowExecutionRunning = false ∧
          (∃ completionEvent, mutableState.GetCompletionEvent = Except.ok completionEvent) ∧
          (∃ startEvent, mutableState.GetStartEvent = Except.ok startEvent) ∧
          mutableState.GetLastWriteVersion = Except.ok version) ∨
        (transferTask.TaskType = TaskType.TASK_TYPE_TRANSFER_CANCEL_EXECUTION ∧
          mutableState.IsWorkflowExecutionRunning = true ∧
          ∃ requestCancelInfo, mutableState.GetRequestCancelInfo transferTask.ScheduleId
            = some requestCancelInfo ∧ requestCancelInfo.Version = version) ∨
        (transferTask.TaskType = TaskType.TASK_TYPE_TRANSFER_SIGNAL_EXECUTION ∧
          mutableState.IsWorkflowExecutionRunning = true ∧
          ∃ signalInfo, mutableState.GetSignalInfo transferTask.ScheduleId
            = some signalInfo ∧ signalInfo.Version = version) ∨
        (transferTask.TaskType = TaskType.TASK_TYPE_TRANSFER_START_CHILD_EXECUTION ∧
          mutableState.IsWorkflowExecutionRunning = true ∧
          ∃ childWorkflowInfo, mutableState.GetChildExecutionInfo transferTask.ScheduleId
            = some childWorkflowInfo ∧ childWorkflowInfo.Version = version) ∨
        (transferTask.TaskType = TaskType.TASK_TYPE_TRANSFER_RECORD_WORKFLOW_STARTED ∧
          mutableState.IsWorkflowExecutionRunning = true ∧
          mutableState.GetStartVersion = Except.ok version)) := by
  have hasked : shouldProcessTask = true ∨
      transferTask.TaskType = TaskType.TASK_TYPE_TRANSFER_CLOSE_EXECUTION := by
    by_cases hguard : shouldProcessTask = false ∧
        transferTask.TaskType ≠ TaskType.TASK_TYPE_TRANSFER_CLOSE_EXECUTION
    · exfalso
      apply hcons
      simp [execute, hguard, verifyCalls]
    · cases hs : shouldProcessTask with
      | true => exact Or.inl rfl
      | false =>
        right
        by_contra hk
        exact hguard ⟨hs, hk⟩
  have hexec : execute t (queueTaskInfo.transfer transferTask) shouldProcessTask =
      execute t (queueTaskInfo.transfer transferTask) true := by
    rcases hasked with h | h
    · rw [h]
    · simp [execute, h]
  refine ⟨hasked, ?_⟩
  rw [hexec, execute_dispatch] at hcons
  have hnoop : ∀ info l, verifyCalls
      (standbyTaskPostActionNoOp (queueTaskInfo.transfer transferTask) info l).2 = [] :=
    fun _ _ => rfl
  have hrunning : ∀ mutableState : mutableState,
      (mutableState.IsWorkflowExecutionRunning = true ∨ false = true) →
      mutableState.IsWorkflowExecutionRunning = true := by
    intro mutableState h
    rcases h with h | h
    · exact h
    · cases h
  cases hk : transferTask.TaskType with
  | TASK_TYPE_TRANSFER_ACTIVITY_TASK =>
    simp only [hk, processActivityTask] at hcons
    obtain ⟨hacq, ms, hload, hrun, hv⟩ := processTransfer_verifier_consulted t false
      transferTask _ _ log
      (fun info l => getStandbyPostActionFn_no_verify t transferTask _ _ _ _
        (pushActivity_no_verify t) (pushActivity_no_verify t) _ info l) hcons
    refine ⟨hacq, ms, ?_⟩
    unfold processActivityTaskActionFn at hv
    cases hinfo : ms.GetActivityInfo transferTask.ScheduleId with
    | none => simp [hinfo, verifyCalls] at hv
    | some info =>
      exact ⟨info.Version, hload, Or.inl ⟨rfl, hrunning ms hrun, info, rfl, rfl⟩⟩
  | TASK_TYPE_TRANSFER_DECISION_TASK =>
    simp only [hk, processDecisionTask] at hcons
    obtain ⟨hacq, ms, hload, hrun, hv⟩ := processTransfer_verifier_consulted t false
      transferTask _ _ log
      (fun info l => getStandbyPostActionFn_no_verify t transferTask _ _ _ _
        (pushDecision_no_verify t) (pushDecision_no_verify t) _ info l) hcons
    refine ⟨hacq, ms, ?_⟩
    unfold processDecisionTaskActionFn at hv
    cases hinfo : ms.GetDecisionInfo transferTask.ScheduleId with
    | none => simp [hinfo, verifyCalls] at hv
    | some info =>
      exact ⟨info.Version, hload, Or.inr (Or.inl ⟨rfl, hrunning ms hrun, info, rfl, rfl⟩)⟩
  | TASK_TYPE_TRANSFER_CLOSE_EXECUTION =>
    simp only [hk, processCloseExecution] at hcons
    obtain ⟨hacq, ms, hload, -, hv⟩ := processTransfer_verifier_consulted t true
      transferTask _ _ log hnoop hcons
    obtain ⟨hclosed, hce, hse, version, hlw⟩ :=
      processCloseExecutionActionFn_verifier_consulted t transferTask ms _ hv
    exact ⟨hacq, ms, version, hload, Or.inr (Or.inr (Or.inl ⟨rfl, hclosed, hce, hse, hlw⟩))⟩
  | TASK_TYPE_TRANSFER_CANCEL_EXECUTION =>
    simp only [hk, processCancelExecution] at hcons
    obtain ⟨hacq, ms, hload, hrun, hv⟩ := processTransfer_verifier_consulted t false
      transferTask _ _ log
      (fun info l => getStandbyPostActionFn_no_verify t transferTask _ _ _ _
        (fetchHistoryFromRemote_no_verify t)
        standbyTransferTaskPostActionTaskDiscarded_no_verify _ info l) hcons
    refine ⟨hacq, ms, ?_⟩
    unfold processCancelExecutionActionFn at hv
    cases hinfo : ms.GetRequestCancelInfo transferTask.ScheduleId with
    | none => simp [hinfo, verifyCalls] at hv
    | some info =>
      exact ⟨info.Version, hload,
        Or.inr (Or.inr (Or.inr (Or.inl ⟨rfl, hrunning ms hrun, info, rfl, rfl⟩)))⟩
  | TASK_TYPE_TRANSFER_SIGNAL_EXECUTION =>
    simp only [hk, processSignalExecution] at hcons
    obtain ⟨hacq, ms, hload, hrun, hv⟩ := processTransfer_verifier_consulted t false
      transferTask _ _ log
      (fun info l => getStandbyPostActionFn_no_verify t transferTask _ _ _ _
        (fetchHistoryFromRemote_no_verify t)
        standbyTransferTaskPostActionTaskDiscarded_no_verify _ info l) hcons
    refine ⟨hacq, ms, ?_⟩
    unfold processSignalExecutionActionFn at hv
    cases hinfo : ms.GetSignalInfo transferTask.ScheduleId with
    | none => simp [hinfo, verifyCalls] at hv
    | some info =>
      exact ⟨info.Version, hload,
        Or.inr (Or.inr (Or.inr (Or.inr (Or.inl ⟨rfl, hrunning ms hrun, info, rfl, rfl⟩))))⟩
  | TASK_TYPE_TRANSFER_START_CHILD_EXECUTION =>
    simp only [hk, processStartChildExecution] at hcons
    obtain ⟨hacq, ms, hload, hrun, hv⟩ := processTransfer_verifier_consulted t false
      transferTask _ _ log
      (fun info l => getStandbyPostActionFn_no_verify t transferTask _ _ _ _
        (fetchHistoryFromRemote_no_verify t)
        standbyTransferTaskPostActionTaskDiscarded_no_verify _ info l) hcons
    refine ⟨hacq, ms, ?_⟩
    unfold processStartChildExecutionActionFn at hv
    cases hinfo : ms.GetChildExecutionInfo transferTask.ScheduleId with
    | none => simp [hinfo, verifyCalls] at hv
    | some info =>
      exact ⟨info.Version, hload,
        Or.inr (Or.inr (Or.inr (Or.inr (Or.inr (Or.inl
          ⟨rfl, hrunning ms hrun, info, rfl, rfl⟩)))))⟩
  | TASK_TYPE_TRANSFER_RECORD_WORKFLOW_STARTED =>
    simp only [hk, processRecordWorkflowStarted] at hcons
    obtain ⟨hacq, ms, hload, hrun, hv⟩ := processTransfer_verifier_consulted t false
      transferTask _ _ log hnoop hcons
    obtain ⟨-, version, hsv⟩ :=
      processRecordWorkflowStartedOrUpsertActionFn_verifier_consulted t transferTask true
        ms _ hv
    exact ⟨hacq, ms, version, hload,
      Or.inr (Or.inr (Or.inr (Or.inr (Or.inr (Or.inr ⟨rfl, hrunning ms hrun, hsv⟩)))))⟩
  | TASK_TYPE_TRANSFER_RESET_WORKFLOW =>
    simp only [hk] at hcons
    exact (hcons rfl).elim
  | TASK_TYPE_TRANSFER_UPSERT_WORKFLOW_SEARCH_ATTRIBUTES =>
    simp only [hk, processUpsertWorkflowSearchAttributes] at hcons
    obtain ⟨-, ms, -, -, hv⟩ := processTransfer_verifier_consulted t false
      transferTask _ _ log hnoop hcons
    obtain ⟨h, -⟩ :=
      processRecordWorkflowStartedOrUpsertActionFn_verifier_consulted t transferTask false
        ms _ hv
    cases h
  | unknown value =>
    simp only [hk] at hcons
    exact (hcons rfl).elim

/-- A call of `processTransfer` whose predicate consults the verifier once and
returns `nil, nil`, with a post-action that succeeds on a nil info without a
call: success after the cache, the loader, the verifier and two releases. -/
theorem processTransfer_apply_dropped (t : transferQueueStandbyTaskExecutor)
    (processTaskIfClosed : Bool) (transferTask : TransferTaskInfo)
    (actionFn : standbyActionFn) (postActionFn : standbyPostActionFn) (log : List Call)
    (mutableState : mutableState) (version : Int)
    (hacq : acquiresContext t transferTask log)
    (hload : t.loadMutableStateForTransferTask (log ++ [acquireCall transferTask]) transferTask
      = (some mutableState, none))
    (hrun : mutableState.IsWorkflowExecutionRunning = true ∨ processTaskIfClosed = true)
    (hact : actionFn mutableState
        (log ++ [acquireCall transferTask, Call.loadMutableStateForTransferTask transferTask])
      = ((none, none),
        [Call.verifyTaskVersion transferTask.NamespaceId version transferTask.Version]))
    (hpost : ∀ l, postActionFn (queueTaskInfo.transfer transferTask) none l
      = (Outcome.returned none, [])) :
    processTransfer t processTaskIfClosed (queueTaskInfo.transfer transferTask) actionFn
        postActionFn log =
      (Outcome.returned none,
        [acquireCall transferTask, Call.loadMutableStateForTransferTask transferTask,
          Call.verifyTaskVersion transferTask.NamespaceId version transferTask.Version,
          Call.release none, Call.release none]) := by
  rw [processTransfer_apply_reaches t processTaskIfClosed transferTask actionFn postActionFn
    log mutableState none _ hacq hload hrun hact, hpost]
  simp [deferredReleaseArg]

/-- C10: for every task of one of the seven kinds whose predicate verifies a
version, when the call of `execute` gets as far as the verifier and the
verifier, asked there about that version and the version of the task, reports a
mismatch without error, `execute` returns success after exactly five calls: the
cache, the loader, the verifier and two releases with nil; so the call makes no
visibility write, no matching push and no remote resend.  The call gets as far
as the verifier when the task is processed (any CloseExecution task, any other
task with `shouldProcessTask`), the cache hands out the context, the loader
returns a mutable state, and the predicate reaches its verification: for
ActivityTask, DecisionTask, CancelExecution, SignalExecution and
StartChildExecution the workflow is running and the info of the schedule id is
present, `version` being its version; for RecordWorkflowStarted the workflow is
running and `version` is the start version; for CloseExecution the workflow is
closed, its completion event and start event load, and `version` is the last
write version.  By `execute_verifier_consulted` a call of `execute` consults
the verifier at these points only. -/
theorem execute_version_mismatch (t : transferQueueStandbyTaskExecutor)
    (transferTask : TransferTaskInfo) (shouldProcessTask : Bool)
    (mutableState : mutableState) (version : Int) (log : List Call)
    (hasked : shouldProcessTask = true ∨
      transferTask.TaskType = TaskType.TASK_TYPE_TRANSFER_CLOSE_EXECUTION)
    (hacq : acquiresContext t transferTask log)
    (hload : t.loadMutableStateForTransferTask (log ++ [acquireCall transferTask]) transferTask
      = (some mutableState, none))
    (hpoint :
      (transferTask.TaskType = TaskType.TASK_TYPE_TRANSFER_ACTIVITY_TASK ∧
        mutableState.IsWorkflowExecutionRunning = true ∧
        ∃ activityInfo, mutableState.GetActivityInfo transferTask.ScheduleId
          = some activityInfo ∧ activityInfo.Version = version) ∨
      (transferTask.TaskType = TaskType.TASK_TYPE_TRANSFER_DECISION_TASK ∧
        mutableState.IsWorkflowExecutionRunning = true ∧
        ∃ decisionInfo, mutableState.GetDecisionInfo transferTask.ScheduleId
          = some decisionInfo ∧ decisionInfo.Version = version) ∨
      (transferTask.TaskType = TaskType.TASK_TYPE_TRANSFER_CLOSE_EXECUTION ∧
        mutableState.IsWorkflowExecutionRunning = false ∧
        (∃ completionEvent, mutableState.GetCompletionEvent = Except.ok completionEvent) ∧
        (∃ startEvent, mutableState.GetStartEvent = Except.ok startEvent) ∧
        mutableState.GetLastWriteVersion = Except.ok version) ∨
      (transferTask.TaskType = TaskType.TASK_TYPE_TRANSFER_CANCEL_EXECUTION ∧
        mutableState.IsWorkflowExecutionRunning = true ∧
        ∃ requestCancelInfo, mutableState.GetRequestCancelInfo transferTask.ScheduleId
          = some requestCancelInfo ∧ requestCancelInfo.Version = version) ∨
      (transferTask.TaskType = TaskType.TASK_TYPE_TRANSFER_SIGNAL_EXECUTION ∧
        mutableState.IsWorkflowExecutionRunning = true ∧
        ∃ signalInfo, mutableState.GetSignalInfo transferTask.ScheduleId
          = some signalInfo ∧ signalInfo.Version = version) ∨
      (transferTask.TaskType = TaskType.TASK_TYPE_TRANSFER_START_CHILD_EXECUTION ∧
        mutableState.IsWorkflowExecutionRunning = true ∧
        ∃ childWorkflowInfo, mutableState.GetChildExecutionInfo transferTask.ScheduleId
          = some childWorkflowInfo ∧ childWorkflowInfo.Version = version) ∨
      (transferTask.TaskType = TaskType.TASK_TYPE_TRANSFER_RECORD_WORKFLOW_STARTED ∧
        mutableState.IsWorkflowExecutionRunning = true ∧
        mutableState.GetStartVersion = Except.ok version))
    (hmis : t.verifyTaskVersion
        (log ++ [acquireCall transferTask, Call.loadMutableStateForTransferTask transferTask])
        transferTask.NamespaceId version transferTask.Version = (false, none)) :
    execute t (queueTaskInfo.transfer transferTask) shouldProcessTask log =
        (Outcome.returned none,
          [acquireCall transferTask, Call.loadMutableStateForTransferTask transferTask,
            Call.verifyTaskVersion transferTask.NamespaceId version transferTask.Version,
            Call.release none, Call.release none]) ∧
      sideEffects (execute t (queueTaskInfo.transfer transferTask) shouldProcessTask log).2
        = [] := by
  have hexec : execute t (queueTaskInfo.transfer transferTask) shouldProcessTask =
      execute t (queueTaskInfo.transfer transferTask) true := by
    rcases hasked with h | h
    · rw [h]
    · simp [execute, h]
  have hres : execute t (queueTaskInfo.transfer transferTask) true log =
      (Outcome.returned none,
        [acquireCall transferTask, Call.loadMutableStateForTransferTask transferTask,
          Call.verifyTaskVersion transferTask.NamespaceId version transferTask.Version,
          Call.release none, Call.release none]) := by
    rw [execute_dispatch]
    rcases hpoint with ⟨hk, hrun, info, hinfo, hv⟩ | ⟨hk, hrun, info, hinfo, hv⟩ |
      ⟨hk, hclosed, ⟨completionEvent, hce⟩, ⟨startEvent, hse⟩, hlw⟩ |
      ⟨hk, hrun, info, hinfo, hv⟩ | ⟨hk, hrun, info, hinfo, hv⟩ |
      ⟨hk, hrun, info, hinfo, hv⟩ | ⟨hk, hrun, hsv⟩
    · subst hv
      simp only [hk, processActivityTask]
      exact processTransfer_apply_dropped t false transferTask _ _ log mutableState _
        hacq hload (Or.inl hrun)
        (by simp [processActivityTaskActionFn, hinfo, hmis])
        (fun l => getStandbyPostActionFn_nil _ _ _ _ _ _ _ l)
    · subst hv
      simp only [hk, processDecisionTask]
      exact processTransfer_apply_dropped t false transferTask _ _ log mutableState _
        hacq hload (Or.inl hrun)
        (by simp [processDecisionTaskActionFn, hinfo, hmis])
        (fun l => getStandbyPostActionFn_nil _ _ _ _ _ _ _ l)
    · simp only [hk, processCloseExecution]
      exact processTransfer_apply_dropped t true transferTask _ _ log mutableState _
        hacq hload (Or.inr rfl)
        (by simp [processCloseExecutionActionFn, hclosed, hce, hse, hlw, hmis])
        (fun l => standbyTaskPostActionNoOp_apply _ _ l)
    · subst hv
      simp only [hk, processCancelExecution]
      exact processTransfer_apply_dropped t false transferTask _ _ log mutableState _
        hacq hload (Or.inl hrun)
        (by simp [processCancelExecutionActionFn, hinfo, hmis])
        (fun l => getStandbyPostActionFn_nil _ _ _ _ _ _ _ l)
    · subst hv
      simp only [hk, processSignalExecution]
      exact processTransfer_apply_dropped t false transferTask _ _ log mutableState _
        hacq hload (Or.inl hrun)
        (by simp [processSignalExecutionActionFn, hinfo, hmis])
        (fun l => getStandbyPostActionFn_nil _ _ _ _ _ _ _ l)
    · subst hv
      simp only [hk, processStartChildExecution]
      exact processTransfer_apply_dropped t false transferTask _ _ log mutableState _
        hacq hload (Or.inl hrun)
        (by simp [processStartChildExecutionActionFn, hinfo, hmis])
        (fun l => getStandbyPostActionFn_nil _ _ _ _ _ _ _ l)
    · simp only [hk, processRecordWorkflowStarted]
      exact processTransfer_apply_dropped t false transferTask _ _ log mutableState _
        hacq hload (Or.inl hrun)
        (by simp [processRecordWorkflowStartedOrUpsertActionFn,
          processRecordWorkflowStartedOrUpsertHelper, hsv, hmis])
        (fun l => standbyTaskPostActionNoOp_apply _ _ l)
  rw [hexec, hres]
  exact ⟨rfl, by simp [sideEffects, Call.isVisibilityWrite, Call.isMatchingPush,
    Call.isResend, acquireCall]⟩

/-- Witness of C10: tasks of version 4 against records of version 3, with the
verifier that accepts equal versions only: an activity task, a decision task
and a record-started task on running workflows, and a close task nobody asked
to process on the closed workflow. -/
theorem execute_version_mismatch_witness :
    execute runningExecutor
        (queueTaskInfo.transfer (staleTask TaskType.TASK_TYPE_TRANSFER_ACTIVITY_TASK))
        true [] =
      (Outcome.returned none,
        [Call.getOrCreateWorkflowExecutionForBackground "ns" "wf" "run",
          Call.loadMutableStateForTransferTask
            (staleTask TaskType.TASK_TYPE_TRANSFER_ACTIVITY_TASK),
          Call.verifyTaskVersion "ns" 3 4, Call.release none, Call.release none]) ∧
    execute decisionExecutor
        (queueTaskInfo.transfer (staleTask TaskType.TASK_TYPE_TRANSFER_DECISION_TASK))
        true [] =
      (Outcome.returned none,
        [Call.getOrCreateWorkflowExecutionForBackground "ns" "wf" "run",
          Call.loadMutableStateForTransferTask
            (staleTask TaskType.TASK_TYPE_TRANSFER_DECISION_TASK),
          Call.verifyTaskVersion "ns" 3 4, Call.release none, Call.release none]) ∧
    execute runningExecutor
        (queueTaskInfo.transfer (staleTask TaskType.TASK_TYPE_TRANSFER_RECORD_WORKFLOW_STARTED))
        true [] =
      (Outcome.returned none,
        [Call.getOrCreateWorkflowExecutionForBackground "ns" "wf" "run",
          Call.loadMutableStateForTransferTask
            (staleTask TaskType.TASK_TYPE_TRANSFER_RECORD_WORKFLOW_STARTED),
          Call.verifyTaskVersion "ns" 3 4, Call.release none, Call.release none]) ∧
    execute sampleExecutor
        (queueTaskInfo.transfer (staleTask TaskType.TASK_TYPE_TRANSFER_CLOSE_EXECUTION))
        false [] =
      (Outcome.returned none,
        [Call.getOrCreateWorkflowExecutionForBackground "ns" "wf" "run",
          Call.loadMutableStateForTransferTask
            (staleTask TaskType.TASK_TYPE_TRANSFER_CLOSE_EXECUTION),
          Call.verifyTaskVersion "ns" 3 4, Call.release none, Call.release none]) :=
  ⟨(execute_version_mismatch runningExecutor
      (staleTask TaskType.TASK_TYPE_TRANSFER_ACTIVITY_TASK) true runningMutableState 3 []
      (Or.inl rfl) rfl rfl
      (Or.inl ⟨rfl, rfl, { Version := 3, StartedID := 0, ScheduleToStartTimeout := 30 },
        rfl, rfl⟩) rfl).1,
    (execute_version_mismatch decisionExecutor
      (staleTask TaskType.TASK_TYPE_TRANSFER_DECISION_TASK) true decisionMutableState 3 []
      (Or.inl rfl) rfl rfl
      (Or.inr (Or.inl ⟨rfl, rfl, { Version := 3, StartedID := 0 }, rfl, rfl⟩)) rfl).1,
    (execute_version_mismatch runningExecutor
      (staleTask TaskType.TASK_TYPE_TRANSFER_RECORD_WORKFLOW_STARTED) true
      runningMutableState 3 [] (Or.inl rfl) rfl rfl
      (Or.inr (Or.inr (Or.inr (Or.inr (Or.inr (Or.inr ⟨rfl, rfl, rfl⟩)))))) rfl).1,
    (execute_version_mismatch sampleExecutor
      (staleTask TaskType.TASK_TYPE_TRANSFER_CLOSE_EXECUTION) false sampleMutableState 3 []
      (Or.inr rfl) rfl rfl
      (Or.inr (Or.inr (Or.inl ⟨rfl, rfl, ⟨{ Timestamp := 2000 }, rfl⟩,
        ⟨{ Timestamp := 1000 }, rfl⟩, rfl⟩))) rfl).1⟩

/-! ## Lookups that find nothing -/

/-- A call of `execute` that runs a handler is one call of `processTransfer` with
the predicate of the handler and a post-action that succeeds on a nil info
without calling anything. -/
theorem execute_of_handler_nil (t : transferQueueStandbyTaskExecutor)
    (transferTask : TransferTaskInfo) (shouldProcessTask : Bool)
    (processTaskIfClosed : Bool) (actionFn : standbyActionFn)
    (hsome : handlerOf t transferTask shouldProcessTask = some (processTaskIfClosed, actionFn)) :
    ∃ postActionFn : standbyPostActionFn,
      (∀ l, postActionFn (queueTaskInfo.transfer transferTask) none l
        = (Outcome.returned none, [])) ∧
      execute t (queueTaskInfo.transfer transferTask) shouldProcessTask =
        processTransfer t processTaskIfClosed (queueTaskInfo.transfer transferTask) actionFn
          postActionFn := by
  unfold handlerOf at hsome
  unfold execute
  by_cases hguard : shouldProcessTask = false ∧
      transferTask.TaskType ≠ TaskType.TASK_TYPE_TRANSFER_CLOSE_EXECUTION
  · simp [hguard] at hsome
  · simp only [if_neg hguard] at hsome ⊢
    cases hk : transferTask.TaskType <;>
      simp only [hk, Option.some.injEq, Prod.mk.injEq, reduceCtorEq] at hsome ⊢ <;>
      obtain ⟨h1, h2⟩ := hsome <;>
      subst h1 h2
    · exact ⟨_, fun l => getStandbyPostActionFn_nil _ _ _ _ _ _ _ l, rfl⟩
    · exact ⟨_, fun l => getStandbyPostActionFn_nil _ _ _ _ _ _ _ l, rfl⟩
    · exact ⟨_, fun l => standbyTaskPostActionNoOp_apply _ _ l, rfl⟩
    · exact ⟨_, fun l => getStandbyPostActionFn_nil _ _ _ _ _ _ _ l, rfl⟩
    · exact ⟨_, fun l => getStandbyPostActionFn_nil _ _ _ _ _ _ _ l, rfl⟩
    · exact ⟨_, fun l => getStandbyPostActionFn_nil _ _ _ _ _ _ _ l, rfl⟩
    · exact ⟨_, fun l => standbyTaskPostActionNoOp_apply _ _ l, rfl⟩
    · exact ⟨_, fun l => standbyTaskPostActionNoOp_apply _ _ l, rfl⟩

/-- A handler whose predicate returns `nil, nil` without a call: `processTransfer`
succeeds, and its calls are the cache, the loader and the releases. -/
theorem processTransfer_nil_predicate (t : transferQueueStandbyTaskExecutor)
    (processTaskIfClosed : Bool) (transferTask : TransferTaskInfo)
    (actionFn : standbyActionFn) (postActionFn : standbyPostActionFn) (log : List Call)
    (mutableState : mutableState)
    (hacq : acquiresContext t transferTask log)
    (hload : t.loadMutableStateForTransferTask (log ++ [acquireCall transferTask]) transferTask
      = (some mutableState, none))
    (hact : ∀ l, actionFn mutableState l = ((none, none), []))
    (hpost : ∀ l, postActionFn (queueTaskInfo.transfer transferTask) none l
      = (Outcome.returned none, [])) :
    (processTransfer t processTaskIfClosed (queueTaskInfo.transfer transferTask) actionFn
        postActionFn log).1 = Outcome.returned none ∧
      sideEffects (processTransfer t processTaskIfClosed (queueTaskInfo.transfer transferTask)
        actionFn postActionFn log).2 = [] ∧
      verifyCalls (processTransfer t processTaskIfClosed (queueTaskInfo.transfer transferTask)
        actionFn postActionFn log).2 = [] := by
  by_cases hrun : mutableState.IsWorkflowExecutionRunning = true ∨ processTaskIfClosed = true
  · rw [processTransfer_apply_reaches t processTaskIfClosed transferTask actionFn postActionFn
      log mutableState none [] hacq hload hrun (hact _), hpost]
    exact ⟨rfl, rfl, rfl⟩
  · have hclosed : mutableState.IsWorkflowExecutionRunning = false := by
      cases h : mutableState.IsWorkflowExecutionRunning <;> simp_all
    have hpic : processTaskIfClosed = false := by
      cases h : processTaskIfClosed <;> simp_all
    subst hpic
    rw [processTransfer_apply_closed t transferTask actionFn postActionFn log mutableState
      hacq hload hclosed]
    exact ⟨rfl, rfl, rfl⟩

/-- C11: for every ActivityTask, DecisionTask, CancelExecution, SignalExecution
or StartChildExecution task whose schedule id has no info of its kind in the
mutable state loaded for it, the predicate of the handler returns `nil, nil`
without a call, so without consulting the verifier, and `execute` returns
success with no visibility write, matching push or remote resend. -/
theorem execute_missing_info (t : transferQueueStandbyTaskExecutor)
    (transferTask : TransferTaskInfo) (mutableState : mutableState)
    (shouldProcessTask : Bool) (log : List Call)
    (hkind : transferTask.TaskType = TaskType.TASK_TYPE_TRANSFER_ACTIVITY_TASK ∨
      transferTask.TaskType = TaskType.TASK_TYPE_TRANSFER_DECISION_TASK ∨
      transferTask.TaskType = TaskType.TASK_TYPE_TRANSFER_CANCEL_EXECUTION ∨
      transferTask.TaskType = TaskType.TASK_TYPE_TRANSFER_SIGNAL_EXECUTION ∨
      transferTask.TaskType = TaskType.TASK_TYPE_TRANSFER_START_CHILD_EXECUTION)
    (hacq : acquiresContext t transferTask log)
    (hload : t.loadMutableStateForTransferTask (log ++ [acquireCall transferTask]) transferTask
      = (some mutableState, none))
    (hactivity : transferTask.TaskType = TaskType.TASK_TYPE_TRANSFER_ACTIVITY_TASK →
      mutableState.GetActivityInfo transferTask.ScheduleId = none)
    (hdecision : transferTask.TaskType = TaskType.TASK_TYPE_TRANSFER_DECISION_TASK →
      mutableState.GetDecisionInfo transferTask.ScheduleId = none)
    (hcancel : transferTask.TaskType = TaskType.TASK_TYPE_TRANSFER_CANCEL_EXECUTION →
      mutableState.GetRequestCancelInfo transferTask.ScheduleId = none)
    (hsignal : transferTask.TaskType = TaskType.TASK_TYPE_TRANSFER_SIGNAL_EXECUTION →
      mutableState.GetSignalInfo transferTask.ScheduleId = none)
    (hchild : transferTask.TaskType = TaskType.TASK_TYPE_TRANSFER_START_CHILD_EXECUTION →
      mutableState.GetChildExecutionInfo transferTask.ScheduleId = none) :
    (∀ processTaskIfClosed actionFn,
      handlerOf t transferTask true = some (processTaskIfClosed, actionFn) →
      ∀ l, actionFn mutableState l = ((none, none), [])) ∧
    (execute t (queueTaskInfo.transfer transferTask) shouldProcessTask log).1
      = Outcome.returned none ∧
    sideEffects (execute t (queueTaskInfo.transfer transferTask) shouldProcessTask log).2
      = [] ∧
    verifyCalls (execute t (queueTaskInfo.transfer transferTask) shouldProcessTask log).2
      = [] := by
  have hpred : ∀ processTaskIfClosed actionFn,
      handlerOf t transferTask true = some (processTaskIfClosed, actionFn) →
      ∀ l, actionFn mutableState l = ((none, none), []) := by
    intro processTaskIfClosed actionFn hsome l
    unfold handlerOf at hsome
    rcases hkind with hk | hk | hk | hk | hk <;>
      simp only [hk, Bool.true_eq_false, false_and, if_false, Option.some.injEq,
        Prod.mk.injEq] at hsome <;>
      obtain ⟨-, h2⟩ := hsome <;>
      subst h2
    · simp [processActivityTaskActionFn, hactivity hk]
    · simp [processDecisionTaskActionFn, hdecision hk]
    · simp [processCancelExecutionActionFn, hcancel hk]
    · simp [processSignalExecutionActionFn, hsignal hk]
    · simp [processStartChildExecutionActionFn, hchild hk]
  refine ⟨hpred, ?_⟩
  cases hh : handlerOf t transferTask shouldProcessTask with
  | none =>
    have hcalls := execute_of_no_handler t transferTask shouldProcessTask log hh
    refine ⟨?_, by rw [hcalls]; rfl, by rw [hcalls]; rfl⟩
    unfold handlerOf at hh
    unfold execute
    by_cases hguard : shouldProcessTask = false ∧
        transferTask.TaskType ≠ TaskType.TASK_TYPE_TRANSFER_CLOSE_EXECUTION
    · simp [hguard]
    · simp only [if_neg hguard] at hh
      rcases hkind with hk | hk | hk | hk | hk <;> simp [hk] at hh
  | some handler =>
    obtain ⟨processTaskIfClosed, actionFn⟩ := handler
    have htrue : handlerOf t transferTask true = some (processTaskIfClosed, actionFn) := by
      unfold handlerOf at hh ⊢
      by_cases hguard : shouldProcessTask = false ∧
          transferTask.TaskType ≠ TaskType.TASK_TYPE_TRANSFER_CLOSE_EXECUTION
      · simp [hguard] at hh
      · simpa [if_neg hguard] using hh
    obtain ⟨postActionFn, hpost, hexec⟩ :=
      execute_of_handler_nil t transferTask shouldProcessTask processTaskIfClosed actionFn hh
    rw [hexec]
    exact processTransfer_nil_predicate t processTaskIfClosed transferTask actionFn
      postActionFn log mutableState hacq hload (hpred _ _ htrue) hpost

/-- Witness of C11: the activity task on the running workflow without infos. -/
theorem execute_missing_info_witness :
    bareRunningMutableState.GetActivityInfo
        (sampleTask TaskType.TASK_TYPE_TRANSFER_ACTIVITY_TASK).ScheduleId = none ∧
      processActivityTaskActionFn bareRunningExecutor
        (sampleTask TaskType.TASK_TYPE_TRANSFER_ACTIVITY_TASK) bareRunningMutableState []
        = ((none, none), []) ∧
      (execute bareRunningExecutor
        (queueTaskInfo.transfer (sampleTask TaskType.TASK_TYPE_TRANSFER_ACTIVITY_TASK))
        true []).1 = Outcome.returned none ∧
      sideEffects (execute bareRunningExecutor
        (queueTaskInfo.transfer (sampleTask TaskType.TASK_TYPE_TRANSFER_ACTIVITY_TASK))
        true []).2 = [] :=
  ⟨rfl,
    (execute_missing_info bareRunningExecutor
      (sampleTask TaskType.TASK_TYPE_TRANSFER_ACTIVITY_TASK) bareRunningMutableState true []
      (Or.inl rfl) rfl rfl (fun _ => rfl) (fun h => by cases h) (fun h => by cases h)
      (fun h => by cases h) (fun h => by cases h)).1 false _ rfl [],
    (execute_missing_info bareRunningExecutor
      (sampleTask TaskType.TASK_TYPE_TRANSFER_ACTIVITY_TASK) bareRunningMutableState true []
      (Or.inl rfl) rfl rfl (fun _ => rfl) (fun h => by cases h) (fun h => by cases h)
      (fun h => by cases h) (fun h => by cases h)).2.1,
    (execute_missing_info bareRunningExecutor
      (sampleTask TaskType.TASK_TYPE_TRANSFER_ACTIVITY_TASK) bareRunningMutableState true []
      (Or.inl rfl) rfl rfl (fun _ => rfl) (fun h => by cases h) (fun h => by cases h)
      (fun h => by cases h) (fun h => by cases h)).2.2.1⟩

/-! ## The close handler and the reset task -/

/-- What the close predicate does on a closed workflow whose events and
last-write version load and whose version the verifier accepts: it consults the
verifier, records the closed workflow in visibility, and returns the error of
that write. -/
theorem processCloseExecutionActionFn_apply_records (t : transferQueueStandbyTaskExecutor)
    (transferTask : TransferTaskInfo) (mutableState : mutableState) (log : List Call)
    (completionEvent startEvent : HistoryEvent) (lastWriteVersion : Int)
    (hclosed : mutableState.IsWorkflowExecutionRunning = false)
    (hcompletion : mutableState.GetCompletionEvent = Except.ok completionEvent)
    (hstart : mutableState.GetStartEvent = Except.ok startEvent)
    (hlast : mutableState.GetLastWriteVersion = Except.ok lastWriteVersion)
    (hver : t.verifyTaskVersion log transferTask.NamespaceId lastWriteVersion
      transferTask.Version = (true, none)) :
    ∃ args : RecordWorkflowClosedArgs,
      args.historyLength = mutableState.GetNextEventID - 1 ∧
      args.endTimeUnixNano = completionEvent.Timestamp ∧
      args.startTimeUnixNano = startEvent.Timestamp ∧
      processCloseExecutionActionFn t transferTask mutableState log =
        ((none, t.recordWorkflowClosed
            (log ++ [Call.verifyTaskVersion transferTask.NamespaceId lastWriteVersion
              transferTask.Version]) args),
          [Call.verifyTaskVersion transferTask.NamespaceId lastWriteVersion
            transferTask.Version, Call.recordWorkflowClosed args]) := by
  refine ⟨{
      namespaceID := transferTask.NamespaceId,
      workflowID := transferTask.WorkflowId,
      runID := transferTask.RunId,
      workflowTypeName := mutableState.GetExecutionInfo.WorkflowTypeName,
      startTimeUnixNano := startEvent.Timestamp,
      executionTimeUnixNano := mutableState.getWorkflowExecutionTimestamp startEvent,
      endTimeUnixNano := completionEvent.Timestamp,
      status := mutableState.GetExecutionInfo.Status,
      historyLength := mutableState.GetNextEventID - 1,
      taskID := transferTask.TaskId,
      visibilityMemo := t.getWorkflowMemo mutableState.GetExecutionInfo.Memo,
      taskQueue := mutableState.GetExecutionInfo.TaskQueue,
      searchAttributes := mutableState.GetExecutionInfo.SearchAttributes },
    rfl, rfl, rfl, ?_⟩
  simp only [processCloseExecutionActionFn, hclosed, hcompletion, hstart, hlast,
    Bool.false_eq_true, if_false, Exec.bind_apply, verifyTaskVersion_apply, hver,
    Exec.call_apply, Exec.pure_apply, List.append_nil]
  rfl

/-- A close task runs `processCloseExecution` whether or not the caller asked to
process it. -/
theorem execute_close (t : transferQueueStandbyTaskExecutor) (transferTask : TransferTaskInfo)
    (shouldProcessTask : Bool)
    (hkind : transferTask.TaskType = TaskType.TASK_TYPE_TRANSFER_CLOSE_EXECUTION) :
    execute t (queueTaskInfo.transfer transferTask) shouldProcessTask =
      processCloseExecution t transferTask := by
  cases shouldProcessTask <;> simp [execute, hkind]

/-- C12: for every CloseExecution task on a workflow that is not running
locally, when the completion event, the start event and the last-write version
load and the verifier accepts, `execute` makes exactly one visibility write, a
`recordWorkflowClosed` whose history length is `nextEventId - 1`, whose close
time is the time of the completion event and whose start time is the time of
the start event, and returns the result of that call. -/
theorem execute_close_records (t : transferQueueStandbyTaskExecutor)
    (transferTask : TransferTaskInfo) (mutableState : mutableState)
    (shouldProcessTask : Bool) (log : List Call)
    (completionEvent startEvent : HistoryEvent) (lastWriteVersion : Int)
    (hkind : transferTask.TaskType = TaskType.TASK_TYPE_TRANSFER_CLOSE_EXECUTION)
    (hacq : acquiresContext t transferTask log)
    (hload : t.loadMutableStateForTransferTask (log ++ [acquireCall transferTask]) transferTask
      = (some mutableState, none))
    (hclosed : mutableState.IsWorkflowExecutionRunning = false)
    (hcompletion : mutableState.GetCompletionEvent = Except.ok completionEvent)
    (hstart : mutableState.GetStartEvent = Except.ok startEvent)
    (hlast : mutableState.GetLastWriteVersion = Except.ok lastWriteVersion)
    (hver : t.verifyTaskVersion
      (log ++ [acquireCall transferTask, Call.loadMutableStateForTransferTask transferTask])
      transferTask.NamespaceId lastWriteVersion transferTask.Version = (true, none)) :
    ∃ args : RecordWorkflowClosedArgs,
      args.historyLength = mutableState.GetNextEventID - 1 ∧
      args.endTimeUnixNano = completionEvent.Timestamp ∧
      args.startTimeUnixNano = startEvent.Timestamp ∧
      visibilityWrites
        (execute t (queueTaskInfo.transfer transferTask) shouldProcessTask log).2
        = [Call.recordWorkflowClosed args] ∧
      (execute t (queueTaskInfo.transfer transferTask) shouldProcessTask log).1
        = Outcome.returned (t.recordWorkflowClosed
          (log ++ [acquireCall transferTask, Call.loadMutableStateForTransferTask transferTask,
            Call.verifyTaskVersion transferTask.NamespaceId lastWriteVersion
              transferTask.Version]) args) := by
  obtain ⟨args, hlen, hend, hbegin, hact⟩ :=
    processCloseExecutionActionFn_apply_records t transferTask mutableState
      (log ++ [acquireCall transferTask, Call.loadMutableStateForTransferTask transferTask])
      completionEvent startEvent lastWriteVersion hclosed hcompletion hstart hlast hver
  refine ⟨args, hlen, hend, hbegin, ?_⟩
  rw [execute_close t transferTask shouldProcessTask hkind]
  unfold processCloseExecution
  simp only [List.append_assoc, List.cons_append, List.nil_append] at hact
  generalize hres : t.recordWorkflowClosed
    (log ++ [acquireCall transferTask, Call.loadMutableStateForTransferTask transferTask,
      Call.verifyTaskVersion transferTask.NamespaceId lastWriteVersion transferTask.Version])
    args = res at hact
  cases res with
  | none =>
    rw [processTransfer_apply_reaches t true transferTask _ _ log mutableState none _ hacq hload
      (Or.inr rfl) hact]
    simp [standbyTaskPostActionNoOp_apply, visibilityWrites, Call.isVisibilityWrite,
      acquireCall]
  | some err =>
    rw [processTransfer_apply_action_error t true transferTask _ _ log mutableState none err _
      hacq hload (Or.inr rfl) hact]
    simp [visibilityWrites, Call.isVisibilityWrite, acquireCall]

/-- C13: for every CloseExecution task whose workflow is still running locally,
whatever its completion event and versions are, `execute` returns success and
calls the cache, the loader and `release` only: no visibility write, no
verifier. -/
theorem execute_close_running (t : transferQueueStandbyTaskExecutor)
    (transferTask : TransferTaskInfo) (mutableState : mutableState)
    (shouldProcessTask : Bool) (log : List Call)
    (hkind : transferTask.TaskType = TaskType.TASK_TYPE_TRANSFER_CLOSE_EXECUTION)
    (hacq : acquiresContext t transferTask log)
    (hload : t.loadMutableStateForTransferTask (log ++ [acquireCall transferTask]) transferTask
      = (some mutableState, none))
    (hrun : mutableState.IsWorkflowExecutionRunning = true) :
    execute t (queueTaskInfo.transfer transferTask) shouldProcessTask log =
      (Outcome.returned none,
        [acquireCall transferTask, Call.loadMutableStateForTransferTask transferTask,
          Call.release none, Call.release none]) := by
  rw [execute_close t transferTask shouldProcessTask hkind]
  unfold processCloseExecution
  have hact : processCloseExecutionActionFn t transferTask mutableState
      (log ++ [acquireCall transferTask, Call.loadMutableStateForTransferTask transferTask])
      = ((none, none), []) := by
    simp [processCloseExecutionActionFn, hrun]
  rw [processTransfer_apply_reaches t true transferTask _ _ log mutableState none [] hacq hload
    (Or.inr rfl) hact]
  rfl

/-- C14: for every ResetWorkflow task and either value of `shouldProcessTask`,
`execute` returns success and makes no collaborator call. -/
theorem execute_reset_workflow (t : transferQueueStandbyTaskExecutor)
    (transferTask : TransferTaskInfo) (shouldProcessTask : Bool) (log : List Call)
    (hkind : transferTask.TaskType = TaskType.TASK_TYPE_TRANSFER_RESET_WORKFLOW) :
    execute t (queueTaskInfo.transfer transferTask) shouldProcessTask log
      = (Outcome.returned none, []) := by
  cases shouldProcessTask <;> simp [execute, hkind]

/-- Witness of C12: the close task on the closed sample workflow, whose next
event id is 9 and whose completion and start events carry the times 2000 and
1000; the visibility write succeeds. -/
theorem execute_close_records_witness :
    ∃ args : RecordWorkflowClosedArgs,
      args.historyLength = 8 ∧ args.endTimeUnixNano = 2000 ∧ args.startTimeUnixNano = 1000 ∧
      visibilityWrites (execute sampleExecutor
        (queueTaskInfo.transfer (sampleTask TaskType.TASK_TYPE_TRANSFER_CLOSE_EXECUTION))
        false []).2 = [Call.recordWorkflowClosed args] ∧
      (execute sampleExecutor
        (queueTaskInfo.transfer (sampleTask TaskType.TASK_TYPE_TRANSFER_CLOSE_EXECUTION))
        false []).1 = Outcome.returned none :=
  execute_close_records sampleExecutor
    (sampleTask TaskType.TASK_TYPE_TRANSFER_CLOSE_EXECUTION) sampleMutableState false []
    { Timestamp := 2000 } { Timestamp := 1000 } 3 rfl rfl rfl rfl rfl rfl rfl rfl

/-- Witness of C13: the close task on the running sample workflow. -/
theorem execute_close_running_witness :
    runningMutableState.IsWorkflowExecutionRunning = true ∧
      execute runningExecutor
        (queueTaskInfo.transfer (sampleTask TaskType.TASK_TYPE_TRANSFER_CLOSE_EXECUTION))
        true [] =
        (Outcome.returned none,
          [Call.getOrCreateWorkflowExecutionForBackground "ns" "wf" "run",
            Call.loadMutableStateForTransferTask
              (sampleTask TaskType.TASK_TYPE_TRANSFER_CLOSE_EXECUTION),
            Call.release none, Call.release none]) :=
  ⟨rfl, execute_close_running runningExecutor
    (sampleTask TaskType.TASK_TYPE_TRANSFER_CLOSE_EXECUTION) runningMutableState true []
    rfl rfl rfl rfl⟩

/-- Witness of C14: the reset task, asked or not. -/
theorem execute_reset_workflow_witness :
    execute sampleExecutor
        (queueTaskInfo.transfer (sampleTask TaskType.TASK_TYPE_TRANSFER_RESET_WORKFLOW))
        true [] = (Outcome.returned none, []) ∧
      execute sampleExecutor
        (queueTaskInfo.transfer (sampleTask TaskType.TASK_TYPE_TRANSFER_RESET_WORKFLOW))
        false [] = (Outcome.returned none, []) :=
  ⟨execute_reset_workflow sampleExecutor _ true [] rfl,
    execute_reset_workflow sampleExecutor _ false [] rfl⟩

/-! ## Early returns of `processTransfer` -/

/-- C15: for every task whose workflow is not running locally, a call of
`processTransfer` that does not process closed workflows returns success after
the load and the deferred release, whatever the predicate and the post-action
are: neither is invoked.  Every handler of `execute` other than the close
handler makes such a call, so no visibility write, matching push or remote
resend happens. -/
theorem processTransfer_closed_workflow (t : transferQueueStandbyTaskExecutor)
    (transferTask : TransferTaskInfo) (mutableState : mutableState) (log : List Call)
    (hacq : acquiresContext t transferTask log)
    (hload : t.loadMutableStateForTransferTask (log ++ [acquireCall transferTask]) transferTask
      = (some mutableState, none))
    (hclosed : mutableState.IsWorkflowExecutionRunning = false) :
    (∀ actionFn postActionFn,
      processTransfer t false (queueTaskInfo.transfer transferTask) actionFn postActionFn log
        = (Outcome.returned none,
          [acquireCall transferTask, Call.loadMutableStateForTransferTask transferTask,
            Call.release none])) ∧
    (∀ shouldProcessTask processTaskIfClosed actionFn,
      transferTask.TaskType ≠ TaskType.TASK_TYPE_TRANSFER_CLOSE_EXECUTION →
      handlerOf t transferTask shouldProcessTask = some (processTaskIfClosed, actionFn) →
      execute t (queueTaskInfo.transfer transferTask) shouldProcessTask log
        = (Outcome.returned none,
          [acquireCall transferTask, Call.loadMutableStateForTransferTask transferTask,
            Call.release none])) := by
  have hpt := fun actionFn postActionFn =>
    processTransfer_apply_closed t transferTask actionFn postActionFn log mutableState hacq
      hload hclosed
  refine ⟨hpt, ?_⟩
  intro shouldProcessTask processTaskIfClosed actionFn hkind hsome
  obtain ⟨postActionFn, -, hexec⟩ :=
    execute_of_handler_nil t transferTask shouldProcessTask processTaskIfClosed actionFn hsome
  have hpic : processTaskIfClosed = false := by
    unfold handlerOf at hsome
    by_cases hguard : shouldProcessTask = false ∧
        transferTask.TaskType ≠ TaskType.TASK_TYPE_TRANSFER_CLOSE_EXECUTION
    · simp [hguard] at hsome
    · simp only [if_neg hguard] at hsome
      cases hk : transferTask.TaskType <;>
        simp only [hk, Option.some.injEq, Prod.mk.injEq, reduceCtorEq] at hsome hkind <;>
        first
        | exact hsome.1.symm
        | exact (hkind rfl).elim
  subst hpic
  rw [hexec]
  exact hpt actionFn postActionFn

/-- Witness of C15: the activity task on the closed sample workflow. -/
theorem processTransfer_closed_workflow_witness :
    sampleMutableState.IsWorkflowExecutionRunning = false ∧
      execute sampleExecutor
        (queueTaskInfo.transfer (sampleTask TaskType.TASK_TYPE_TRANSFER_ACTIVITY_TASK))
        true [] =
        (Outcome.returned none,
          [Call.getOrCreateWorkflowExecutionForBackground "ns" "wf" "run",
            Call.loadMutableStateForTransferTask
              (sampleTask TaskType.TASK_TYPE_TRANSFER_ACTIVITY_TASK),
            Call.release none]) :=
  ⟨rfl, (processTransfer_closed_workflow sampleExecutor
    (sampleTask TaskType.TASK_TYPE_TRANSFER_ACTIVITY_TASK) sampleMutableState [] rfl rfl
    rfl).2 true false _ (by decide) rfl⟩

/-- C16 as stated fails: when the loader fails with the retry sentinel,
`processTransfer` returns the sentinel but releases with nil. -/
theorem processTransfer_load_retry_releases_nil :
    processTransfer retryLoadExecutor false
        (queueTaskInfo.transfer (sampleTask TaskType.TASK_TYPE_TRANSFER_ACTIVITY_TASK))
        (processActivityTaskActionFn retryLoadExecutor
          (sampleTask TaskType.TASK_TYPE_TRANSFER_ACTIVITY_TASK))
        (pushActivity retryLoadExecutor) [] =
      (Outcome.returned (some Error.ErrTaskRetry),
        [Call.getOrCreateWorkflowExecutionForBackground "ns" "wf" "run",
          Call.loadMutableStateForTransferTask
            (sampleTask TaskType.TASK_TYPE_TRANSFER_ACTIVITY_TASK),
          Call.release none]) := by
  decide

/-- C16, amended: in a call of `processTransfer` that gets the context, when the
loader yields no mutable state and no error the call returns success and
releases with nil; when the loader fails with error `e` the call returns `e`
and releases with `e`, or with nil when `e` is the retry sentinel.  In both
cases the calls are the same for every predicate and post-action: neither is
invoked. -/
theorem processTransfer_load_outcomes (t : transferQueueStandbyTaskExecutor)
    (processTaskIfClosed : Bool) (transferTask : TransferTaskInfo) (log : List Call)
    (hacq : acquiresContext t transferTask log) :
    (t.loadMutableStateForTransferTask (log ++ [acquireCall transferTask]) transferTask
        = (none, none) →
      ∀ actionFn postActionFn,
        processTransfer t processTaskIfClosed (queueTaskInfo.transfer transferTask) actionFn
          postActionFn log
          = (Outcome.returned none,
            [acquireCall transferTask, Call.loadMutableStateForTransferTask transferTask,
              Call.release none])) ∧
    (∀ loaded err,
      t.loadMutableStateForTransferTask (log ++ [acquireCall transferTask]) transferTask
        = (loaded, some err) →
      ∀ actionFn postActionFn,
        processTransfer t processTaskIfClosed (queueTaskInfo.transfer transferTask) actionFn
          postActionFn log
          = (Outcome.returned (some err),
            [acquireCall transferTask, Call.loadMutableStateForTransferTask transferTask,
              Call.release (if err = Error.ErrTaskRetry then none else some err)])) :=
  ⟨fun hload actionFn postActionFn =>
      processTransfer_apply_unknown_workflow t processTaskIfClosed transferTask actionFn
        postActionFn log hacq hload,
    fun loaded err hload actionFn postActionFn =>
      processTransfer_apply_load_error t processTaskIfClosed transferTask actionFn
        postActionFn log loaded err hacq hload⟩

/-- Witness of the amended C16: a loader that does not know the workflow, and a
loader that fails with error 9. -/
theorem processTransfer_load_outcomes_witness :
    processTransfer unknownWorkflowExecutor false
        (queueTaskInfo.transfer (sampleTask TaskType.TASK_TYPE_TRANSFER_ACTIVITY_TASK))
        (processActivityTaskActionFn unknownWorkflowExecutor
          (sampleTask TaskType.TASK_TYPE_TRANSFER_ACTIVITY_TASK))
        (pushActivity unknownWorkflowExecutor) [] =
      (Outcome.returned none,
        [acquireCall (sampleTask TaskType.TASK_TYPE_TRANSFER_ACTIVITY_TASK),
          Call.loadMutableStateForTransferTask
            (sampleTask TaskType.TASK_TYPE_TRANSFER_ACTIVITY_TASK),
          Call.release none]) ∧
    processTransfer failingLoadExecutor false
        (queueTaskInfo.transfer (sampleTask TaskType.TASK_TYPE_TRANSFER_ACTIVITY_TASK))
        (processActivityTaskActionFn failingLoadExecutor
          (sampleTask TaskType.TASK_TYPE_TRANSFER_ACTIVITY_TASK))
        (pushActivity failingLoadExecutor) [] =
      (Outcome.returned (some (Error.other 9)),
        [acquireCall (sampleTask TaskType.TASK_TYPE_TRANSFER_ACTIVITY_TASK),
          Call.loadMutableStateForTransferTask
            (sampleTask TaskType.TASK_TYPE_TRANSFER_ACTIVITY_TASK),
          Call.release (some (Error.other 9))]) :=
  ⟨(processTransfer_load_outcomes unknownWorkflowExecutor false
      (sampleTask TaskType.TASK_TYPE_TRANSFER_ACTIVITY_TASK) [] rfl).1 rfl _ _,
    (processTransfer_load_outcomes failingLoadExecutor false
      (sampleTask TaskType.TASK_TYPE_TRANSFER_ACTIVITY_TASK) [] rfl).2 none (Error.other 9)
      rfl _ _⟩

/-- C17: in every call of `processTransfer` in which the predicate returns a
non-nil error `e`, the call returns `e` and its calls end with the deferred
release after those of the predicate, whatever the post-action is: the
post-action is not invoked.  A call of `execute` that runs this handler returns
`e` with the same calls. -/
theorem processTransfer_predicate_error (t : transferQueueStandbyTaskExecutor)
    (processTaskIfClosed : Bool) (transferTask : TransferTaskInfo)
    (actionFn : standbyActionFn) (log : List Call)
    (mutableState : mutableState) (info : Option PostActionInfo) (err : Error)
    (calls : List Call)
    (hacq : acquiresContext t transferTask log)
    (hload : t.loadMutableStateForTransferTask (log ++ [acquireCall transferTask]) transferTask
      = (some mutableState, none))
    (hrun : mutableState.IsWorkflowExecutionRunning = true ∨ processTaskIfClosed = true)
    (hact : actionFn mutableState
        (log ++ [acquireCall transferTask, Call.loadMutableStateForTransferTask transferTask])
      = ((info, some err), calls)) :
    (∀ postActionFn,
      processTransfer t processTaskIfClosed (queueTaskInfo.transfer transferTask) actionFn
        postActionFn log =
        (Outcome.returned (some err),
          acquireCall transferTask :: Call.loadMutableStateForTransferTask transferTask ::
            (calls ++ [Call.release (if err = Error.ErrTaskRetry then none else some err)]))) ∧
    (∀ shouldProcessTask,
      handlerOf t transferTask shouldProcessTask = some (processTaskIfClosed, actionFn) →
      execute t (queueTaskInfo.transfer transferTask) shouldProcessTask log =
        (Outcome.returned (some err),
          acquireCall transferTask :: Call.loadMutableStateForTransferTask transferTask ::
            (calls ++ [Call.release (if err = Error.ErrTaskRetry then none else some err)]))) := by
  have hpt := fun postActionFn =>
    processTransfer_apply_action_error t processTaskIfClosed transferTask actionFn
      postActionFn log mutableState info err calls hacq hload hrun hact
  refine ⟨hpt, ?_⟩
  intro shouldProcessTask hsome
  obtain ⟨postActionFn, -, hexec⟩ :=
    execute_of_handler_nil t transferTask shouldProcessTask processTaskIfClosed actionFn hsome
  rw [hexec]
  exact hpt postActionFn

/-- Witness of C17: the activity task on the running sample workflow with a
verifier that fails with error 5. -/
theorem processTransfer_predicate_error_witness :
    processActivityTaskActionFn failingVerifierExecutor
        (sampleTask TaskType.TASK_TYPE_TRANSFER_ACTIVITY_TASK) runningMutableState
        [acquireCall (sampleTask TaskType.TASK_TYPE_TRANSFER_ACTIVITY_TASK),
          Call.loadMutableStateForTransferTask
            (sampleTask TaskType.TASK_TYPE_TRANSFER_ACTIVITY_TASK)]
        = ((none, some (Error.other 5)), [Call.verifyTaskVersion "ns" 3 3]) ∧
      execute failingVerifierExecutor
        (queueTaskInfo.transfer (sampleTask TaskType.TASK_TYPE_TRANSFER_ACTIVITY_TASK))
        true [] =
        (Outcome.returned (some (Error.other 5)),
          [acquireCall (sampleTask TaskType.TASK_TYPE_TRANSFER_ACTIVITY_TASK),
            Call.loadMutableStateForTransferTask
              (sampleTask TaskType.TASK_TYPE_TRANSFER_ACTIVITY_TASK),
            Call.verifyTaskVersion "ns" 3 3,
            Call.release (some (Error.other 5))]) :=
  ⟨rfl, (processTransfer_predicate_error failingVerifierExecutor false
    (sampleTask TaskType.TASK_TYPE_TRANSFER_ACTIVITY_TASK)
    (processActivityTaskActionFn failingVerifierExecutor
      (sampleTask TaskType.TASK_TYPE_TRANSFER_ACTIVITY_TASK)) [] runningMutableState none
    (Error.other 5) [Call.verifyTaskVersion "ns" 3 3] rfl rfl (Or.inl rfl) rfl).2 true rfl⟩

/-! ## The push predicates and the push timeout -/

/-- C18: for every ActivityTask whose activity info is present and whose version
the verifier accepts, the predicate returns `pushActivityToMatchingInfo` with
the `ScheduleToStartTimeout` of the activity exactly when the `StartedID` of the
activity is `EmptyEventID`, and returns `nil, nil` otherwise. -/
theorem processActivityTaskActionFn_result (t : transferQueueStandbyTaskExecutor)
    (transferTask : TransferTaskInfo) (mutableState : mutableState)
    (activityInfo : ActivityInfo) (log : List Call)
    (hinfo : mutableState.GetActivityInfo transferTask.ScheduleId = some activityInfo)
    (hver : t.verifyTaskVersion log transferTask.NamespaceId activityInfo.Version
      transferTask.Version = (true, none)) :
    ((processActivityTaskActionFn t transferTask mutableState log).1 =
        (some (PostActionInfo.pushActivityToMatchingInfo activityInfo.ScheduleToStartTimeout),
          none) ↔ activityInfo.StartedID = t.EmptyEventID) ∧
    (activityInfo.StartedID ≠ t.EmptyEventID →
      (processActivityTaskActionFn t transferTask mutableState log).1 = (none, none)) := by
  by_cases hstarted : activityInfo.StartedID = t.EmptyEventID
  · simp [processActivityTaskActionFn, hinfo, hver, hstarted]
  · simp [processActivityTaskActionFn, hinfo, hver, hstarted]

/-- Witness of C18: activity 5 of the running sample workflow is not started and
is pushed with its timeout 30; once started by event 6 it is not pushed. -/
theorem processActivityTaskActionFn_result_witness :
    (processActivityTaskActionFn runningExecutor
        (sampleTask TaskType.TASK_TYPE_TRANSFER_ACTIVITY_TASK) runningMutableState []).1 =
      (some (PostActionInfo.pushActivityToMatchingInfo 30), none) ∧
    (processActivityTaskActionFn runningExecutor
        (sampleTask TaskType.TASK_TYPE_TRANSFER_ACTIVITY_TASK)
        startedActivityMutableState []).1 = (none, none) :=
  ⟨(processActivityTaskActionFn_result runningExecutor
      (sampleTask TaskType.TASK_TYPE_TRANSFER_ACTIVITY_TASK) runningMutableState
      { Version := 3, StartedID := 0, ScheduleToStartTimeout := 30 } [] rfl rfl).1.mpr rfl,
    (processActivityTaskActionFn_result runningExecutor
      (sampleTask TaskType.TASK_TYPE_TRANSFER_ACTIVITY_TASK) startedActivityMutableState
      { Version := 3, StartedID := 6, ScheduleToStartTimeout := 30 } [] rfl rfl).2
      (by decide)⟩

/-- C19: for every DecisionTask whose decision info is present, not started and
accepted by the verifier, the predicate returns `pushDecisionToMatchingInfo`
with the timeout `min(workflowRunTimeout, MaxTaskTimeout)` and the task queue of
the task; `pushDecision` on that info makes one push to matching, for that task
queue, with the timeout `min(workflowRunTimeout, MaxTaskTimeout)` again. -/
theorem processDecisionTaskActionFn_result (t : transferQueueStandbyTaskExecutor)
    (transferTask : TransferTaskInfo) (mutableState : mutableState)
    (decisionInfo : DecisionInfo) (log : List Call)
    (hinfo : mutableState.GetDecisionInfo transferTask.ScheduleId = some decisionInfo)
    (hver : t.verifyTaskVersion log transferTask.NamespaceId decisionInfo.Version
      transferTask.Version = (true, none))
    (hstarted : decisionInfo.StartedID = t.EmptyEventID) :
    (processDecisionTaskActionFn t transferTask mutableState log).1 =
        (some (PostActionInfo.pushDecisionToMatchingInfo
          (min mutableState.GetExecutionInfo.WorkflowRunTimeout t.MaxTaskTimeout)
          transferTask.TaskQueue), none) ∧
    ∀ l, pushDecision t (queueTaskInfo.transfer transferTask)
        (processDecisionTaskActionFn t transferTask mutableState log).1.1 l =
      (Outcome.returned (t.basePushDecision l transferTask transferTask.TaskQueue
          (min mutableState.GetExecutionInfo.WorkflowRunTimeout t.MaxTaskTimeout)),
        [Call.pushDecision transferTask transferTask.TaskQueue
          (min mutableState.GetExecutionInfo.WorkflowRunTimeout t.MaxTaskTimeout)]) := by
  have hpred : (processDecisionTaskActionFn t transferTask mutableState log).1 =
      (some (PostActionInfo.pushDecisionToMatchingInfo
        (min mutableState.GetExecutionInfo.WorkflowRunTimeout t.MaxTaskTimeout)
        transferTask.TaskQueue), none) := by
    simp [processDecisionTaskActionFn, hinfo, hver, hstarted, MinInt32]
  refine ⟨hpred, ?_⟩
  intro l
  rw [hpred]
  simp [pushDecision, MinInt32]

/-- Witness of C19: decision 5 of a running workflow with run timeout 60 is
pushed to the task queue of the task with timeout 60. -/
theorem processDecisionTaskActionFn_result_witness :
    (processDecisionTaskActionFn runningExecutor
        (sampleTask TaskType.TASK_TYPE_TRANSFER_DECISION_TASK) decisionMutableState []).1 =
      (some (PostActionInfo.pushDecisionToMatchingInfo 60 "tq"), none) ∧
    pushDecision runningExecutor
        (queueTaskInfo.transfer (sampleTask TaskType.TASK_TYPE_TRANSFER_DECISION_TASK))
        (processDecisionTaskActionFn runningExecutor
          (sampleTask TaskType.TASK_TYPE_TRANSFER_DECISION_TASK) decisionMutableState []).1.1
        [] =
      (Outcome.returned none,
        [Call.pushDecision (sampleTask TaskType.TASK_TYPE_TRANSFER_DECISION_TASK) "tq" 60]) :=
  ⟨(processDecisionTaskActionFn_result runningExecutor
      (sampleTask TaskType.TASK_TYPE_TRANSFER_DECISION_TASK) decisionMutableState
      { Version := 3, StartedID := 0 } [] rfl rfl rfl).1,
    (processDecisionTaskActionFn_result runningExecutor
      (sampleTask TaskType.TASK_TYPE_TRANSFER_DECISION_TASK) decisionMutableState
      { Version := 3, StartedID := 0 } [] rfl rfl rfl).2 []⟩

/-- C20: every push to matching in a call of `pushActivity` or `pushDecision`
carries the timeout `min(s, MaxTaskTimeout)`, where `s` is the schedule-to-start
timeout of the info the call was given, and so a timeout of at most
`MaxTaskTimeout`; and on an info of its own kind each of the two makes that
push. -/
theorem push_timeout_capped (t : transferQueueStandbyTaskExecutor)
    (transferTask : TransferTaskInfo) (log : List Call) :
    (∀ info task timeout,
      Call.pushActivity task timeout ∈
        (pushActivity t (queueTaskInfo.transfer transferTask) info log).2 →
      ∃ s, info = some (PostActionInfo.pushActivityToMatchingInfo s) ∧
        timeout = min s t.MaxTaskTimeout ∧ timeout ≤ t.MaxTaskTimeout) ∧
    (∀ info task taskqueue timeout,
      Call.pushDecision task taskqueue timeout ∈
        (pushDecision t (queueTaskInfo.transfer transferTask) info log).2 →
      ∃ s, info = some (PostActionInfo.pushDecisionToMatchingInfo s taskqueue) ∧
        timeout = min s t.MaxTaskTimeout ∧ timeout ≤ t.MaxTaskTimeout) ∧
    (∀ s, (pushActivity t (queueTaskInfo.transfer transferTask)
        (some (PostActionInfo.pushActivityToMatchingInfo s)) log).2 =
      [Call.pushActivity transferTask (min s t.MaxTaskTimeout)]) ∧
    (∀ s taskqueue, (pushDecision t (queueTaskInfo.transfer transferTask)
        (some (PostActionInfo.pushDecisionToMatchingInfo s taskqueue)) log).2 =
      [Call.pushDecision transferTask taskqueue (min s t.MaxTaskTimeout)]) := by
  refine ⟨?_, ?_, ?_, ?_⟩
  · intro info task timeout hmem
    rcases info with _ | info
    · simp [pushActivity] at hmem
    · cases info with
      | pushActivityToMatchingInfo s =>
        simp [pushActivity, MinInt32] at hmem
        exact ⟨s, rfl, hmem.2, hmem.2 ▸ min_le_right _ _⟩
      | pushDecisionToMatchingInfo s q => simp [pushActivity] at hmem
      | historyResendInfo r => simp [pushActivity] at hmem
  · intro info task taskqueue timeout hmem
    rcases info with _ | info
    · simp [pushDecision] at hmem
    · cases info with
      | pushActivityToMatchingInfo s => simp [pushDecision] at hmem
      | pushDecisionToMatchingInfo s q =>
        simp [pushDecision, MinInt32] at hmem
        obtain ⟨-, hq, htimeout⟩ := hmem
        subst hq
        exact ⟨s, rfl, htimeout, htimeout ▸ min_le_right _ _⟩
      | historyResendInfo r => simp [pushDecision] at hmem
  · intro s
    simp [pushActivity, MinInt32]
  · intro s taskqueue
    simp [pushDecision, MinInt32]

/-- Witness of C20: a schedule-to-start timeout of 40000000 is pushed as the
`MaxTaskTimeout` of the sample executor, 31622400. -/
theorem push_timeout_capped_witness :
    (pushActivity sampleExecutor
        (queueTaskInfo.transfer (sampleTask TaskType.TASK_TYPE_TRANSFER_ACTIVITY_TASK))
        (some (PostActionInfo.pushActivityToMatchingInfo 40000000)) []).2 =
      [Call.pushActivity (sampleTask TaskType.TASK_TYPE_TRANSFER_ACTIVITY_TASK) 31622400] ∧
    (pushDecision sampleExecutor
        (queueTaskInfo.transfer (sampleTask TaskType.TASK_TYPE_TRANSFER_DECISION_TASK))
        (some (PostActionInfo.pushDecisionToMatchingInfo 40000000 "tq")) []).2 =
      [Call.pushDecision (sampleTask TaskType.TASK_TYPE_TRANSFER_DECISION_TASK) "tq"
        31622400] :=
  ⟨(push_timeout_capped sampleExecutor
      (sampleTask TaskType.TASK_TYPE_TRANSFER_ACTIVITY_TASK) []).2.2.1 40000000,
    (push_timeout_capped sampleExecutor
      (sampleTask TaskType.TASK_TYPE_TRANSFER_DECISION_TASK) []).2.2.2 40000000 "tq"⟩

/-! ## Wrong payloads and the resend predicates -/

/-- C21: for every task info that is not a transfer task, either value of
`shouldProcessTask`, every executor and every log of earlier calls, `execute`
returns `errUnexpectedQueueTask` and makes no collaborator call. -/
theorem execute_unexpected_payload (t : transferQueueStandbyTaskExecutor) (tag : Nat)
    (shouldProcessTask : Bool) (log : List Call) :
    execute t (queueTaskInfo.otherPayload tag) shouldProcessTask log =
      (Outcome.returned (some Error.errUnexpectedQueueTask), []) := by
  simp [execute]

/-- The result of `getHistoryResendInfo` as a predicate returns it is never
`nil, nil`. -/
theorem returnHistoryResendInfo_ne_nil (mutableState : mutableState) :
    returnHistoryResendInfo mutableState ≠ (none, none) := by
  unfold returnHistoryResendInfo
  cases mutableState.getHistoryResendInfo <;> simp

/-- C23: for every StartChildExecution task whose child info is present and
accepted by the verifier, the predicate returns `nil, nil` when the `StartedID`
of the child is not `EmptyEventID`, and returns what `getHistoryResendInfo`
yields on the mutable state exactly when it is `EmptyEventID`; the predicates
of CancelExecution and SignalExecution return what `getHistoryResendInfo`
yields whenever their info is present and accepted. -/
theorem resend_predicates_result (t : transferQueueStandbyTaskExecutor)
    (transferTask : TransferTaskInfo) (mutableState : mutableState) (log : List Call) :
    (∀ childWorkflowInfo,
      mutableState.GetChildExecutionInfo transferTask.ScheduleId = some childWorkflowInfo →
      t.verifyTaskVersion log transferTask.NamespaceId childWorkflowInfo.Version
        transferTask.Version = (true, none) →
      (childWorkflowInfo.StartedID ≠ t.EmptyEventID →
        (processStartChildExecutionActionFn t transferTask mutableState log).1
          = (none, none)) ∧
      ((processStartChildExecutionActionFn t transferTask mutableState log).1
          = returnHistoryResendInfo mutableState ↔
        childWorkflowInfo.StartedID = t.EmptyEventID)) ∧
    (∀ requestCancelInfo,
      mutableState.GetRequestCancelInfo transferTask.ScheduleId = some requestCancelInfo →
      t.verifyTaskVersion log transferTask.NamespaceId requestCancelInfo.Version
        transferTask.Version = (true, none) →
      (processCancelExecutionActionFn t transferTask mutableState log).1
        = returnHistoryResendInfo mutableState) ∧
    (∀ signalInfo,
      mutableState.GetSignalInfo transferTask.ScheduleId = some signalInfo →
      t.verifyTaskVersion log transferTask.NamespaceId signalInfo.Version
        transferTask.Version = (true, none) →
      (processSignalExecutionActionFn t transferTask mutableState log).1
        = returnHistoryResendInfo mutableState) ∧
    (∀ info, mutableState.getHistoryResendInfo = Except.ok info →
      returnHistoryResendInfo mutableState
        = (some (PostActionInfo.historyResendInfo info), none)) := by
  refine ⟨?_, ?_, ?_, ?_⟩
  · intro childWorkflowInfo hinfo hver
    by_cases hstarted : childWorkflowInfo.StartedID = t.EmptyEventID
    · simp [processStartChildExecutionActionFn, hinfo, hver, hstarted]
    · have hne := returnHistoryResendInfo_ne_nil mutableState
      simp [processStartChildExecutionActionFn, hinfo, hver, hstarted]
      exact fun h => hne h.symm
  · intro requestCancelInfo hinfo hver
    simp [processCancelExecutionActionFn, hinfo, hver]
  · intro signalInfo hinfo hver
    simp [processSignalExecutionActionFn, hinfo, hver]
  · intro info hinfo
    simp [returnHistoryResendInfo, hinfo]

/-- Witness of C23: on the running sample workflow, whose resend info is the
NDC cursor (7, 3), the three predicates return that info; once child 5 is
started the start-child predicate returns nil. -/
theorem resend_predicates_result_witness :
    (processStartChildExecutionActionFn runningExecutor
        (sampleTask TaskType.TASK_TYPE_TRANSFER_START_CHILD_EXECUTION)
        runningMutableState []).1
      = (some (PostActionInfo.historyResendInfo ndcResendInfo), none) ∧
    (processStartChildExecutionActionFn runningExecutor
        (sampleTask TaskType.TASK_TYPE_TRANSFER_START_CHILD_EXECUTION)
        startedChildMutableState []).1 = (none, none) ∧
    (processCancelExecutionActionFn runningExecutor
        (sampleTask TaskType.TASK_TYPE_TRANSFER_CANCEL_EXECUTION) runningMutableState []).1
      = (some (PostActionInfo.historyResendInfo ndcResendInfo), none) ∧
    (processSignalExecutionActionFn runningExecutor
        (sampleTask TaskType.TASK_TYPE_TRANSFER_SIGNAL_EXECUTION) runningMutableState []).1
      = (some (PostActionInfo.historyResendInfo ndcResendInfo), none) :=
  ⟨((resend_predicates_result runningExecutor
        (sampleTask TaskType.TASK_TYPE_TRANSFER_START_CHILD_EXECUTION) runningMutableState
        []).1 { Version := 3, StartedID := 0 } rfl rfl).2.mpr rfl,
    ((resend_predicates_result runningExecutor
        (sampleTask TaskType.TASK_TYPE_TRANSFER_START_CHILD_EXECUTION)
        startedChildMutableState []).1 { Version := 3, StartedID := 6 } rfl rfl).1
      (by decide),
    (resend_predicates_result runningExecutor
        (sampleTask TaskType.TASK_TYPE_TRANSFER_CANCEL_EXECUTION) runningMutableState
        []).2.1 { Version := 3 } rfl rfl,
    (resend_predicates_result runningExecutor
        (sampleTask TaskType.TASK_TYPE_TRANSFER_SIGNAL_EXECUTION) runningMutableState
        []).2.2.1 { Version := 3 } rfl rfl⟩

/-! ## The start and upsert handlers -/

@[simp] theorem visibilityWrites_append (xs ys : List Call) :
    visibilityWrites (xs ++ ys) = visibilityWrites xs ++ visibilityWrites ys := by
  simp [visibilityWrites]

/-- When the start event loads, the tail of the helper makes one visibility
call: `recordWorkflowStarted` for a start and `upsertWorkflowExecution`
otherwise, and returns its error. -/
theorem recordWorkflowStartedOrUpsert_apply (t : transferQueueStandbyTaskExecutor)
    (transferTask : TransferTaskInfo) (mutableState : mutableState)
    (startEvent : HistoryEvent)
    (hstart : mutableState.GetStartEvent = Except.ok startEvent) :
    ∃ args : RecordWorkflowStartedArgs,
      args.startTimeUnixNano = startEvent.Timestamp ∧
      (∀ l, recordWorkflowStartedOrUpsert t transferTask mutableState true l =
        (t.recordWorkflowStarted l args, [Call.recordWorkflowStarted args])) ∧
      (∀ l, recordWorkflowStartedOrUpsert t transferTask mutableState false l =
        (t.upsertWorkflowExecution l args, [Call.upsertWorkflowExecution args])) := by
  refine ⟨{
      namespaceID := transferTask.NamespaceId,
      workflowID := transferTask.WorkflowId,
      runID := transferTask.RunId,
      workflowTypeName := mutableState.GetExecutionInfo.WorkflowTypeName,
      startTimeUnixNano := startEvent.Timestamp,
      executionTimeUnixNano := mutableState.getWorkflowExecutionTimestamp startEvent,
      runTimeout := mutableState.GetExecutionInfo.WorkflowRunTimeout,
      taskID := transferTask.TaskId,
      taskQueue := mutableState.GetExecutionInfo.TaskQueue,
      visibilityMemo := t.getWorkflowMemo mutableState.GetExecutionInfo.Memo,
      searchAttributes := copySearchAttributes mutableState.GetExecutionInfo.SearchAttributes },
    rfl, ?_, ?_⟩
  · intro l
    simp only [recordWorkflowStartedOrUpsert, hstart, if_true, Exec.call_apply]
  · intro l
    simp only [recordWorkflowStartedOrUpsert, hstart, Bool.false_eq_true, if_false,
      Exec.call_apply]

/-- The shapes of a run of the record-started predicate: it makes no visibility
write, or its calls are the verification of the start version against the
version of the task followed by one `recordWorkflowStarted`. -/
theorem processRecordWorkflowStarted_actionFn_shape (t : transferQueueStandbyTaskExecutor)
    (transferTask : TransferTaskInfo) (mutableState : mutableState) (log : List Call) :
    ∃ err calls,
      processRecordWorkflowStartedOrUpsertActionFn t transferTask true mutableState log
        = ((none, err), calls) ∧
      (visibilityWrites calls = [] ∨
        ∃ startVersion args,
          mutableState.GetStartVersion = Except.ok startVersion ∧
          calls = [Call.verifyTaskVersion transferTask.NamespaceId startVersion
            transferTask.Version, Call.recordWorkflowStarted args]) := by
  unfold processRecordWorkflowStartedOrUpsertActionFn processRecordWorkflowStartedOrUpsertHelper
  cases hsv : mutableState.GetStartVersion with
  | error e => exact ⟨some e, [], by simp, Or.inl rfl⟩
  | ok startVersion =>
    rcases hver : t.verifyTaskVersion log transferTask.NamespaceId startVersion
      transferTask.Version with ⟨ok, err⟩
    cases err with
    | some e =>
      exact ⟨some e, [Call.verifyTaskVersion transferTask.NamespaceId startVersion
        transferTask.Version], by simp [hver], Or.inl rfl⟩
    | none =>
      cases ok with
      | false =>
        exact ⟨none, [Call.verifyTaskVersion transferTask.NamespaceId startVersion
          transferTask.Version], by simp [hver], Or.inl rfl⟩
      | true =>
        cases hse : mutableState.GetStartEvent with
        | error e =>
          exact ⟨some e, [Call.verifyTaskVersion transferTask.NamespaceId startVersion
            transferTask.Version],
            by simp [hver, recordWorkflowStartedOrUpsert, hse], Or.inl rfl⟩
        | ok startEvent =>
          obtain ⟨args, -, hrec, -⟩ :=
            recordWorkflowStartedOrUpsert_apply t transferTask mutableState startEvent hse
          exact ⟨t.recordWorkflowStarted
              (log ++ [Call.verifyTaskVersion transferTask.NamespaceId startVersion
                transferTask.Version]) args,
            [Call.verifyTaskVersion transferTask.NamespaceId startVersion
              transferTask.Version, Call.recordWorkflowStarted args],
            by simp [hver, hrec], Or.inr ⟨startVersion, args, rfl, rfl⟩⟩

/-- C22 as stated fails: an upsert task that nobody asked to process, on the
running sample workflow whose start event loads, is skipped without a call to
`upsertWorkflowExecution`. -/
theorem execute_upsert_not_asked :
    runningMutableState.IsWorkflowExecutionRunning = true ∧
      runningMutableState.GetStartEvent = Except.ok { Timestamp := 1000 } ∧
      execute runningExecutor
        (queueTaskInfo.transfer
          (sampleTask TaskType.TASK_TYPE_TRANSFER_UPSERT_WORKFLOW_SEARCH_ATTRIBUTES))
        false [] = (Outcome.returned none, []) :=
  ⟨rfl, rfl, rfl⟩

/-- C22, amended: for every UpsertWorkflowSearchAttributes task that `execute`
is asked to process, on a running workflow, whatever the start version is, the
verifier is not consulted; if the start event loads there is exactly one
visibility write, an `upsertWorkflowExecution`, and `execute` returns its
result.  For every RecordWorkflowStarted task, when a call of `execute` writes
to visibility, the start version of the loaded workflow was verified against
the version of the task before the first visibility write. -/
theorem execute_upsert_and_record_started (t : transferQueueStandbyTaskExecutor)
    (transferTask : TransferTaskInfo) (log : List Call) :
    (transferTask.TaskType = TaskType.TASK_TYPE_TRANSFER_UPSERT_WORKFLOW_SEARCH_ATTRIBUTES →
      acquiresContext t transferTask log →
      ∀ mutableState,
        t.loadMutableStateForTransferTask (log ++ [acquireCall transferTask]) transferTask
          = (some mutableState, none) →
        mutableState.IsWorkflowExecutionRunning = true →
        verifyCalls (execute t (queueTaskInfo.transfer transferTask) true log).2 = [] ∧
        ∀ startEvent, mutableState.GetStartEvent = Except.ok startEvent →
          ∃ args : RecordWorkflowStartedArgs,
            visibilityWrites (execute t (queueTaskInfo.transfer transferTask) true log).2
              = [Call.upsertWorkflowExecution args] ∧
            (execute t (queueTaskInfo.transfer transferTask) true log).1
              = Outcome.returned (t.upsertWorkflowExecution
                (log ++ [acquireCall transferTask,
                  Call.loadMutableStateForTransferTask transferTask]) args)) ∧
    (transferTask.TaskType = TaskType.TASK_TYPE_TRANSFER_RECORD_WORKFLOW_STARTED →
      ∀ shouldProcessTask,
        visibilityWrites
          (execute t (queueTaskInfo.transfer transferTask) shouldProcessTask log).2 ≠ [] →
        ∃ mutableState startVersion,
          t.loadMutableStateForTransferTask (log ++ [acquireCall transferTask]) transferTask
            = (some mutableState, none) ∧
          mutableState.GetStartVersion = Except.ok startVersion ∧
          Call.verifyTaskVersion transferTask.NamespaceId startVersion transferTask.Version ∈
            beforeVisibilityWrite
              (execute t (queueTaskInfo.transfer transferTask) shouldProcessTask log).2) := by
  constructor
  · intro hk hacq mutableState hload hrun
    rw [execute_dispatch]
    simp only [hk, processUpsertWorkflowSearchAttributes]
    cases hse : mutableState.GetStartEvent with
    | error e =>
      have hact : processRecordWorkflowStartedOrUpsertActionFn t transferTask false
          mutableState
          (log ++ [acquireCall transferTask,
            Call.loadMutableStateForTransferTask transferTask])
          = ((none, some e), []) := by
        simp [processRecordWorkflowStartedOrUpsertActionFn,
          processRecordWorkflowStartedOrUpsertHelper, recordWorkflowStartedOrUpsert, hse]
      rw [processTransfer_apply_action_error t false transferTask _ _ log mutableState none e
        [] hacq hload (Or.inl hrun) hact]
      refine ⟨by simp [verifyCalls, Call.isVerify, acquireCall], ?_⟩
      intro startEvent h
      cases h
    | ok startEvent =>
      obtain ⟨args, -, -, hups⟩ :=
        recordWorkflowStartedOrUpsert_apply t transferTask mutableState startEvent hse
      have hact : processRecordWorkflowStartedOrUpsertActionFn t transferTask false
          mutableState
          (log ++ [acquireCall transferTask,
            Call.loadMutableStateForTransferTask transferTask])
          = ((none, t.upsertWorkflowExecution
              (log ++ [acquireCall transferTask,
                Call.loadMutableStateForTransferTask transferTask]) args),
            [Call.upsertWorkflowExecution args]) := by
        simp [processRecordWorkflowStartedOrUpsertActionFn,
          processRecordWorkflowStartedOrUpsertHelper, hups]
      generalize hres : t.upsertWorkflowExecution
        (log ++ [acquireCall transferTask,
          Call.loadMutableStateForTransferTask transferTask]) args = res at hact
      cases res with
      | none =>
        rw [processTransfer_apply_reaches t false transferTask _ _ log mutableState none _
          hacq hload (Or.inl hrun) hact]
        refine ⟨by simp [standbyTaskPostActionNoOp_apply, verifyCalls, Call.isVerify,
          acquireCall], ?_⟩
        intro startEvent' _
        exact ⟨args,
          by simp [standbyTaskPostActionNoOp_apply, visibilityWrites,
            Call.isVisibilityWrite, acquireCall],
          by simp [standbyTaskPostActionNoOp_apply, hres]⟩
      | some err =>
        rw [processTransfer_apply_action_error t false transferTask _ _ log mutableState none
          err _ hacq hload (Or.inl hrun) hact]
        refine ⟨by simp [verifyCalls, Call.isVerify, acquireCall], ?_⟩
        intro startEvent' _
        exact ⟨args, by simp [visibilityWrites, Call.isVisibilityWrite, acquireCall],
          by simp [hres]⟩
  · intro hk shouldProcessTask hwrite
    cases shouldProcessTask with
    | false =>
      exfalso
      apply hwrite
      simp [execute, hk, visibilityWrites]
    | true =>
      rw [execute_dispatch] at hwrite ⊢
      simp only [hk, processRecordWorkflowStarted] at hwrite ⊢
      by_cases hacq : acquiresContext t transferTask log
      · rcases hload : t.loadMutableStateForTransferTask (log ++ [acquireCall transferTask])
          transferTask with ⟨loaded, lerr⟩
        cases lerr with
        | some e =>
          exfalso
          apply hwrite
          rw [processTransfer_apply_load_error t false transferTask _ _ log loaded e hacq
            hload]
          simp [visibilityWrites, Call.isVisibilityWrite, acquireCall]
        | none =>
          cases loaded with
          | none =>
            exfalso
            apply hwrite
            rw [processTransfer_apply_unknown_workflow t false transferTask _ _ log hacq
              hload]
            simp [visibilityWrites, Call.isVisibilityWrite, acquireCall]
          | some mutableState =>
            cases hrun : mutableState.IsWorkflowExecutionRunning with
            | false =>
              exfalso
              apply hwrite
              rw [processTransfer_apply_closed t transferTask _ _ log mutableState hacq hload
                hrun]
              simp [visibilityWrites, Call.isVisibilityWrite, acquireCall]
            | true =>
              obtain ⟨err, calls, hact, hshape⟩ :=
                processRecordWorkflowStarted_actionFn_shape t transferTask mutableState
                  (log ++ [acquireCall transferTask,
                    Call.loadMutableStateForTransferTask transferTask])
              have hcalls : visibilityWrites calls ≠ [] → ∃ startVersion args,
                  mutableState.GetStartVersion = Except.ok startVersion ∧
                  calls = [Call.verifyTaskVersion transferTask.NamespaceId startVersion
                    transferTask.Version, Call.recordWorkflowStarted args] := by
                intro hne
                rcases hshape with h | h
                · exact (hne h).elim
                · exact h
              cases err with
              | none =>
                rw [processTransfer_apply_reaches t false transferTask _ _ log mutableState
                  none calls hacq hload (Or.inl hrun) hact] at hwrite ⊢
                simp only [standbyTaskPostActionNoOp_apply] at hwrite ⊢
                have hne : visibilityWrites calls ≠ [] := by
                  intro h
                  apply hwrite
                  show visibilityWrites ([acquireCall transferTask,
                    Call.loadMutableStateForTransferTask transferTask] ++
                    (calls ++ [Call.release none, Call.release _])) = []
                  rw [visibilityWrites_append, visibilityWrites_append, h]
                  rfl
                obtain ⟨startVersion, args, hsv, hc⟩ := hcalls hne
                subst hc
                exact ⟨mutableState, startVersion, rfl, hsv,
                  by simp [beforeVisibilityWrite, Call.isVisibilityWrite, acquireCall]⟩
              | some e =>
                rw [processTransfer_apply_action_error t false transferTask _ _ log
                  mutableState none e calls hacq hload (Or.inl hrun) hact] at hwrite ⊢
                have hne : visibilityWrites calls ≠ [] := by
                  intro h
                  apply hwrite
                  show visibilityWrites ([acquireCall transferTask,
                    Call.loadMutableStateForTransferTask transferTask] ++
                    (calls ++ [Call.release _])) = []
                  rw [visibilityWrites_append, visibilityWrites_append, h]
                  rfl
                obtain ⟨startVersion, args, hsv, hc⟩ := hcalls hne
                subst hc
                exact ⟨mutableState, startVersion, rfl, hsv,
                  by simp [beforeVisibilityWrite, Call.isVisibilityWrite, acquireCall]⟩
      · exfalso
        apply hwrite
        unfold acquiresContext at hacq
        obtain ⟨err, herr⟩ := Option.ne_none_iff_exists'.mp hacq
        rw [processTransfer_apply_not_acquired _ _ _ _ _ _ err herr]
        simp [visibilityWrites, Call.isVisibilityWrite, acquireCall]

/-- Witness of the amended C22: on the running sample workflow the upsert task
makes one `upsertWorkflowExecution` without a verification and returns its
result, and the record-started task verifies before it writes. -/
theorem execute_upsert_and_record_started_witness :
    (verifyCalls (execute runningExecutor
        (queueTaskInfo.transfer
          (sampleTask TaskType.TASK_TYPE_TRANSFER_UPSERT_WORKFLOW_SEARCH_ATTRIBUTES))
        true []).2 = [] ∧
      ∃ args : RecordWorkflowStartedArgs,
        visibilityWrites (execute runningExecutor
          (queueTaskInfo.transfer
            (sampleTask TaskType.TASK_TYPE_TRANSFER_UPSERT_WORKFLOW_SEARCH_ATTRIBUTES))
          true []).2 = [Call.upsertWorkflowExecution args] ∧
        (execute runningExecutor
          (queueTaskInfo.transfer
            (sampleTask TaskType.TASK_TYPE_TRANSFER_UPSERT_WORKFLOW_SEARCH_ATTRIBUTES))
          true []).1 = Outcome.returned none) ∧
    ∃ mutableState startVersion,
      runningExecutor.loadMutableStateForTransferTask
          ([] ++ [acquireCall (sampleTask TaskType.TASK_TYPE_TRANSFER_RECORD_WORKFLOW_STARTED)])
          (sampleTask TaskType.TASK_TYPE_TRANSFER_RECORD_WORKFLOW_STARTED)
        = (some mutableState, none) ∧
      mutableState.GetStartVersion = Except.ok startVersion ∧
      Call.verifyTaskVersion "ns" startVersion 3 ∈
        beforeVisibilityWrite (execute runningExecutor
          (queueTaskInfo.transfer
            (sampleTask TaskType.TASK_TYPE_TRANSFER_RECORD_WORKFLOW_STARTED))
          true []).2 :=
  ⟨⟨((execute_upsert_and_record_started runningExecutor
        (sampleTask TaskType.TASK_TYPE_TRANSFER_UPSERT_WORKFLOW_SEARCH_ATTRIBUTES) []).1
        rfl rfl runningMutableState rfl rfl).1,
      ((execute_upsert_and_record_started runningExecutor
        (sampleTask TaskType.TASK_TYPE_TRANSFER_UPSERT_WORKFLOW_SEARCH_ATTRIBUTES) []).1
        rfl rfl runningMutableState rfl rfl).2 { Timestamp := 1000 } rfl⟩,
    (execute_upsert_and_record_started runningExecutor
      (sampleTask TaskType.TASK_TYPE_TRANSFER_RECORD_WORKFLOW_STARTED) []).2 rfl true
      (by decide)⟩

end History

namespace mysql

/-! ## The delete of tasks in the MySQL plugin -/

/-- C24 as stated fails: on a filter with neither `TaskIDLessThanEquals` nor
`TaskID` set, `DeleteFromTasks` dereferences the nil `TaskID` and executes no
statement, not the single-task delete. -/
theorem DeleteFromTasks_no_task_id :
    sampleFilter.TaskIDLessThanEquals = none ∧
      DeleteFromTasks sampleDb sampleFilter [] = (Outcome.panicked, []) := by
  decide

/-- C24, amended: for every tasks filter with `TaskIDLessThanEquals` set,
`DeleteFromTasks` fails with the error "missing limit parameter" and executes
no statement if and only if `Limit` is unset or zero, and with a non-zero
`Limit` it executes exactly the range-delete statement with that bound and
that limit and returns its result; with `TaskIDLessThanEquals` unset and
`TaskID` set it executes exactly the single-task delete and returns its
result. -/
theorem DeleteFromTasks_statements (mdb : db) (filter : TasksFilter)
    (executed : List Statement) :
    (∀ taskIDLessThanEquals, filter.TaskIDLessThanEquals = some taskIDLessThanEquals →
      (DeleteFromTasks mdb filter executed
          = (Outcome.returned (ExecResult.error "missing limit parameter"), []) ↔
        (filter.Limit = none ∨ filter.Limit = some 0)) ∧
      ∀ limit, filter.Limit = some limit → limit ≠ 0 →
        DeleteFromTasks mdb filter executed =
          (Outcome.returned (mdb.Exec executed
              { query := rangeDeleteTaskQry
                args := [Arg.text filter.NamespaceID, Arg.text filter.TaskQueueName,
                  Arg.int filter.TaskType, Arg.int taskIDLessThanEquals, Arg.int limit] }),
            [{ query := rangeDeleteTaskQry
               args := [Arg.text filter.NamespaceID, Arg.text filter.TaskQueueName,
                 Arg.int filter.TaskType, Arg.int taskIDLessThanEquals,
                 Arg.int limit] }])) ∧
    (filter.TaskIDLessThanEquals = none →
      ∀ taskID, filter.TaskID = some taskID →
        DeleteFromTasks mdb filter executed =
          (Outcome.returned (mdb.Exec executed
              { query := deleteTaskQry
                args := [Arg.text filter.NamespaceID, Arg.text filter.TaskQueueName,
                  Arg.int filter.TaskType, Arg.int taskID] }),
            [{ query := deleteTaskQry
               args := [Arg.text filter.NamespaceID, Arg.text filter.TaskQueueName,
                 Arg.int filter.TaskType, Arg.int taskID] }])) := by
  constructor
  · intro taskIDLessThanEquals hrange
    constructor
    · cases hlimit : filter.Limit with
      | none => simp [DeleteFromTasks, hrange, hlimit]
      | some limit =>
        by_cases hzero : limit = 0
        · simp [DeleteFromTasks, hrange, hlimit, hzero]
        · simp [DeleteFromTasks, hrange, hlimit, hzero]
    · intro limit hlimit hzero
      simp [DeleteFromTasks, hrange, hlimit, hzero]
  · intro hsingle taskID htask
    simp [DeleteFromTasks, hsingle, htask]

/-- Witness of the amended C24: a range delete up to task 100 fails without a
limit and with limit 0, runs with limit 10, and a delete of task 7 runs the
single-task statement. -/
theorem DeleteFromTasks_statements_witness :
    DeleteFromTasks sampleDb { sampleFilter with TaskIDLessThanEquals := some 100 } []
      = (Outcome.returned (ExecResult.error "missing limit parameter"), []) ∧
    DeleteFromTasks sampleDb
        { sampleFilter with TaskIDLessThanEquals := some 100, Limit := some 0 } []
      = (Outcome.returned (ExecResult.error "missing limit parameter"), []) ∧
    DeleteFromTasks sampleDb
        { sampleFilter with TaskIDLessThanEquals := some 100, Limit := some 10 } []
      = (Outcome.returned (ExecResult.ok 1),
        [{ query := rangeDeleteTaskQry
           args := [Arg.text "ns", Arg.text "tq", Arg.int 0, Arg.int 100, Arg.int 10] }]) ∧
    DeleteFromTasks sampleDb { sampleFilter with TaskID := some 7 } []
      = (Outcome.returned (ExecResult.ok 1),
        [{ query := deleteTaskQry
           args := [Arg.text "ns", Arg.text "tq", Arg.int 0, Arg.int 7] }]) :=
  ⟨((DeleteFromTasks_statements sampleDb
      { sampleFilter with TaskIDLessThanEquals := some 100 } []).1 100 rfl).1.mpr
      (Or.inl rfl),
    ((DeleteFromTasks_statements sampleDb
      { sampleFilter with TaskIDLessThanEquals := some 100, Limit := some 0 } []).1 100
      rfl).1.mpr (Or.inr rfl),
    ((DeleteFromTasks_statements sampleDb
      { sampleFilter with TaskIDLessThanEquals := some 100, Limit := some 10 } []).1 100
      rfl).2 10 rfl (by decide),
    (DeleteFromTasks_statements sampleDb { sampleFilter with TaskID := some 7 } []).2 rfl 7
      rfl⟩

end mysql
